import Mathlib

/-! SHAKE SK6 packet framing and decoding (SK6.cpp).

A shallow embedding of the packet engine of `SK6.cpp`: header classification,
stream resynchronisation, ASCII and raw framing, field extraction and the
acknowledgment path.

Conventions.
* A byte is a natural number (0..255 on the wire); `'$'` is 36, `'\n'` is 10,
  `'\r'` is 13, `','` is 44, `'0'` is 48, `' '` is 32 and the raw marker
  `0x7F` is 127.
* C `int` values (packet types, lengths, counts, event codes) are `Int`.
* The headers `SK6.h`, `SK6_packets.h`, `SK6_parsing.h` and `shake_parsing.h`
  are not part of the sources at hand.  Every enumerator, table and structure
  offset they declare is a field of `Decls`, so that results hold for every
  value of those declarations.
-/

namespace ShakeSK6

/-! ## Buffers and the transport -/

/-- The packet buffer `char* packetbuf`, addressed by byte offset. -/
abbrev Buf := Nat → Nat

/-- Writing the bytes `bytes` into a buffer from offset `off` on. -/
def store (buf : Buf) (off : Nat) (bytes : List Nat) : Buf :=
  fun i => if off ≤ i ∧ i < off + bytes.length then bytes.getD (i - off) 0 else buf i

/-- The C call `memset(buf, v, n)`. -/
def memset (buf : Buf) (v n : Nat) : Buf :=
  fun i => if i < n then v else buf i

/-- The serial link: the bytes that have not been delivered yet and the sizes
of the reads requested so far, oldest first. -/
structure Port where
  input : List Nat
  requests : List Nat

/-- Modelled from the spec: the transport primitive `read_bytes(devpriv, buf, n)`
(its code is not in SK6.cpp), a blocking read of `n` bytes that returns the
actual count.  It delivers the next `n` bytes of the link into `buf + off`, or
all the remaining ones when fewer than `n` are left (short read).  This is the
read with no lookahead byte pending: the hand-over of a byte held in
`devpriv->peek` to the next read is no part of SK6.cpp, which only writes
`peek` and `peek_flag`, and is not modelled; statements about the bytes that
an operation reads from its entry on take `peek_flag` to be clear there. -/
def read_bytes (p : Port) (buf : Buf) (off : Nat) (n : Int) : Int × Buf × Port :=
  let got := p.input.take n.toNat
  ((got.length : Int), store buf off got,
    { input := p.input.drop n.toNat, requests := p.requests ++ [n.toNat] })

/-! ## Declarations taken from the missing headers -/

/-- Length of an ASCII header (comment at SK6.cpp:253: ASCII headers are 4 bytes). -/
def SK6_HEADER_LEN : Int := 4

/-- Length of a raw header (comment at SK6.cpp:253: raw headers are 3 bytes). -/
def SK6_RAW_HEADER_LEN : Int := 3

/-- Length of the checksum trailer (SK6.cpp:152-154: the final 3 bytes). -/
def CHECKSUM_LENGTH : Int := 3

/-- Return codes of the framers. -/
inductive ReadCode where
  | SK6_ASCII_READ_OK
  | SK6_ASCII_READ_ERROR
  | SK6_ASCII_READ_CONTINUE
  | SK6_RAW_READ_OK
  | SK6_RAW_READ_ERROR
  deriving DecidableEq, Repr

/-- Return codes of the extractors. -/
inductive Status where
  | SHAKE_SUCCESS
  | SHAKE_ERROR
  deriving DecidableEq, Repr

/-- Everything SK6.cpp uses from the headers that are not at hand: the packet
type enumeration, the event codes, the sensor indices, the four packet tables
and the offsets of the fields of the packet structures. -/
structure Decls where
  -- enum of packet types
  SK6_DATA_ACC : Int
  SK6_DATA_GYRO : Int
  SK6_DATA_MAG : Int
  SK6_DATA_HEADING : Int
  SK6_DATA_CAP0 : Int
  SK6_DATA_CAP1 : Int
  SK6_DATA_ANA0 : Int
  SK6_DATA_ANA1 : Int
  SK6_DATA_NVU : Int
  SK6_DATA_NVD : Int
  SK6_DATA_NVC : Int
  SK6_DATA_NVN : Int
  SK6_DATA_CU0 : Int
  SK6_DATA_CL0 : Int
  SK6_DATA_CU1 : Int
  SK6_DATA_CL1 : Int
  SK6_DATA_TIMESTAMP : Int
  SK6_DATA_PLAYBACK_COMPLETE : Int
  SK6_DATA_RFID_TID : Int
  SK6_DATA_SHAKING : Int
  SK6_DATA_HEART_RATE : Int
  SK6_ACK_ACK : Int
  SK6_ACK_NEG : Int
  SK6_STARTUP_INFO : Int
  SK6_RAW_DATA_ACC : Int
  SK6_RAW_DATA_GYRO : Int
  SK6_RAW_DATA_MAG : Int
  SK6_RAW_DATA_HEADING : Int
  SK6_RAW_DATA_CAP0 : Int
  SK6_RAW_DATA_CAP1 : Int
  SK6_RAW_DATA_ANALOG0 : Int
  SK6_RAW_DATA_ANALOG1 : Int
  SK6_RAW_DATA_EVENT : Int
  SK6_RAW_DATA_SHAKING : Int
  SK6_RAW_DATA_AUDIO : Int
  SK6_RAW_DATA_AUDIO_EXP : Int
  SK6_RAW_DATA_AUDIO_HEADER : Int
  SK6_NUM_PACKET_TYPES : Int
  SHAKE_BAD_PACKET : Int
  -- event codes
  SHAKE_NAV_UP : Int
  SHAKE_NAV_DOWN : Int
  SHAKE_NAV_CENTRE : Int
  SHAKE_NAV_NORMAL : Int
  SK6_CS0_UPPER : Int
  SK6_CS0_LOWER : Int
  SK6_CS1_UPPER : Int
  SK6_CS1_LOWER : Int
  SHAKE_SHAKING_EVENT : Int
  SHAKE_HEART_RATE_EVENT : Int
  SHAKE_PLAYBACK_COMPLETE : Int
  SHAKE_RFID_TID_EVENT : Int
  -- indices of the sensor channels
  SHAKE_SENSOR_ACC : Int
  SHAKE_SENSOR_GYRO : Int
  SHAKE_SENSOR_MAG : Int
  SHAKE_SENSOR_HEADING : Int
  SHAKE_SENSOR_SK6_CAP0 : Int
  SHAKE_SENSOR_SK6_CAP1 : Int
  SHAKE_SENSOR_ANA0 : Int
  SHAKE_SENSOR_ANA1 : Int
  SHAKE_RFID_TAG_LENGTH : Nat
  -- tables indexed by packet type
  sk6_packet_lengths : Int → Int
  sk6_packet_has_checksum : Int → Int
  sk6_packet_headers : Int → List Nat
  sk6_raw_packet_headers : Int → Nat
  -- offsets of the `data` member of the fields of the ASCII packet structures
  acc_accx : Nat
  acc_accy : Nat
  acc_accz : Nat
  acc_seq : Nat
  gyr_gyrx : Nat
  gyr_gyry : Nat
  gyr_gyrz : Nat
  gyr_seq : Nat
  mag_magx : Nat
  mag_magy : Nat
  mag_magz : Nat
  mag_seq : Nat
  heading_heading : Nat
  heading_seq : Nat
  cap_prox : Nat
  cap_seq : Nat
  analog_voltage : Nat
  analog_seq : Nat
  nav_packet_id : Nat
  shake_peakaccel : Nat
  shake_direction : Nat
  shake_timestamp : Nat
  shake_seq : Nat
  hr_heart_bpm : Nat
  hr_seq : Nat
  ack_addr : Nat
  ack_val : Nat
  -- offsets in the raw packet structures
  raw_long_data : Nat
  raw_long_seq : Nat
  raw_short_data : Nat
  raw_short_seq : Nat
  -- effect of `shake_read_info_line` and the other reads of `read_device_info`
  -- on the link (the callee is not in SK6.cpp)
  read_info_lines : Port → Port

/-! ## Device state -/

/-- The sensor record `data` of the device object. -/
structure SensorData where
  accx : Int
  accy : Int
  accz : Int
  gyrx : Int
  gyry : Int
  gyrz : Int
  magx : Int
  magy : Int
  magz : Int
  heading : Int
  cap_sk6_0 : Int
  cap_sk6_1 : Int
  ana0 : Int
  ana1 : Int
  shaking_peak_accel : Int
  shaking_direction : Int
  shaking_timestamp : Int
  sk6seq : Int
  hr_bpm : Int
  hrseq : Int
  internal_timestamps : Int → Int

/-- The members of `devpriv` that SK6.cpp reads or writes. `navcb`,
`navcb_STDCALL` and `log` record whether the pointer is non-null. -/
structure DevPriv where
  checksum : Bool
  peek : Nat
  peek_flag : Bool
  waiting_for_ack : Bool
  waiting_for_ack_signal : Bool
  lastack : Bool
  lastaddr : Int
  lastval : Int
  lastevent : Int
  lastrfid : List Nat
  navcb : Bool
  navcb_STDCALL : Bool
  log : Bool
  rthread_done : Bool
  rthread_exit : Int
  packets_read : Int

/-- The device object: private state, sensor record, the link, and the number
of `shake_thread_signal` calls made so far. -/
structure SK6 where
  devpriv : DevPriv
  data : SensorData
  port : Port
  thread_signals : Nat

/-- The call `shake_thread_signal(&(devpriv->thread), CALLBACK_THREAD)`. -/
def shake_thread_signal (s : SK6) : SK6 :=
  { s with thread_signals := s.thread_signals + 1 }

/-- Assignment `data.internal_timestamps[k] = v`. -/
def set_timestamp (d : SensorData) (k v : Int) : SensorData :=
  { d with internal_timestamps := fun i => if i = k then v else d.internal_timestamps i }

/-! ## Header classification (SK6.cpp:695-728) -/

/-- The test `strncmp(a, b, n) == 0` on NUL-terminated byte strings; `b` is a
string literal, whose terminator is read as the 0 past the end of the list. -/
def strncmp_eq (a : Buf) (b : List Nat) : Nat → Nat → Bool
  | _, 0 => true
  | i, n + 1 =>
    if a i ≠ b.getD i 0 then false
    else if a i = 0 then true
    else strncmp_eq a b (i + 1) n

/-- The loop `for(; i < SK6_NUM_PACKET_TYPES; i++)` of classify_packet_header,
entered at index `i` with `fuel` iterations left before the bound. -/
def classify_loop (D : Decls) (packetbuf : Buf) (ascii_packet : Bool) : Nat → Int → Int
  | 0, _ => D.SHAKE_BAD_PACKET
  | fuel + 1, i =>
    if ascii_packet then
      if strncmp_eq packetbuf (D.sk6_packet_headers i) 0 4 then i
      else if i ≥ D.SK6_STARTUP_INFO then D.SHAKE_BAD_PACKET
      else classify_loop D packetbuf ascii_packet fuel (i + 1)
    else
      if packetbuf 2 = D.sk6_raw_packet_headers (i - D.SK6_RAW_DATA_ACC) then i
      else classify_loop D packetbuf ascii_packet fuel (i + 1)

/-- The function `SK6::classify_packet_header`; `packetbuf` is never null here. -/
def classify_packet_header (D : Decls) (packetbuf : Buf) (header_length : Int)
    (ascii_packet : Bool) : Int :=
  if ascii_packet ∧ header_length ≠ SK6_HEADER_LEN then D.SHAKE_BAD_PACKET
  else if ¬ ascii_packet ∧ (header_length ≠ SK6_RAW_HEADER_LEN ∨ packetbuf 0 ≠ 127 ∨ packetbuf 1 ≠ 127)
  then D.SHAKE_BAD_PACKET
  else
    let i : Int := if ascii_packet then 0 else D.SK6_RAW_DATA_ACC
    classify_loop D packetbuf ascii_packet (D.SK6_NUM_PACKET_TYPES - i).toNat i

/-! ## Stream synchronisation (SK6.cpp:250-316) -/

/-- The loop `while(read_count++ < 50 && (c != '$' && c != 0x7F))` of
get_next_packet, with `left = 50 - read_count` iterations still allowed. -/
def recovery_scan : Nat → Nat → Port → Nat × Port
  | 0, c, p => (c, p)
  | left + 1, c, p =>
    if c ≠ 36 ∧ c ≠ 127 then
      let r := read_bytes p (fun _ => c) 0 1
      recovery_scan left (r.2.1 0) r.2.2
    else (c, p)

/-- The function `SK6::get_next_packet`: the packet type found, the buffer and
the device afterwards. -/
def get_next_packet (D : Decls) (s : SK6) (packetbuf : Buf) : Int × Buf × SK6 :=
  let r0 := read_bytes s.port packetbuf 0 3
  let bytes_read := r0.1
  let buf0 := r0.2.1
  let first : Int × Buf × Port :=
    if bytes_read = 3 then
      if buf0 0 = 127 ∧ buf0 1 = 127 then
        (classify_packet_header D buf0 SK6_RAW_HEADER_LEN false, buf0, r0.2.2)
      else if buf0 0 = 36 ∨ buf0 0 = 10 then
        let r1 := read_bytes r0.2.2 buf0 3 1
        (classify_packet_header D r1.2.1 SK6_HEADER_LEN true, r1.2.1, r1.2.2)
      else (D.SHAKE_BAD_PACKET, buf0, r0.2.2)
    else (D.SHAKE_BAD_PACKET, buf0, r0.2.2)
  if first.1 = D.SHAKE_BAD_PACKET then
    let buf1 := memset first.2.1 0 256
    let sc := recovery_scan 50 32 first.2.2
    let c := sc.1
    let buf2 := store buf1 0 [c]
    if c = 36 then
      let r2 := read_bytes sc.2 buf2 1 (SK6_HEADER_LEN - 1)
      (classify_packet_header D r2.2.1 SK6_HEADER_LEN true, r2.2.1, { s with port := r2.2.2 })
    else if c = 127 then
      let r2 := read_bytes sc.2 buf2 1 (SK6_RAW_HEADER_LEN - 1)
      (classify_packet_header D r2.2.1 SK6_RAW_HEADER_LEN false, r2.2.1, { s with port := r2.2.2 })
    else (first.1, buf2, { s with port := sc.2 })
  else (first.1, first.2.1, { s with port := first.2.2 })

/-! ## Field decoding helpers -/

/-- Modelled from the spec: `dec_ascii_to_int(field, buflen, digits)` of the
missing shake_parsing sources, the decoder of a fixed-width decimal ASCII
field: the value of the last `digits` characters of the field of `buflen`
characters at offset `off`, negated when a leading `'-'` sign is present. -/
def dec_ascii_to_int (b : Buf) (off buflen digits : Nat) : Int :=
  let mag : Int := (List.range digits).foldl
    (fun acc k => acc * 10 + ((b (off + (buflen - digits) + k) : Int) - 48)) 0
  if buflen > digits ∧ b off = 45 then -mag else mag

/-- Value of one hexadecimal digit character (0 for any other character). -/
def hex_digit (c : Nat) : Nat :=
  if 48 ≤ c ∧ c ≤ 57 then c - 48
  else if 65 ≤ c ∧ c ≤ 70 then c - 55
  else if 97 ≤ c ∧ c ≤ 102 then c - 87
  else 0

/-- Modelled from the spec: `hex_ascii_to_int(field, buflen, digits)` of the
missing shake_parsing sources, the decoder of a fixed-width hexadecimal ASCII
field (acknowledgment packets): the value of the last `digits` characters of
the field of `buflen` characters at offset `off`, most significant first. -/
def hex_ascii_to_int (b : Buf) (off buflen digits : Nat) : Int :=
  (List.range digits).foldl
    (fun acc k => acc * 16 + (hex_digit (b (off + (buflen - digits) + k)) : Int)) 0

/-- The test `devpriv->navcb || devpriv->navcb_STDCALL`. -/
def callback_registered (s : SK6) : Bool :=
  s.devpriv.navcb || s.devpriv.navcb_STDCALL

/-- The pair `devpriv->lastevent = ev; shake_thread_signal(...)`. -/
def raise_event (s : SK6) (ev : Int) : SK6 :=
  shake_thread_signal { s with devpriv := { s.devpriv with lastevent := ev } }

/-- The value a C `int` holds after an arithmetic result `x`: 32 bits in two's
complement, so that one more than INT_MAX is INT_MIN. -/
def int_wrap (x : Int) : Int :=
  (x + 2147483648) % 4294967296 - 2147483648

/-- The code after the switch of extract_ascii_packet (SK6.cpp:529-532); the
count `packets_read` is a C `int`. -/
def ascii_break (s : SK6) (playback : Bool) : Status × SK6 :=
  (Status.SHAKE_SUCCESS,
    if playback then
      { s with devpriv := { s.devpriv with
        packets_read := int_wrap (s.devpriv.packets_read + 1) } }
    else s)

/-! ## ASCII extractor (SK6.cpp:342-533)

The `fprintf` calls to the log sink write nothing into the device state and are
left out.  Each case of the switch is a function of its own; the switch itself
is a chain of tests in the order of its case labels. -/

/-- Case SK6_DATA_ACC (SK6.cpp:347-361). -/
def ascii_case_acc (D : Decls) (s : SK6) (rawpacket : Buf) : SK6 :=
  let d1 : SensorData :=
    { s.data with accx := dec_ascii_to_int rawpacket D.acc_accx 5 4,
                  accy := dec_ascii_to_int rawpacket D.acc_accy 5 4,
                  accz := dec_ascii_to_int rawpacket D.acc_accz 5 4 }
  { s with data := set_timestamp d1 D.SHAKE_SENSOR_ACC (dec_ascii_to_int rawpacket D.acc_seq 2 2) }

/-- Case SK6_DATA_GYRO (SK6.cpp:362-376). -/
def ascii_case_gyro (D : Decls) (s : SK6) (rawpacket : Buf) : SK6 :=
  let d1 : SensorData :=
    { s.data with gyrx := dec_ascii_to_int rawpacket D.gyr_gyrx 5 4,
                  gyry := dec_ascii_to_int rawpacket D.gyr_gyry 5 4,
                  gyrz := dec_ascii_to_int rawpacket D.gyr_gyrz 5 4 }
  { s with data := set_timestamp d1 D.SHAKE_SENSOR_GYRO (dec_ascii_to_int rawpacket D.gyr_seq 2 2) }

/-- Case SK6_DATA_MAG (SK6.cpp:377-391). -/
def ascii_case_mag (D : Decls) (s : SK6) (rawpacket : Buf) : SK6 :=
  let d1 : SensorData :=
    { s.data with magx := dec_ascii_to_int rawpacket D.mag_magx 5 4,
                  magy := dec_ascii_to_int rawpacket D.mag_magy 5 4,
                  magz := dec_ascii_to_int rawpacket D.mag_magz 5 4 }
  { s with data := set_timestamp d1 D.SHAKE_SENSOR_MAG (dec_ascii_to_int rawpacket D.mag_seq 2 2) }

/-- Case SK6_DATA_HEADING (SK6.cpp:392-404). -/
def ascii_case_heading (D : Decls) (s : SK6) (rawpacket : Buf) : SK6 :=
  let d1 : SensorData :=
    { s.data with heading := dec_ascii_to_int rawpacket D.heading_heading 4 4 }
  { s with data := set_timestamp d1 D.SHAKE_SENSOR_HEADING (dec_ascii_to_int rawpacket D.heading_seq 2 2) }

/-- Case SK6_DATA_CAP0 (SK6.cpp:405-417). -/
def ascii_case_cap0 (D : Decls) (s : SK6) (rawpacket : Buf) : SK6 :=
  let d1 : SensorData :=
    { s.data with cap_sk6_0 := dec_ascii_to_int rawpacket D.cap_prox 4 4 }
  { s with data := set_timestamp d1 D.SHAKE_SENSOR_SK6_CAP0 (dec_ascii_to_int rawpacket D.cap_seq 2 2) }

/-- Case SK6_DATA_CAP1 (SK6.cpp:418-430). -/
def ascii_case_cap1 (D : Decls) (s : SK6) (rawpacket : Buf) : SK6 :=
  let d1 : SensorData :=
    { s.data with cap_sk6_1 := dec_ascii_to_int rawpacket D.cap_prox 4 4 }
  { s with data := set_timestamp d1 D.SHAKE_SENSOR_SK6_CAP1 (dec_ascii_to_int rawpacket D.cap_seq 2 2) }

/-- Case SK6_DATA_ANA0 (SK6.cpp:431-443). -/
def ascii_case_ana0 (D : Decls) (s : SK6) (rawpacket : Buf) : SK6 :=
  let d1 : SensorData :=
    { s.data with ana0 := dec_ascii_to_int rawpacket D.analog_voltage 4 4 }
  { s with data := set_timestamp d1 D.SHAKE_SENSOR_ANA0 (dec_ascii_to_int rawpacket D.analog_seq 2 2) }

/-- Case SK6_DATA_ANA1 (SK6.cpp:444-456). -/
def ascii_case_ana1 (D : Decls) (s : SK6) (rawpacket : Buf) : SK6 :=
  let d1 : SensorData :=
    { s.data with ana1 := dec_ascii_to_int rawpacket D.analog_voltage 4 4 }
  { s with data := set_timestamp d1 D.SHAKE_SENSOR_ANA1 (dec_ascii_to_int rawpacket D.analog_seq 2 2) }

/-- The inner switch on `snp->hdr.packet_id[2]` (SK6.cpp:463-480). -/
def nav_event (D : Decls) (id2 : Nat) : Int :=
  if id2 = 85 then D.SHAKE_NAV_UP
  else if id2 = 68 then D.SHAKE_NAV_DOWN
  else if id2 = 67 then D.SHAKE_NAV_CENTRE
  else if id2 = 78 then D.SHAKE_NAV_NORMAL
  else -1

/-- Cases SK6_DATA_NVU, NVD, NVC, NVN (SK6.cpp:457-484). -/
def ascii_case_nav (D : Decls) (s : SK6) (rawpacket : Buf) : SK6 :=
  if callback_registered s then raise_event s (nav_event D (rawpacket (D.nav_packet_id + 2)))
  else s

/-- The value of `ev` at SK6.cpp:493 for the cases SK6_DATA_CU0, CL0, CU1, CL1:
control enters at the matching label and, there being no break, runs every
assignment that follows it (SK6.cpp:485-492). -/
def threshold_event (D : Decls) (packet_type : Int) : Int :=
  let ev : Int := -1
  let ev := if packet_type = D.SK6_DATA_CU0 then D.SK6_CS0_UPPER else ev
  let ev := if packet_type = D.SK6_DATA_CU0 ∨ packet_type = D.SK6_DATA_CL0
    then D.SK6_CS0_LOWER else ev
  let ev := if packet_type = D.SK6_DATA_CU0 ∨ packet_type = D.SK6_DATA_CL0
    ∨ packet_type = D.SK6_DATA_CU1 then D.SK6_CS1_UPPER else ev
  if packet_type = D.SK6_DATA_CU0 ∨ packet_type = D.SK6_DATA_CL0
    ∨ packet_type = D.SK6_DATA_CU1 ∨ packet_type = D.SK6_DATA_CL1 then D.SK6_CS1_LOWER else ev

/-- Cases SK6_DATA_CU0, CL0, CU1, CL1 (SK6.cpp:485-497). -/
def ascii_case_threshold (D : Decls) (s : SK6) (packet_type : Int) : SK6 :=
  if callback_registered s then raise_event s (threshold_event D packet_type) else s

/-- Case SK6_DATA_SHAKING (SK6.cpp:498-512). -/
def ascii_case_shaking (D : Decls) (s : SK6) (rawpacket : Buf) : SK6 :=
  let d1 : SensorData :=
    { s.data with shaking_peak_accel := dec_ascii_to_int rawpacket D.shake_peakaccel 5 4,
                  shaking_direction := dec_ascii_to_int rawpacket D.shake_direction 5 4,
                  shaking_timestamp := dec_ascii_to_int rawpacket D.shake_timestamp 5 4,
                  sk6seq := dec_ascii_to_int rawpacket D.shake_seq 2 2 }
  let s1 : SK6 := { s with data := d1 }
  if callback_registered s1 then raise_event s1 D.SHAKE_SHAKING_EVENT else s1

/-- Case SK6_DATA_HEART_RATE up to the closing brace (SK6.cpp:513-524). -/
def ascii_case_heart_rate (D : Decls) (s : SK6) (rawpacket : Buf) : SK6 :=
  let d1 : SensorData :=
    { s.data with hr_bpm := dec_ascii_to_int rawpacket D.hr_heart_bpm 4 4,
                  hrseq := dec_ascii_to_int rawpacket D.hr_seq 2 2 }
  let s1 : SK6 := { s with data := d1 }
  if callback_registered s1 then raise_event s1 D.SHAKE_HEART_RATE_EVENT else s1

/-- The function `SK6::extract_ascii_packet`.  A case that ends in `break`
continues with `ascii_break`; the heart-rate case has no `break` and falls into
`default`, which returns SHAKE_ERROR (SK6.cpp:524-526). -/
def extract_ascii_packet (D : Decls) (s : SK6) (packet_type : Int) (rawpacket : Buf)
    (playback : Bool) (_timestamp_packet : List Nat) : Status × SK6 :=
  if packet_type = D.SK6_DATA_ACC then ascii_break (ascii_case_acc D s rawpacket) playback
  else if packet_type = D.SK6_DATA_GYRO then ascii_break (ascii_case_gyro D s rawpacket) playback
  else if packet_type = D.SK6_DATA_MAG then ascii_break (ascii_case_mag D s rawpacket) playback
  else if packet_type = D.SK6_DATA_HEADING then
    ascii_break (ascii_case_heading D s rawpacket) playback
  else if packet_type = D.SK6_DATA_CAP0 then ascii_break (ascii_case_cap0 D s rawpacket) playback
  else if packet_type = D.SK6_DATA_CAP1 then ascii_break (ascii_case_cap1 D s rawpacket) playback
  else if packet_type = D.SK6_DATA_ANA0 then ascii_break (ascii_case_ana0 D s rawpacket) playback
  else if packet_type = D.SK6_DATA_ANA1 then ascii_break (ascii_case_ana1 D s rawpacket) playback
  else if packet_type = D.SK6_DATA_NVU ∨ packet_type = D.SK6_DATA_NVD
      ∨ packet_type = D.SK6_DATA_NVC ∨ packet_type = D.SK6_DATA_NVN then
    ascii_break (ascii_case_nav D s rawpacket) playback
  else if packet_type = D.SK6_DATA_CU0 ∨ packet_type = D.SK6_DATA_CL0
      ∨ packet_type = D.SK6_DATA_CU1 ∨ packet_type = D.SK6_DATA_CL1 then
    ascii_break (ascii_case_threshold D s packet_type) playback
  else if packet_type = D.SK6_DATA_SHAKING then
    ascii_break (ascii_case_shaking D s rawpacket) playback
  else if packet_type = D.SK6_DATA_HEART_RATE then
    (Status.SHAKE_ERROR, ascii_case_heart_rate D s rawpacket)
  else (Status.SHAKE_ERROR, s)

/-! ## Raw extractor (SK6.cpp:535-693)

The audio cases only call the audio callback and the external sample decoder
on buffers that are not part of this state; they leave the state as it is. -/

/-- The expression `p->data[k] + (p->data[k+1] << 8)` on unsigned bytes. -/
def le16 (b : Buf) (off : Nat) : Int :=
  (b off : Int) + (b (off + 1) : Int) * 256

/-- The statement `if(has_seq) data.internal_timestamps[k] = v;`. -/
def seq_update (has_seq : Bool) (d : SensorData) (k v : Int) : SensorData :=
  if has_seq then set_timestamp d k v else d

/-- Case SK6_RAW_DATA_ACC (SK6.cpp:543-550). -/
def raw_case_acc (D : Decls) (s : SK6) (rawpacket : Buf) (has_seq : Bool) : SK6 :=
  let d1 : SensorData :=
    { s.data with accx := le16 rawpacket D.raw_long_data,
                  accy := le16 rawpacket (D.raw_long_data + 2),
                  accz := le16 rawpacket (D.raw_long_data + 4) }
  { s with data := seq_update has_seq d1 D.SHAKE_SENSOR_ACC (rawpacket D.raw_long_seq) }

/-- Case SK6_RAW_DATA_GYRO (SK6.cpp:551-557). -/
def raw_case_gyro (D : Decls) (s : SK6) (rawpacket : Buf) (has_seq : Bool) : SK6 :=
  let d1 : SensorData :=
    { s.data with gyrx := le16 rawpacket D.raw_long_data,
                  gyry := le16 rawpacket (D.raw_long_data + 2),
                  gyrz := le16 rawpacket (D.raw_long_data + 4) }
  { s with data := seq_update has_seq d1 D.SHAKE_SENSOR_GYRO (rawpacket D.raw_long_seq) }

/-- Case SK6_RAW_DATA_MAG (SK6.cpp:558-564). -/
def raw_case_mag (D : Decls) (s : SK6) (rawpacket : Buf) (has_seq : Bool) : SK6 :=
  let d1 : SensorData :=
    { s.data with magx := le16 rawpacket D.raw_long_data,
                  magy := le16 rawpacket (D.raw_long_data + 2),
                  magz := le16 rawpacket (D.raw_long_data + 4) }
  { s with data := seq_update has_seq d1 D.SHAKE_SENSOR_MAG (rawpacket D.raw_long_seq) }

/-- Case SK6_RAW_DATA_HEADING (SK6.cpp:565-569). -/
def raw_case_heading (D : Decls) (s : SK6) (rawpacket : Buf) (has_seq : Bool) : SK6 :=
  let d1 : SensorData :=
    { s.data with heading := le16 rawpacket D.raw_short_data }
  { s with data := seq_update has_seq d1 D.SHAKE_SENSOR_HEADING (rawpacket D.raw_short_seq) }

/-- Case SK6_RAW_DATA_CAP0 (SK6.cpp:570-574). -/
def raw_case_cap0 (D : Decls) (s : SK6) (rawpacket : Buf) (has_seq : Bool) : SK6 :=
  let d1 : SensorData :=
    { s.data with cap_sk6_0 := le16 rawpacket D.raw_short_data }
  { s with data := seq_update has_seq d1 D.SHAKE_SENSOR_SK6_CAP0 (rawpacket D.raw_short_seq) }

/-- Case SK6_RAW_DATA_CAP1 (SK6.cpp:575-579). -/
def raw_case_cap1 (D : Decls) (s : SK6) (rawpacket : Buf) (has_seq : Bool) : SK6 :=
  let d1 : SensorData :=
    { s.data with cap_sk6_1 := le16 rawpacket D.raw_short_data }
  { s with data := seq_update has_seq d1 D.SHAKE_SENSOR_SK6_CAP1 (rawpacket D.raw_short_seq) }

/-- Case SK6_RAW_DATA_ANALOG0 (SK6.cpp:580-584). -/
def raw_case_analog0 (D : Decls) (s : SK6) (rawpacket : Buf) (has_seq : Bool) : SK6 :=
  let d1 : SensorData :=
    { s.data with ana0 := le16 rawpacket D.raw_short_data }
  { s with data := seq_update has_seq d1 D.SHAKE_SENSOR_ANA0 (rawpacket D.raw_short_seq) }

/-- Case SK6_RAW_DATA_ANALOG1 (SK6.cpp:585-589). -/
def raw_case_analog1 (D : Decls) (s : SK6) (rawpacket : Buf) (has_seq : Bool) : SK6 :=
  let d1 : SensorData :=
    { s.data with ana1 := le16 rawpacket D.raw_short_data }
  { s with data := seq_update has_seq d1 D.SHAKE_SENSOR_ANA1 (rawpacket D.raw_short_seq) }

/-- The inner switch on `srps->data[0]` (SK6.cpp:594-621). -/
def raw_event (D : Decls) (e : Nat) : Int :=
  if e = 1 then D.SHAKE_NAV_NORMAL
  else if e = 2 then D.SHAKE_NAV_UP
  else if e = 3 then D.SHAKE_NAV_DOWN
  else if e = 4 then D.SHAKE_NAV_CENTRE
  else if e = 5 then D.SK6_CS0_UPPER
  else if e = 6 then D.SK6_CS0_LOWER
  else if e = 7 then D.SK6_CS1_UPPER
  else if e = 8 then D.SK6_CS1_LOWER
  else -1

/-- Case SK6_RAW_DATA_EVENT (SK6.cpp:590-625). -/
def raw_case_event (D : Decls) (s : SK6) (rawpacket : Buf) : SK6 :=
  if callback_registered s then raise_event s (raw_event D (rawpacket D.raw_short_data))
  else s

/-- Case SK6_RAW_DATA_SHAKING (SK6.cpp:626-637). -/
def raw_case_shaking (D : Decls) (s : SK6) (rawpacket : Buf) : SK6 :=
  let d1 : SensorData :=
    { s.data with shaking_peak_accel := le16 rawpacket D.raw_long_data,
                  shaking_direction := le16 rawpacket (D.raw_long_data + 2),
                  shaking_timestamp := le16 rawpacket (D.raw_long_data + 4) }
  let s1 : SK6 := { s with data := d1 }
  if callback_registered s1 then raise_event s1 D.SHAKE_SHAKING_EVENT else s1

/-- The function `SK6::extract_raw_packet`; every case ends in `break` and the
function returns SHAKE_SUCCESS. -/
def extract_raw_packet (D : Decls) (s : SK6) (packet_type : Int) (rawpacket : Buf)
    (has_seq : Bool) : Status × SK6 :=
  if packet_type = D.SK6_RAW_DATA_ACC then
    (Status.SHAKE_SUCCESS, raw_case_acc D s rawpacket has_seq)
  else if packet_type = D.SK6_RAW_DATA_GYRO then
    (Status.SHAKE_SUCCESS, raw_case_gyro D s rawpacket has_seq)
  else if packet_type = D.SK6_RAW_DATA_MAG then
    (Status.SHAKE_SUCCESS, raw_case_mag D s rawpacket has_seq)
  else if packet_type = D.SK6_RAW_DATA_HEADING then
    (Status.SHAKE_SUCCESS, raw_case_heading D s rawpacket has_seq)
  else if packet_type = D.SK6_RAW_DATA_CAP0 then
    (Status.SHAKE_SUCCESS, raw_case_cap0 D s rawpacket has_seq)
  else if packet_type = D.SK6_RAW_DATA_CAP1 then
    (Status.SHAKE_SUCCESS, raw_case_cap1 D s rawpacket has_seq)
  else if packet_type = D.SK6_RAW_DATA_ANALOG0 then
    (Status.SHAKE_SUCCESS, raw_case_analog0 D s rawpacket has_seq)
  else if packet_type = D.SK6_RAW_DATA_ANALOG1 then
    (Status.SHAKE_SUCCESS, raw_case_analog1 D s rawpacket has_seq)
  else if packet_type = D.SK6_RAW_DATA_EVENT then
    (Status.SHAKE_SUCCESS, raw_case_event D s rawpacket)
  else if packet_type = D.SK6_RAW_DATA_SHAKING then
    (Status.SHAKE_SUCCESS, raw_case_shaking D s rawpacket)
  else (Status.SHAKE_SUCCESS, s)

/-! ## Acknowledgments and the ASCII parser (SK6.cpp:34-64, 730-739) -/

/-- The function `SK6::parse_ack_packet`: the decoded address and value. -/
def parse_ack_packet (D : Decls) (packetbuf : Buf) : Int × Int :=
  (hex_ascii_to_int packetbuf D.ack_addr 4 4, hex_ascii_to_int packetbuf D.ack_val 2 2)

/-- The function `SK6::parse_ascii_packet`. -/
def parse_ascii_packet (D : Decls) (s : SK6) (packet_type : Int) (packetbuf : Buf)
    (_packetlen : Int) (playback : Bool) (timestamp_packet : List Nat) : ReadCode × SK6 :=
  if packet_type ≠ D.SK6_ACK_ACK ∧ packet_type ≠ D.SK6_ACK_NEG then
    if s.devpriv.checksum then
      (ReadCode.SK6_ASCII_READ_OK,
        (extract_ascii_packet D s packet_type packetbuf playback timestamp_packet).2)
    else
      (ReadCode.SK6_ASCII_READ_OK,
        (extract_ascii_packet D s packet_type packetbuf playback timestamp_packet).2)
  else if ¬ s.devpriv.waiting_for_ack then
    (ReadCode.SK6_ASCII_READ_ERROR,
      { s with devpriv := { s.devpriv with waiting_for_ack_signal := false } })
  else
    let lastack : Bool := if packet_type = D.SK6_ACK_ACK then true else false
    let av := parse_ack_packet D packetbuf
    (ReadCode.SK6_ASCII_READ_OK,
      { s with devpriv := { s.devpriv with lastack := lastack,
                                            lastaddr := av.1,
                                            lastval := av.2,
                                            waiting_for_ack_signal := false } })

/-! ## ASCII framer (SK6.cpp:67-170) -/

/-- Outcome of the framing part of read_ascii_packet: either the function has
returned `code` already, or a packet is ready for `parse_ascii_packet` with
exactly these arguments. -/
inductive AsciiFrame where
  | returned (code : ReadCode) (buf : Buf) (s : SK6)
  | framed (packet_type : Int) (buf : Buf) (packet_size : Int) (playback : Bool)
      (timestamp_pkt : List Nat) (s : SK6)

/-- The function `SK6::read_device_info` as far as this state goes: it only
reads from the link, through callees that are not in SK6.cpp. -/
def read_device_info (D : Decls) (s : SK6) : SK6 :=
  { s with port := D.read_info_lines s.port }

/-- Lines 116-165 of read_ascii_packet: the body read, the playback patch and
the checksum detection, for the packet type that reaches them. -/
def ascii_body (D : Decls) (s : SK6) (packet_type : Int) (packetbuf : Buf)
    (playback : Bool) (timestamp_pkt : List Nat) : AsciiFrame :=
  let bytes_left0 : Int := D.sk6_packet_lengths packet_type - SK6_HEADER_LEN
  let bytes_left : Int := if playback then bytes_left0 - 3 else bytes_left0
  let r := read_bytes s.port packetbuf SK6_HEADER_LEN.toNat bytes_left
  let s1 : SK6 := { s with port := r.2.2 }
  if r.1 ≠ bytes_left then AsciiFrame.returned ReadCode.SK6_ASCII_READ_ERROR r.2.1 s1
  else
    let offset : Int := r.1 + SK6_HEADER_LEN - 2
    let buf1 : Buf := if playback then store r.2.1 offset.toNat [44, 48, 48, 13, 10] else r.2.1
    let bytes_read : Int := if playback then r.1 + 3 else r.1
    let last : Nat := buf1 (bytes_read + SK6_HEADER_LEN - 1).toNat
    if D.sk6_packet_has_checksum packet_type ≠ 0 ∧ last ≠ 10 then
      let s2 : SK6 :=
        if ¬ s1.devpriv.checksum then { s1 with devpriv := { s1.devpriv with checksum := true } }
        else s1
      let r2 := read_bytes s2.port buf1 (SK6_HEADER_LEN + bytes_read).toNat CHECKSUM_LENGTH
      AsciiFrame.framed packet_type r2.2.1 (bytes_read + 3 + SK6_HEADER_LEN) playback
        timestamp_pkt { s2 with port := r2.2.2 }
    else if D.sk6_packet_has_checksum packet_type ≠ 0 ∧ last = 10 ∧ s1.devpriv.checksum then
      AsciiFrame.framed packet_type buf1 (bytes_read + SK6_HEADER_LEN) playback timestamp_pkt
        { s1 with devpriv := { s1.devpriv with checksum := false } }
    else
      AsciiFrame.framed packet_type buf1 (bytes_read + SK6_HEADER_LEN) playback timestamp_pkt s1

/-- Lines 67-165 of read_ascii_packet: everything before the final test of
`rthread_done` and the call of parse_ascii_packet. -/
def read_ascii_frame (D : Decls) (s : SK6) (packet_type : Int) (packetbuf : Buf) : AsciiFrame :=
  if packet_type = D.SK6_DATA_TIMESTAMP then
    let tlen : Int := D.sk6_packet_lengths D.SK6_DATA_TIMESTAMP
    let r0 := read_bytes s.port packetbuf SK6_HEADER_LEN.toNat (tlen - SK6_HEADER_LEN)
    let timestamp_pkt : List Nat := (List.range tlen.toNat).map r0.2.1
    let buf1 := memset r0.2.1 0 256
    let r1 := read_bytes r0.2.2 buf1 0 SK6_HEADER_LEN
    let inner := classify_packet_header D r1.2.1 SK6_HEADER_LEN true
    ascii_body D { s with port := r1.2.2 } inner r1.2.1 true timestamp_pkt
  else if packet_type = D.SK6_DATA_PLAYBACK_COMPLETE then
    let r0 := read_bytes s.port packetbuf SK6_HEADER_LEN.toNat
      (D.sk6_packet_lengths packet_type - SK6_HEADER_LEN)
    let s1 : SK6 := { s with port := r0.2.2 }
    if callback_registered s1 then
      AsciiFrame.returned ReadCode.SK6_ASCII_READ_CONTINUE r0.2.1
        (raise_event s1 D.SHAKE_PLAYBACK_COMPLETE)
    else AsciiFrame.returned ReadCode.SK6_ASCII_READ_CONTINUE r0.2.1 s1
  else if packet_type = D.SK6_DATA_RFID_TID then
    let r0 := read_bytes s.port packetbuf SK6_HEADER_LEN.toNat
      (D.sk6_packet_lengths packet_type - SK6_HEADER_LEN)
    let tag : List Nat :=
      (List.range D.SHAKE_RFID_TAG_LENGTH).map (fun k => r0.2.1 (SK6_HEADER_LEN.toNat + 1 + k))
    let s1 : SK6 := { s with port := r0.2.2, devpriv := { s.devpriv with lastrfid := tag } }
    if callback_registered s1 then
      AsciiFrame.returned ReadCode.SK6_ASCII_READ_CONTINUE r0.2.1
        (raise_event s1 D.SHAKE_RFID_TID_EVENT)
    else AsciiFrame.returned ReadCode.SK6_ASCII_READ_CONTINUE r0.2.1 s1
  else if packet_type = D.SK6_STARTUP_INFO then
    AsciiFrame.returned ReadCode.SK6_ASCII_READ_CONTINUE packetbuf (read_device_info D s)
  else ascii_body D s packet_type packetbuf false []

/-- The function `SK6::read_ascii_packet`. -/
def read_ascii_packet (D : Decls) (s : SK6) (packet_type : Int) (packetbuf : Buf) :
    ReadCode × Buf × SK6 :=
  match read_ascii_frame D s packet_type packetbuf with
  | AsciiFrame.returned code buf s1 => (code, buf, s1)
  | AsciiFrame.framed ty buf packet_size playback timestamp_pkt s1 =>
    if s1.devpriv.rthread_done then (ReadCode.SK6_ASCII_READ_ERROR, buf, s1)
    else
      let r := parse_ascii_packet D s1 ty buf packet_size playback timestamp_pkt
      (r.1, buf, r.2)

/-! ## Raw framer (SK6.cpp:173-247) -/

/-- The function `SK6::parse_raw_packet`. The audio reply sent for an audio
header packet goes out on the link and leaves this state as it is. -/
def parse_raw_packet (D : Decls) (s : SK6) (packet_type : Int) (packetbuf : Buf)
    (_packetlen : Int) (has_seq : Bool) : ReadCode × SK6 :=
  (ReadCode.SK6_RAW_READ_OK, (extract_raw_packet D s packet_type packetbuf has_seq).2)

/-- Outcome of the framing part of read_raw_packet: either the read error has
been returned, or a packet is ready for `parse_raw_packet` with exactly these
arguments. -/
inductive RawFrame where
  | returned (code : ReadCode) (buf : Buf) (s : SK6)
  | framed (buf : Buf) (packetlen : Int) (has_seq : Bool) (s : SK6)

/-- Lines 184-245 of read_raw_packet: the body read and the classification of
the trailing byte. -/
def read_raw_frame (D : Decls) (s : SK6) (packet_type : Int) (packetbuf : Buf) : RawFrame :=
  let bytes_left : Int := D.sk6_packet_lengths packet_type - SK6_RAW_HEADER_LEN
  let r := read_bytes s.port packetbuf SK6_RAW_HEADER_LEN.toNat bytes_left
  let bytes_read : Int := r.1
  let s1 : SK6 := { s with port := r.2.2 }
  if bytes_left - bytes_read > 1 then RawFrame.returned ReadCode.SK6_RAW_READ_ERROR r.2.1 s1
  else
    let s2 : SK6 := { s1 with devpriv := { s1.devpriv with peek_flag := false } }
    if bytes_left = bytes_read then
      let packet_len : Int := D.sk6_packet_lengths packet_type
      let trailing_byte : Nat := r.2.1 (packet_len - 1).toNat
      if trailing_byte = 127 then
        RawFrame.framed r.2.1 (bytes_read + SK6_RAW_HEADER_LEN) false
          { s2 with devpriv := { s2.devpriv with peek := 127, peek_flag := true } }
      else if trailing_byte = 36 ∨ trailing_byte = 10 then
        let adjtype : Int := packet_type - D.SK6_RAW_DATA_ACC
        if (trailing_byte : Int) = s2.data.internal_timestamps adjtype + 1
            ∨ (trailing_byte = 0 ∧ s2.data.internal_timestamps adjtype = 255) then
          RawFrame.framed r.2.1 (bytes_read + SK6_RAW_HEADER_LEN) true s2
        else
          RawFrame.framed r.2.1 (bytes_read + SK6_RAW_HEADER_LEN) false
            { s2 with devpriv := { s2.devpriv with peek_flag := true, peek := trailing_byte } }
      else RawFrame.framed r.2.1 (bytes_read + SK6_RAW_HEADER_LEN) true s2
    else RawFrame.framed r.2.1 (bytes_read + SK6_RAW_HEADER_LEN) false s2

/-- The function `SK6::read_raw_packet`. -/
def read_raw_packet (D : Decls) (s : SK6) (packet_type : Int) (packetbuf : Buf) :
    ReadCode × Buf × SK6 :=
  match read_raw_frame D s packet_type packetbuf with
  | RawFrame.returned code buf s1 => (code, buf, s1)
  | RawFrame.framed buf packetlen has_seq s1 =>
    let r := parse_raw_packet D s1 packet_type buf packetlen has_seq
    (r.1, buf, r.2)

/-! ## Dispatch (SK6.cpp:319-340) -/

/-- The function `SK6::is_ascii_packet`. -/
def is_ascii_packet (D : Decls) (packet_type : Int) : Int :=
  if packet_type ≥ D.SK6_DATA_ACC ∧ packet_type < D.SK6_RAW_DATA_ACC then 1 else 0

/-- The function `SK6::parse_packet`. -/
def parse_packet (D : Decls) (s : SK6) (packetbuf : Buf) (packet_type : Int) :
    Int × Buf × SK6 :=
  if is_ascii_packet D packet_type ≠ 0 then
    let s1 : SK6 := { s with devpriv := { s.devpriv with rthread_exit := 5 } }
    let r := read_ascii_packet D s1 packet_type packetbuf
    (1, r.2.1, { r.2.2 with devpriv := { r.2.2.devpriv with rthread_exit := 6 } })
  else
    let s1 : SK6 := { s with devpriv := { s.devpriv with rthread_exit := 7 } }
    let r := read_raw_packet D s1 packet_type packetbuf
    (1, r.2.1, { r.2.2 with devpriv := { r.2.2.devpriv with rthread_exit := 8 } })

/-! ## A sample set of declarations

Used to run the definitions on concrete packets. -/

/-- Table lookup `tbl[i]` for a table given as a list (0 outside of it). -/
def table_get (tbl : List Int) (i : Int) : Int :=
  if 0 ≤ i then tbl.getD i.toNat 0 else 0

/-- Modelled from the spec: one value for the declarations of the missing
headers SK6_packets.h and SK6_parsing.h (enumeration, tables, structure
offsets).  The packet types are numbered from 0 in the order in which SK6.cpp
handles them, ASCII types before raw types, the sentinel is -1; ASCII codes are
the lead character `$` and three letters, the start-up code begins with the
newline marker; ASCII fields are separated by one comma; raw packets are the
3-byte header, 16-bit fields and one sequence byte. -/
def sampleDecls : Decls where
  SK6_DATA_ACC := 0
  SK6_DATA_GYRO := 1
  SK6_DATA_MAG := 2
  SK6_DATA_HEADING := 3
  SK6_DATA_CAP0 := 4
  SK6_DATA_CAP1 := 5
  SK6_DATA_ANA0 := 6
  SK6_DATA_ANA1 := 7
  SK6_DATA_NVU := 8
  SK6_DATA_NVD := 9
  SK6_DATA_NVC := 10
  SK6_DATA_NVN := 11
  SK6_DATA_CU0 := 12
  SK6_DATA_CL0 := 13
  SK6_DATA_CU1 := 14
  SK6_DATA_CL1 := 15
  SK6_DATA_TIMESTAMP := 16
  SK6_DATA_PLAYBACK_COMPLETE := 17
  SK6_DATA_RFID_TID := 18
  SK6_DATA_SHAKING := 19
  SK6_DATA_HEART_RATE := 20
  SK6_ACK_ACK := 23
  SK6_ACK_NEG := 24
  SK6_STARTUP_INFO := 25
  SK6_RAW_DATA_ACC := 26
  SK6_RAW_DATA_GYRO := 27
  SK6_RAW_DATA_MAG := 28
  SK6_RAW_DATA_HEADING := 29
  SK6_RAW_DATA_CAP0 := 30
  SK6_RAW_DATA_CAP1 := 31
  SK6_RAW_DATA_ANALOG0 := 32
  SK6_RAW_DATA_ANALOG1 := 33
  SK6_RAW_DATA_EVENT := 34
  SK6_RAW_DATA_SHAKING := 35
  SK6_RAW_DATA_AUDIO := 36
  SK6_RAW_DATA_AUDIO_EXP := 37
  SK6_RAW_DATA_AUDIO_HEADER := 38
  SK6_NUM_PACKET_TYPES := 39
  SHAKE_BAD_PACKET := -1
  SHAKE_NAV_UP := 1
  SHAKE_NAV_DOWN := 2
  SHAKE_NAV_CENTRE := 3
  SHAKE_NAV_NORMAL := 4
  SK6_CS0_UPPER := 5
  SK6_CS0_LOWER := 6
  SK6_CS1_UPPER := 7
  SK6_CS1_LOWER := 8
  SHAKE_SHAKING_EVENT := 9
  SHAKE_HEART_RATE_EVENT := 10
  SHAKE_PLAYBACK_COMPLETE := 11
  SHAKE_RFID_TID_EVENT := 12
  SHAKE_SENSOR_ACC := 0
  SHAKE_SENSOR_GYRO := 1
  SHAKE_SENSOR_MAG := 2
  SHAKE_SENSOR_HEADING := 3
  SHAKE_SENSOR_SK6_CAP0 := 4
  SHAKE_SENSOR_SK6_CAP1 := 5
  SHAKE_SENSOR_ANA0 := 6
  SHAKE_SENSOR_ANA1 := 7
  SHAKE_RFID_TAG_LENGTH := 16
  sk6_packet_lengths := table_get
    [27, 27, 27, 14, 14, 14, 14, 14, 6, 6, 6, 6, 6, 6, 6, 6, 16, 30, 24, 27, 14, 14, 14, 14, 14, 4,
     10, 10, 10, 6, 6, 6, 6, 6, 6, 10, 35, 35, 3]
  sk6_packet_has_checksum := table_get
    [1, 1, 1, 1, 1, 1, 1, 1, 0, 0, 0, 0, 0, 0, 0, 0, 0, 0, 0, 1, 1, 0, 0, 1, 1, 0]
  sk6_packet_headers := fun i =>
    if 0 ≤ i then
      [[36, 65, 67, 67], [36, 65, 82, 83], [36, 77, 65, 71], [36, 72, 69, 68],
       [36, 67, 83, 48], [36, 67, 83, 49], [36, 65, 73, 48], [36, 65, 73, 49],
       [36, 78, 86, 85], [36, 78, 86, 68], [36, 78, 86, 67], [36, 78, 86, 78],
       [36, 67, 85, 48], [36, 67, 76, 48], [36, 67, 85, 49], [36, 67, 76, 49],
       [36, 84, 73, 77], [36, 80, 66, 67], [36, 84, 73, 68], [36, 83, 72, 75],
       [36, 72, 82, 32], [36, 82, 69, 65], [36, 87, 82, 73], [36, 65, 67, 75],
       [36, 78, 65, 75], [10, 83, 72, 65]].getD i.toNat []
    else []
  sk6_raw_packet_headers := fun i =>
    if 0 ≤ i then [126, 125, 124, 123, 122, 121, 120, 119, 118, 117, 116, 115, 114].getD i.toNat 0
    else 0
  acc_accx := 5
  acc_accy := 11
  acc_accz := 17
  acc_seq := 23
  gyr_gyrx := 5
  gyr_gyry := 11
  gyr_gyrz := 17
  gyr_seq := 23
  mag_magx := 5
  mag_magy := 11
  mag_magz := 17
  mag_seq := 23
  heading_heading := 5
  heading_seq := 10
  cap_prox := 5
  cap_seq := 10
  analog_voltage := 5
  analog_seq := 10
  nav_packet_id := 1
  shake_peakaccel := 5
  shake_direction := 11
  shake_timestamp := 17
  shake_seq := 23
  hr_heart_bpm := 5
  hr_seq := 10
  ack_addr := 5
  ack_val := 10
  raw_long_data := 3
  raw_long_seq := 9
  raw_short_data := 3
  raw_short_seq := 5
  read_info_lines := fun p => p

/-! ## Predicates used in the statements -/

/-- The list `h` is the 4-character code of the ASCII packet type `t`, and `t`
is the first type with that code in the part of the header table that the
classifier scans (indices 0 to SK6_STARTUP_INFO). -/
def ascii_header (D : Decls) (t : Int) (h : List Nat) : Prop :=
  0 ≤ t ∧ t ≤ D.SK6_STARTUP_INFO ∧ t < D.SK6_NUM_PACKET_TYPES ∧
  h.length = 4 ∧ 0 ∉ h ∧ D.sk6_packet_headers t = h ∧
  ∀ j : Int, 0 ≤ j → j < t → (D.sk6_packet_headers j).take 4 ≠ h

/-- The list `h` is the raw header of the raw packet type `t`: the marker twice
and the selector of `t`, and `t` is the first raw type with that selector. -/
def raw_header (D : Decls) (t : Int) (h : List Nat) : Prop :=
  D.SK6_RAW_DATA_ACC ≤ t ∧ t < D.SK6_NUM_PACKET_TYPES ∧
  h = [127, 127, D.sk6_raw_packet_headers (t - D.SK6_RAW_DATA_ACC)] ∧
  ∀ j : Int, D.SK6_RAW_DATA_ACC ≤ j → j < t →
    D.sk6_raw_packet_headers (j - D.SK6_RAW_DATA_ACC)
      ≠ D.sk6_raw_packet_headers (t - D.SK6_RAW_DATA_ACC)

/-- The device state a raw framing ends in. -/
def RawFrame.state : RawFrame → SK6
  | RawFrame.returned _ _ s => s
  | RawFrame.framed _ _ _ s => s

/-- The `has_seq` argument handed to parse_raw_packet, if the framing got there. -/
def RawFrame.seq : RawFrame → Option Bool
  | RawFrame.returned _ _ _ => none
  | RawFrame.framed _ _ has_seq _ => some has_seq

/-- The body read of read_raw_packet delivered all the bytes asked for
(`bytes_left == bytes_read`, SK6.cpp:205). -/
def raw_body_full (D : Decls) (s : SK6) (packet_type : Int) (packetbuf : Buf) : Prop :=
  (read_bytes s.port packetbuf SK6_RAW_HEADER_LEN.toNat
    (D.sk6_packet_lengths packet_type - SK6_RAW_HEADER_LEN)).1
    = D.sk6_packet_lengths packet_type - SK6_RAW_HEADER_LEN

/-- The byte `packetbuf[packet_len-1]` once the body has been read (SK6.cpp:207). -/
def raw_trailing (D : Decls) (s : SK6) (packet_type : Int) (packetbuf : Buf) : Nat :=
  (read_bytes s.port packetbuf SK6_RAW_HEADER_LEN.toNat
    (D.sk6_packet_lengths packet_type - SK6_RAW_HEADER_LEN)).2.1
    (D.sk6_packet_lengths packet_type - 1).toNat

/-- The device state an ASCII framing ends in. -/
def AsciiFrame.state : AsciiFrame → SK6
  | AsciiFrame.returned _ _ s => s
  | AsciiFrame.framed _ _ _ _ _ s => s

/-- The body read of read_ascii_packet for a live packet of type `packet_type`
delivered all the bytes asked for (the test at SK6.cpp:127 passes). -/
def ascii_body_full (D : Decls) (s : SK6) (packet_type : Int) (packetbuf : Buf) : Prop :=
  (read_bytes s.port packetbuf SK6_HEADER_LEN.toNat
    (D.sk6_packet_lengths packet_type - SK6_HEADER_LEN)).1
    = D.sk6_packet_lengths packet_type - SK6_HEADER_LEN

/-- The byte at the terminator position of the table-length packet, that is
`packetbuf[sk6_packet_lengths[packet_type] - 1]` once the body of a live packet
has been read (SK6.cpp:147). -/
def ascii_terminator (D : Decls) (s : SK6) (packet_type : Int) (packetbuf : Buf) : Nat :=
  (read_bytes s.port packetbuf SK6_HEADER_LEN.toNat
    (D.sk6_packet_lengths packet_type - SK6_HEADER_LEN)).2.1
    (D.sk6_packet_lengths packet_type - 1).toNat

/-- The part of the device that the framers own and the extractors never write:
the link, the checksum flag, the lookahead and the acknowledgment fields. -/
def link_part (s : SK6) : Port × Bool × Nat × Bool × Bool × Bool × Int × Int :=
  (s.port, s.devpriv.checksum, s.devpriv.peek, s.devpriv.peek_flag,
    s.devpriv.waiting_for_ack, s.devpriv.lastack, s.devpriv.lastaddr, s.devpriv.lastval)

/-- The character `c` is a hexadecimal digit character of value `d`: `0`-`9`, or
`A`-`F` or `a`-`f`. -/
def is_hex_char (c d : Nat) : Prop :=
  (d < 10 ∧ c = 48 + d) ∨ (10 ≤ d ∧ d < 16 ∧ (c = 55 + d ∨ c = 87 + d))

/-- The value of `bytes_left` at SK6.cpp:127: the table length less the header,
less 3 in playback. -/
def body_left (D : Decls) (packet_type : Int) (playback : Bool) : Int :=
  if playback then D.sk6_packet_lengths packet_type - SK6_HEADER_LEN - 3
  else D.sk6_packet_lengths packet_type - SK6_HEADER_LEN

/-- What lines 116-161 of read_ascii_packet decide about the checksum flag, read
off the link and the buffer alone: `none` when the flag is left alone (short
body read, or a type without checksum), `some true` when a trailer is found,
`some false` when the terminator is found. -/
def checksum_outcome (D : Decls) (s : SK6) (packet_type : Int) (packetbuf : Buf)
    (playback : Bool) : Option Bool :=
  let r := read_bytes s.port packetbuf SK6_HEADER_LEN.toNat (body_left D packet_type playback)
  let buf1 : Buf :=
    if playback then store r.2.1 (r.1 + SK6_HEADER_LEN - 2).toNat [44, 48, 48, 13, 10] else r.2.1
  let bytes_read : Int := if playback then r.1 + 3 else r.1
  if r.1 ≠ body_left D packet_type playback then none
  else if D.sk6_packet_has_checksum packet_type ≠ 0 then
    some (decide (buf1 (bytes_read + SK6_HEADER_LEN - 1).toNat ≠ 10))
  else none

/-- The four header bytes that ASCII classification looks at. -/
def header_window (w : Buf) : List Nat := [w 0, w 1, w 2, w 3]

/-- The eight raw sensor packet types, in the order of the enumeration. -/
def raw_sensor_types (D : Decls) : List Int :=
  [D.SK6_RAW_DATA_ACC, D.SK6_RAW_DATA_GYRO, D.SK6_RAW_DATA_MAG, D.SK6_RAW_DATA_HEADING,
   D.SK6_RAW_DATA_CAP0, D.SK6_RAW_DATA_CAP1, D.SK6_RAW_DATA_ANALOG0, D.SK6_RAW_DATA_ANALOG1]

/-- The two bytes at offset `off` hold the value `v`, low byte first. -/
def le16_field (b : Buf) (off v : Nat) : Prop :=
  b off = v % 256 ∧ b (off + 1) = v / 256

/-- The second read of the timestamp branch of read_ascii_packet: the rest of
the envelope has been read, the buffer cleared, and the four bytes that follow
the envelope read to the start of the buffer (SK6.cpp:75-83). -/
def envelope_read (D : Decls) (s : SK6) (packetbuf : Buf) : Int × Buf × Port :=
  let r0 := read_bytes s.port packetbuf SK6_HEADER_LEN.toNat
    (D.sk6_packet_lengths D.SK6_DATA_TIMESTAMP - SK6_HEADER_LEN)
  read_bytes r0.2.2 (memset r0.2.1 0 256) 0 SK6_HEADER_LEN

/-- The inner packet type of a timestamp envelope: the value assigned to
`packet_type` at SK6.cpp:84. -/
def envelope_inner (D : Decls) (s : SK6) (packetbuf : Buf) : Int :=
  classify_packet_header D (envelope_read D s packetbuf).2.1 SK6_HEADER_LEN true

/-- The value of `packet_type` when lines 116-161 of read_ascii_packet run: the
inner type for a timestamp envelope, the type passed in otherwise. -/
def framed_type (D : Decls) (s : SK6) (packet_type : Int) (packetbuf : Buf) : Int :=
  if packet_type = D.SK6_DATA_TIMESTAMP then envelope_inner D s packetbuf else packet_type

/-- The body read of the inner packet of a timestamp envelope delivered all the
bytes asked for (the test at SK6.cpp:127 passes in playback). -/
def envelope_body_full (D : Decls) (s : SK6) (packetbuf : Buf) : Prop :=
  (read_bytes (envelope_read D s packetbuf).2.2 (envelope_read D s packetbuf).2.1
    SK6_HEADER_LEN.toNat (body_left D (envelope_inner D s packetbuf) true)).1
    = body_left D (envelope_inner D s packetbuf) true

/-- The table indices used by lines 116-161 of read_ascii_packet, in program
order: `sk6_packet_lengths[packet_type]` at SK6.cpp:118, then
`sk6_packet_has_checksum[packet_type]` at SK6.cpp:147 unless the function has
returned at SK6.cpp:129. -/
def ascii_body_indices (D : Decls) (s : SK6) (packet_type : Int) (packetbuf : Buf)
    (playback : Bool) : List Int :=
  let bytes_left0 : Int := D.sk6_packet_lengths packet_type - SK6_HEADER_LEN
  let bytes_left : Int := if playback then bytes_left0 - 3 else bytes_left0
  let r := read_bytes s.port packetbuf SK6_HEADER_LEN.toNat bytes_left
  if r.1 ≠ bytes_left then [packet_type] else [packet_type, packet_type]

/-- The indices with which read_ascii_packet reads the tables
`sk6_packet_lengths` and `sk6_packet_has_checksum`, in program order: the
envelope length twice (SK6.cpp:75, 77) and then the lookups for the inner type,
the length of a playback-complete or RFID packet (SK6.cpp:89, 101), none for
the start-up text, and the lookups of lines 116-161 for any other type. -/
def read_ascii_indices (D : Decls) (s : SK6) (packet_type : Int) (packetbuf : Buf) : List Int :=
  if packet_type = D.SK6_DATA_TIMESTAMP then
    let tlen : Int := D.sk6_packet_lengths D.SK6_DATA_TIMESTAMP
    let r0 := read_bytes s.port packetbuf SK6_HEADER_LEN.toNat (tlen - SK6_HEADER_LEN)
    let buf1 := memset r0.2.1 0 256
    let r1 := read_bytes r0.2.2 buf1 0 SK6_HEADER_LEN
    let inner := classify_packet_header D r1.2.1 SK6_HEADER_LEN true
    [D.SK6_DATA_TIMESTAMP, D.SK6_DATA_TIMESTAMP]
      ++ ascii_body_indices D { s with port := r1.2.2 } inner r1.2.1 true
  else if packet_type = D.SK6_DATA_PLAYBACK_COMPLETE then [packet_type]
  else if packet_type = D.SK6_DATA_RFID_TID then [packet_type]
  else if packet_type = D.SK6_STARTUP_INFO then []
  else ascii_body_indices D s packet_type packetbuf false

/-- An index within the packet tables, which have one entry per packet type. -/
def in_table_range (D : Decls) (i : Int) : Prop :=
  0 ≤ i ∧ i < D.SK6_NUM_PACKET_TYPES

/-- The eight sensor channels that have a packet type of their own in both
encodings. -/
inductive Channel where
  | acc
  | gyro
  | mag
  | heading
  | cap0
  | cap1
  | ana0
  | ana1
  deriving DecidableEq, Repr

/-- The ASCII packet type of a channel (case labels at SK6.cpp:347-444). -/
def Channel.ascii_type (D : Decls) : Channel → Int
  | Channel.acc => D.SK6_DATA_ACC
  | Channel.gyro => D.SK6_DATA_GYRO
  | Channel.mag => D.SK6_DATA_MAG
  | Channel.heading => D.SK6_DATA_HEADING
  | Channel.cap0 => D.SK6_DATA_CAP0
  | Channel.cap1 => D.SK6_DATA_CAP1
  | Channel.ana0 => D.SK6_DATA_ANA0
  | Channel.ana1 => D.SK6_DATA_ANA1

/-- The raw packet type of a channel (case labels at SK6.cpp:543-585). -/
def Channel.raw_type (D : Decls) : Channel → Int
  | Channel.acc => D.SK6_RAW_DATA_ACC
  | Channel.gyro => D.SK6_RAW_DATA_GYRO
  | Channel.mag => D.SK6_RAW_DATA_MAG
  | Channel.heading => D.SK6_RAW_DATA_HEADING
  | Channel.cap0 => D.SK6_RAW_DATA_CAP0
  | Channel.cap1 => D.SK6_RAW_DATA_CAP1
  | Channel.ana0 => D.SK6_RAW_DATA_ANALOG0
  | Channel.ana1 => D.SK6_RAW_DATA_ANALOG1

/-- The index of the sequence counter of a channel in `internal_timestamps`,
as both extractors write it. -/
def Channel.sensor (D : Decls) : Channel → Int
  | Channel.acc => D.SHAKE_SENSOR_ACC
  | Channel.gyro => D.SHAKE_SENSOR_GYRO
  | Channel.mag => D.SHAKE_SENSOR_MAG
  | Channel.heading => D.SHAKE_SENSOR_HEADING
  | Channel.cap0 => D.SHAKE_SENSOR_SK6_CAP0
  | Channel.cap1 => D.SHAKE_SENSOR_SK6_CAP1
  | Channel.ana0 => D.SHAKE_SENSOR_ANA0
  | Channel.ana1 => D.SHAKE_SENSOR_ANA1

/-- The offset of the sequence byte in the raw packet of a channel: `srpl->seq`
for the three long packets, `srps->seq` for the five short ones. -/
def Channel.raw_seq (D : Decls) : Channel → Nat
  | Channel.acc => D.raw_long_seq
  | Channel.gyro => D.raw_long_seq
  | Channel.mag => D.raw_long_seq
  | _ => D.raw_short_seq

/-- The value fields of a channel in the sensor record. -/
def Channel.values (d : SensorData) : Channel → List Int
  | Channel.acc => [d.accx, d.accy, d.accz]
  | Channel.gyro => [d.gyrx, d.gyry, d.gyrz]
  | Channel.mag => [d.magx, d.magy, d.magz]
  | Channel.heading => [d.heading]
  | Channel.cap0 => [d.cap_sk6_0]
  | Channel.cap1 => [d.cap_sk6_1]
  | Channel.ana0 => [d.ana0]
  | Channel.ana1 => [d.ana1]

/-- The shaking and heart-rate fields of the sensor record. -/
def event_fields (d : SensorData) : List Int :=
  [d.shaking_peak_accel, d.shaking_direction, d.shaking_timestamp, d.sk6seq, d.hr_bpm, d.hrseq]

/-- The eight ASCII sensor packet types, in the order of the enumeration. -/
def ascii_sensor_types (D : Decls) : List Int :=
  [D.SK6_DATA_ACC, D.SK6_DATA_GYRO, D.SK6_DATA_MAG, D.SK6_DATA_HEADING,
   D.SK6_DATA_CAP0, D.SK6_DATA_CAP1, D.SK6_DATA_ANA0, D.SK6_DATA_ANA1]

/-- The private state after the code that follows the switch of
extract_ascii_packet (SK6.cpp:529-530): in playback the packet count, a C
`int`, goes up by one (from INT_MAX to INT_MIN), nothing else moves. -/
def counted (p : DevPriv) (playback : Bool) : DevPriv :=
  { p with packets_read := if playback then int_wrap (p.packets_read + 1) else p.packets_read }

/-- The body read at SK6.cpp:127 returned a count different from the count
required: for a live packet the table length of its type less the header, for
the inner packet of a timestamp envelope the table length of the inner type
less the header and less 3. -/
def ascii_body_short (D : Decls) (s : SK6) (packet_type : Int) (packetbuf : Buf) : Prop :=
  if packet_type = D.SK6_DATA_TIMESTAMP then ¬ envelope_body_full D s packetbuf
  else ¬ ascii_body_full D s packet_type packetbuf

/-- The device `s` with the lookahead flag set to `b`. -/
def withPeekFlag (s : SK6) (b : Bool) : SK6 :=
  { s with devpriv := { s.devpriv with peek_flag := b } }

/-- The device `s` with the checksum flag set to `b`. -/
def withChecksum (s : SK6) (b : Bool) : SK6 :=
  { s with devpriv := { s.devpriv with checksum := b } }

/-- A sensor record with every field 0. -/
def zeroData : SensorData where
  accx := 0
  accy := 0
  accz := 0
  gyrx := 0
  gyry := 0
  gyrz := 0
  magx := 0
  magy := 0
  magz := 0
  heading := 0
  cap_sk6_0 := 0
  cap_sk6_1 := 0
  ana0 := 0
  ana1 := 0
  shaking_peak_accel := 0
  shaking_direction := 0
  shaking_timestamp := 0
  sk6seq := 0
  hr_bpm := 0
  hrseq := 0
  internal_timestamps := fun _ => 0

/-- A freshly connected device: every flag clear, no callback registered. -/
def idlePriv : DevPriv where
  checksum := false
  peek := 0
  peek_flag := false
  waiting_for_ack := false
  waiting_for_ack_signal := false
  lastack := false
  lastaddr := 0
  lastval := 0
  lastevent := 0
  lastrfid := []
  navcb := false
  navcb_STDCALL := false
  log := false
  rthread_done := false
  rthread_exit := 0
  packets_read := 0

/-- The idle device about to receive the bytes `input`. -/
def deviceOn (input : List Nat) : SK6 where
  devpriv := idlePriv
  data := zeroData
  port := { input := input, requests := [] }
  thread_signals := 0

/-- The device `s` with the sequence counter of channel `k` set to `v`. -/
def withCounter (s : SK6) (k v : Int) : SK6 :=
  { s with data := set_timestamp s.data k v }

/-- The idle device with a command outstanding (pending-acknowledgment flag set). -/
def pendingDevice : SK6 :=
  { deviceOn [] with devpriv := { idlePriv with waiting_for_ack := true,
                                                waiting_for_ack_signal := true } }

/-- The idle device with an event callback registered. -/
def callbackDevice : SK6 :=
  { deviceOn [] with devpriv := { idlePriv with navcb := true } }

/-- The buffer holding the packet `$ACK,1234,56` CR LF. -/
def ackBuf : Buf :=
  store (fun _ => 0) 0 [36, 65, 67, 75, 44, 49, 50, 51, 52, 44, 53, 54, 13, 10]

/-- The buffer holding the heart-rate packet `$HR ,0072,05` CR LF. -/
def heartRateBuf : Buf :=
  store (fun _ => 0) 0 [36, 72, 82, 32, 44, 48, 48, 55, 50, 44, 48, 53, 13, 10]

/-- The buffer holding the accelerometer packet `$ACC,+0123,+0456,+0789,05` CR LF. -/
def accBuf : Buf :=
  store (fun _ => 0) 0 [36, 65, 67, 67, 44, 43, 48, 49, 50, 51, 44, 43, 48, 52, 53, 54, 44,
    43, 48, 55, 56, 57, 44, 48, 53, 13, 10]

/-- A cleared packet buffer. -/
def zeroBuf : Buf := fun _ => 0

/-! ## Verification: the transport and the recovery scan -/

theorem read_bytes_requests (p : Port) (buf : Buf) (off : Nat) (n : Int) :
    (read_bytes p buf off n).2.2.requests = p.requests ++ [n.toNat] := rfl

theorem read_bytes_input (p : Port) (buf : Buf) (off : Nat) (n : Int) :
    (read_bytes p buf off n).2.2.input = p.input.drop n.toNat := rfl

theorem read_bytes_count (p : Port) (buf : Buf) (off : Nat) (n : Int) :
    (read_bytes p buf off n).1 = ((p.input.take n.toNat).length : Int) := rfl

theorem read_bytes_buf (p : Port) (buf : Buf) (off : Nat) (n : Int) :
    (read_bytes p buf off n).2.1 = store buf off (p.input.take n.toNat) := rfl

/-- One scan step reads the next byte, or keeps `c` when the link is empty. -/
theorem scan_byte (p : Port) (c : Nat) :
    (read_bytes p (fun _ => c) 0 1).2.1 0 = p.input.headD c := by
  rw [read_bytes_buf]
  cases h : p.input with
  | nil => simp [store]
  | cons a t => simp [store]

theorem recovery_scan_requests (left : Nat) : ∀ (c : Nat) (p : Port),
    ∃ n, n ≤ left ∧ (recovery_scan left c p).2.requests = p.requests ++ List.replicate n 1 := by
  induction left with
  | zero => intro c p; exact ⟨0, le_refl _, by simp [recovery_scan]⟩
  | succ k ih =>
    intro c p
    by_cases hc : c ≠ 36 ∧ c ≠ 127
    · obtain ⟨n, hn, hreq⟩ := ih ((read_bytes p (fun _ => c) 0 1).2.1 0) (read_bytes p (fun _ => c) 0 1).2.2
      refine ⟨n + 1, by omega, ?_⟩
      simp only [recovery_scan, hc, and_self, if_true, ne_eq, not_false_eq_true]
      rw [hreq, read_bytes_requests]
      simp [List.replicate_succ]
    · exact ⟨0, Nat.zero_le _, by simp [recovery_scan, hc]⟩

theorem recovery_scan_quiet (left : Nat) : ∀ (c : Nat) (p : Port),
    c ≠ 36 → c ≠ 127 → (∀ b ∈ p.input.take left, b ≠ 36 ∧ b ≠ 127) →
    (recovery_scan left c p).2.requests = p.requests ++ List.replicate left 1 ∧
    (recovery_scan left c p).2.input = p.input.drop left ∧
    (recovery_scan left c p).1 ≠ 36 ∧ (recovery_scan left c p).1 ≠ 127 := by
  induction left with
  | zero => intro c p h1 h2 _; simp [recovery_scan, h1, h2]
  | succ k ih =>
    intro c p h1 h2 hq
    have hnext : p.input.headD c ≠ 36 ∧ p.input.headD c ≠ 127 := by
      cases hi : p.input with
      | nil => simpa using ⟨h1, h2⟩
      | cons a t => rw [hi] at hq; simpa using hq a (by simp)
    have hrest : ∀ b ∈ (read_bytes p (fun _ => c) 0 1).2.2.input.take k, b ≠ 36 ∧ b ≠ 127 := by
      intro b hb
      rw [read_bytes_input] at hb
      cases hi : p.input with
      | nil => rw [hi] at hb; simp at hb
      | cons a t =>
        rw [hi] at hb hq
        exact hq b (by simp at hb; simp [List.take_succ_cons, hb])
    have := ih ((read_bytes p (fun _ => c) 0 1).2.1 0) (read_bytes p (fun _ => c) 0 1).2.2
      (by rw [scan_byte]; exact hnext.1) (by rw [scan_byte]; exact hnext.2) hrest
    simp only [recovery_scan, h1, h2, ne_eq, not_false_eq_true, and_self, if_true]
    obtain ⟨r1, r2, r3, r4⟩ := this
    refine ⟨?_, ?_, r3, r4⟩
    · rw [r1, read_bytes_requests]; simp [List.replicate_succ]
    · rw [r2, read_bytes_input]; simp [Nat.add_comm]


theorem first_byte_mem (p : Port) (buf : Buf) (n : Nat) (hn : 0 < n)
    (h : (read_bytes p buf 0 3).1 = 3) : (read_bytes p buf 0 3).2.1 0 ∈ p.input.take n := by
  rw [read_bytes_count] at h
  rw [read_bytes_buf]
  cases hi : p.input with
  | nil => rw [hi] at h; simp at h
  | cons a t =>
    obtain ⟨m, rfl⟩ : ∃ m, n = m + 1 := ⟨n - 1, by omega⟩
    simp [store]

theorem gnp_quiet (D : Decls) (s : SK6) (buf : Buf)
    (hq : ∀ b ∈ s.port.input.take 53, b ≠ 36 ∧ b ≠ 127 ∧ b ≠ 10) :
    (get_next_packet D s buf).1 = D.SHAKE_BAD_PACKET ∧
    (get_next_packet D s buf).2.2.port.requests = s.port.requests ++ 3 :: List.replicate 50 1 ∧
    (get_next_packet D s buf).2.2.port.input = s.port.input.drop 53 := by
  have hscan := recovery_scan_quiet 50 32 (read_bytes s.port buf 0 3).2.2 (by decide) (by decide)
    (by
      intro b hb
      have e : List.take 50 (List.drop 3 s.port.input) = List.drop 3 (List.take 53 s.port.input) := by
        rw [List.drop_take]
      change b ∈ List.take 50 (List.drop 3 s.port.input) at hb
      rw [e] at hb
      have := hq b (List.mem_of_mem_drop hb)
      exact ⟨this.1, this.2.1⟩)
  obtain ⟨q1, q2, q3, q4⟩ := hscan
  have hfirst : (read_bytes s.port buf 0 3).1 = 3 →
      (read_bytes s.port buf 0 3).2.1 0 ≠ 127 ∧ (read_bytes s.port buf 0 3).2.1 0 ≠ 36 ∧
      (read_bytes s.port buf 0 3).2.1 0 ≠ 10 := by
    intro h
    have := hq _ (first_byte_mem s.port buf 53 (by decide) h)
    exact ⟨this.2.1, this.1, this.2.2⟩
  unfold get_next_packet
  simp only []
  by_cases h3 : (read_bytes s.port buf 0 3).1 = 3
  · obtain ⟨f1, f2, f3⟩ := hfirst h3
    simp only [h3, f1, f2, f3, if_true, false_and, if_false, or_self, q3, q4]
    rw [q1, q2, read_bytes_requests, read_bytes_input]
    simp
  · simp only [h3, if_false, if_true, q3, q4]
    rw [q1, q2, read_bytes_requests, read_bytes_input]
    simp

theorem strncmp_eq_of_agree (a : Buf) (b : List Nat) : ∀ (n i : Nat),
    (∀ j, i ≤ j → j < i + n → a j = b.getD j 0) → strncmp_eq a b i n = true := by
  intro n
  induction n with
  | zero => intro i _; rfl
  | succ k ih =>
    intro i h
    have h0 := h i (le_refl _) (by omega)
    unfold strncmp_eq
    simp only [h0, ne_eq, not_true_eq_false, if_false]
    split
    · rfl
    · exact ih (i + 1) (fun j h1 h2 => h j (by omega) (by omega))

theorem agree_of_strncmp_eq (a : Buf) (b : List Nat) : ∀ (n i : Nat),
    strncmp_eq a b i n = true → (∀ j, i ≤ j → j < i + n → a j ≠ 0) →
    ∀ j, i ≤ j → j < i + n → a j = b.getD j 0 := by
  intro n
  induction n with
  | zero => intro i _ _ j h1 h2; omega
  | succ k ih =>
    intro i h hz j h1 h2
    unfold strncmp_eq at h
    by_cases e : a i = b.getD i 0
    · have hz0 := hz i (le_refl _) (by omega)
      simp only [e, ne_eq, not_true_eq_false, if_false] at h
      rw [← e] at h
      simp only [hz0, if_false] at h
      by_cases hj : j = i
      · rw [hj]; exact e
      · exact ih (i + 1) h (fun j h1 h2 => hz j (by omega) (by omega)) j (by omega) (by omega)
    · simp only [e, ne_eq, not_false_eq_true, if_true] at h
      exact absurd h (by decide)

theorem take4_of_agree (l h : List Nat) (hl : h.length = 4) (hz : 0 ∉ h)
    (hag : ∀ j, j < 4 → h.getD j 0 = l.getD j 0) : l.take 4 = h := by
  rcases h with _ | ⟨a, _ | ⟨b, _ | ⟨c, _ | ⟨d, _ | ⟨e, t⟩⟩⟩⟩⟩ <;> simp at hl
  have h0 := hag 0 (by decide)
  have h1 := hag 1 (by decide)
  have h2 := hag 2 (by decide)
  have h3 := hag 3 (by decide)
  simp at hz
  rcases l with _ | ⟨x, _ | ⟨y, _ | ⟨z, _ | ⟨w, t⟩⟩⟩⟩ <;> simp at h0 h1 h2 h3 <;> simp_all

theorem classify_loop_ascii (D : Decls) (w : Buf) (t : Int)
    (hle : t ≤ D.SK6_STARTUP_INFO)
    (hm : strncmp_eq w (D.sk6_packet_headers t) 0 4 = true) :
    ∀ (fuel : Nat) (i : Int), i ≤ t → (t - i).toNat < fuel →
      (∀ j : Int, i ≤ j → j < t → strncmp_eq w (D.sk6_packet_headers j) 0 4 = false) →
      classify_loop D w true fuel i = t := by
  intro fuel
  induction fuel with
  | zero => intro i _ h; omega
  | succ k ih =>
    intro i hi hf hno
    unfold classify_loop
    by_cases e : i = t
    · subst e; simp [hm]
    · have hlt : i < t := lt_of_le_of_ne hi e
      have h1 := hno i (le_refl _) hlt
      have h2 : ¬ i ≥ D.SK6_STARTUP_INFO := by omega
      simp only [h1, h2, if_true, if_false, Bool.false_eq_true]
      exact ih (i + 1) (by omega) (by omega) (fun j a b => hno j (by omega) b)

theorem classify_loop_raw (D : Decls) (w : Buf) (t : Int)
    (hm : w 2 = D.sk6_raw_packet_headers (t - D.SK6_RAW_DATA_ACC)) :
    ∀ (fuel : Nat) (i : Int), i ≤ t → (t - i).toNat < fuel →
      (∀ j : Int, i ≤ j → j < t → w 2 ≠ D.sk6_raw_packet_headers (j - D.SK6_RAW_DATA_ACC)) →
      classify_loop D w false fuel i = t := by
  intro fuel
  induction fuel with
  | zero => intro i _ h; omega
  | succ k ih =>
    intro i hi hf hno
    unfold classify_loop
    by_cases e : i = t
    · subst e; simp [hm]
    · have hlt : i < t := lt_of_le_of_ne hi e
      have h1 := hno i (le_refl _) hlt
      simp only [h1, if_false, Bool.false_eq_true]
      exact ih (i + 1) (by omega) (by omega) (fun j a b => hno j (by omega) b)

theorem classify_ascii (D : Decls) (w : Buf) (t : Int) (h : List Nat)
    (hh : ascii_header D t h) (hw : ∀ j, j < 4 → w j = h.getD j 0) :
    classify_packet_header D w SK6_HEADER_LEN true = t := by
  obtain ⟨h0, hle, hlt, hlen, hz, hcode, hfirst⟩ := hh
  have hm : strncmp_eq w (D.sk6_packet_headers t) 0 4 = true := by
    rw [hcode]
    exact strncmp_eq_of_agree w h 4 0 (fun j _ hj => hw j (by omega))
  have hwz : ∀ j, 0 ≤ j → j < 0 + 4 → w j ≠ 0 := by
    intro j _ hj e
    rw [hw j (by omega)] at e
    have hjl : j < h.length := by omega
    rw [List.getD_eq_getElem _ _ hjl] at e
    exact hz (e ▸ List.getElem_mem hjl)
  have hno : ∀ j : Int, 0 ≤ j → j < t → strncmp_eq w (D.sk6_packet_headers j) 0 4 = false := by
    intro j hj0 hjt
    by_contra hc
    rw [Bool.not_eq_false] at hc
    have hag := agree_of_strncmp_eq w _ 4 0 hc hwz
    exact hfirst j hj0 hjt (take4_of_agree _ h hlen hz
      (fun k hk => by rw [← hw k hk]; exact hag k (Nat.zero_le _) (by omega)))
  unfold classify_packet_header
  simp only [SK6_HEADER_LEN, ne_eq, not_true_eq_false, and_false, if_false, if_true,
    Bool.true_eq_false, not_false_eq_true, false_and, Bool.not_eq_true]
  exact classify_loop_ascii D w t hle hm _ 0 h0 (by omega) hno

theorem classify_raw (D : Decls) (w : Buf) (t : Int) (h : List Nat)
    (hh : raw_header D t h) (hw : ∀ j, j < 3 → w j = h.getD j 0) :
    classify_packet_header D w SK6_RAW_HEADER_LEN false = t := by
  obtain ⟨hge, hlt, hcode, hfirst⟩ := hh
  have w0 : w 0 = 127 := by rw [hw 0 (by decide), hcode]; rfl
  have w1 : w 1 = 127 := by rw [hw 1 (by decide), hcode]; rfl
  have w2 : w 2 = D.sk6_raw_packet_headers (t - D.SK6_RAW_DATA_ACC) := by
    rw [hw 2 (by decide), hcode]; rfl
  unfold classify_packet_header
  simp only [SK6_RAW_HEADER_LEN, w0, w1, ne_eq, not_true_eq_false, or_self, and_false,
    if_false, Bool.false_eq_true, false_and]
  exact classify_loop_raw D w t w2 _ _ hge (by omega) (fun j a b => by rw [w2]; exact (hfirst j a b).symm)

theorem recovery_scan_stop (left c : Nat) (p : Port) (h : c = 36 ∨ c = 127) :
    recovery_scan left c p = (c, p) := by
  cases left with
  | zero => rfl
  | succ k =>
    unfold recovery_scan
    rcases h with h | h <;> simp [h]

theorem recovery_scan_finds (m : Nat) (rest : List Nat) (hm : m = 36 ∨ m = 127) :
    ∀ (g : List Nat) (left c : Nat) (p : Port), c ≠ 36 → c ≠ 127 → g.length < left →
      (∀ b ∈ g, b ≠ 36 ∧ b ≠ 127) → p.input = g ++ m :: rest →
      (recovery_scan left c p).1 = m ∧ (recovery_scan left c p).2.input = rest := by
  intro g
  induction g with
  | nil =>
    intro left c p h1 h2 hl _ hin
    obtain ⟨k, rfl⟩ : ∃ k, left = k + 1 := ⟨left - 1, by simp at hl; omega⟩
    have hb : (read_bytes p (fun _ => c) 0 1).2.1 0 = m := by rw [scan_byte, hin]; rfl
    unfold recovery_scan
    simp only [h1, h2, ne_eq, not_false_eq_true, and_self, if_true, hb]
    rw [recovery_scan_stop k m _ hm, read_bytes_input, hin]
    simp
  | cons a t ih =>
    intro left c p h1 h2 hl hg hin
    obtain ⟨k, rfl⟩ : ∃ k, left = k + 1 := ⟨left - 1, by simp at hl; omega⟩
    have hb : (read_bytes p (fun _ => c) 0 1).2.1 0 = a := by rw [scan_byte, hin]; rfl
    have ha := hg a (by simp)
    unfold recovery_scan
    simp only [h1, h2, ne_eq, not_false_eq_true, and_self, if_true, hb]
    exact ih k a _ ha.1 ha.2 (by simp at hl; omega) (fun b hb => hg b (by simp [hb]))
      (by rw [read_bytes_input, hin]; simp)

theorem gnp_direct_ascii (D : Decls) (s : SK6) (buf : Buf) (h0 h1 h2 h3 : Nat)
    (rest : List Nat) (t : Int) (hin : s.port.input = h0 :: h1 :: h2 :: h3 :: rest)
    (hlead : h0 = 36 ∨ h0 = 10) (hh : ascii_header D t [h0, h1, h2, h3])
    (hbad : t ≠ D.SHAKE_BAD_PACKET) :
    (get_next_packet D s buf).1 = t ∧ (get_next_packet D s buf).2.2.port.input = rest := by
  have e3 : (read_bytes s.port buf 0 3).1 = 3 := by rw [read_bytes_count, hin]; rfl
  have b0 : (read_bytes s.port buf 0 3).2.1 0 = h0 := by rw [read_bytes_buf, hin]; rfl
  have hc : classify_packet_header D
      (read_bytes (read_bytes s.port buf 0 3).2.2 (read_bytes s.port buf 0 3).2.1 3 1).2.1
      SK6_HEADER_LEN true = t := by
    apply classify_ascii D _ t _ hh
    intro j hj
    simp only [read_bytes_buf, read_bytes_input, hin]
    interval_cases j <;> rfl
  have hp : (read_bytes (read_bytes s.port buf 0 3).2.2 (read_bytes s.port buf 0 3).2.1 3 1).2.2.input
      = rest := by
    simp only [read_bytes_input, hin]; rfl
  have n127 : ¬ (h0 = 127) := by rcases hlead with h | h <;> omega
  unfold get_next_packet
  simp only [e3, b0, n127, hlead, hc, hbad, hp, if_true, if_false, false_and, and_self]

theorem gnp_direct_raw (D : Decls) (s : SK6) (buf : Buf) (sel : Nat)
    (rest : List Nat) (t : Int) (hin : s.port.input = 127 :: 127 :: sel :: rest)
    (hh : raw_header D t [127, 127, sel]) (hbad : t ≠ D.SHAKE_BAD_PACKET) :
    (get_next_packet D s buf).1 = t ∧ (get_next_packet D s buf).2.2.port.input = rest := by
  have e3 : (read_bytes s.port buf 0 3).1 = 3 := by rw [read_bytes_count, hin]; rfl
  have b0 : (read_bytes s.port buf 0 3).2.1 0 = 127 := by rw [read_bytes_buf, hin]; rfl
  have b1 : (read_bytes s.port buf 0 3).2.1 1 = 127 := by rw [read_bytes_buf, hin]; rfl
  have hc : classify_packet_header D (read_bytes s.port buf 0 3).2.1 SK6_RAW_HEADER_LEN false
      = t := by
    apply classify_raw D _ t _ hh
    intro j hj
    simp only [read_bytes_buf, hin]
    interval_cases j <;> rfl
  have hp : (read_bytes s.port buf 0 3).2.2.input = rest := by
    simp only [read_bytes_input, hin]; rfl
  unfold get_next_packet
  simp only [e3, b0, b1, hc, hbad, hp, if_true, if_false, and_self]

theorem gnp_recover_ascii (D : Decls) (s : SK6) (buf : Buf) (a b c h1 h2 h3 : Nat)
    (g rest : List Nat) (t : Int)
    (hin : s.port.input = a :: b :: c :: (g ++ 36 :: h1 :: h2 :: h3 :: rest))
    (ha : a ≠ 36 ∧ a ≠ 127 ∧ a ≠ 10) (hg : ∀ x ∈ g, x ≠ 36 ∧ x ≠ 127) (hl : g.length < 50)
    (hh : ascii_header D t [36, h1, h2, h3]) :
    (get_next_packet D s buf).1 = t ∧ (get_next_packet D s buf).2.2.port.input = rest := by
  have e3 : (read_bytes s.port buf 0 3).1 = 3 := by rw [read_bytes_count, hin]; rfl
  have b0 : (read_bytes s.port buf 0 3).2.1 0 = a := by rw [read_bytes_buf, hin]; rfl
  have hsc := recovery_scan_finds 36 (h1 :: h2 :: h3 :: rest) (Or.inl rfl) g 50 32
    (read_bytes s.port buf 0 3).2.2 (by decide) (by decide) hl hg
    (by rw [read_bytes_input, hin]; rfl)
  obtain ⟨s1, s2⟩ := hsc
  have hc : classify_packet_header D
      (read_bytes (recovery_scan 50 32 (read_bytes s.port buf 0 3).2.2).2
        (store (memset (read_bytes s.port buf 0 3).2.1 0 256) 0 [36]) 1 (SK6_HEADER_LEN - 1)).2.1
      SK6_HEADER_LEN true = t := by
    apply classify_ascii D _ t _ hh
    intro j hj
    simp only [read_bytes_buf, s2]
    interval_cases j <;> rfl
  have hp : (read_bytes (recovery_scan 50 32 (read_bytes s.port buf 0 3).2.2).2
        (store (memset (read_bytes s.port buf 0 3).2.1 0 256) 0 [36]) 1
        (SK6_HEADER_LEN - 1)).2.2.input = rest := by
    simp only [read_bytes_input, s2]; rfl
  unfold get_next_packet
  simp only [e3, b0, ha.1, ha.2.1, ha.2.2, s1, hc, hp, if_true, if_false, false_and, or_self,
    and_self]

theorem gnp_recover_raw (D : Decls) (s : SK6) (buf : Buf) (a b c sel : Nat)
    (g rest : List Nat) (t : Int)
    (hin : s.port.input = a :: b :: c :: (g ++ 127 :: 127 :: sel :: rest))
    (ha : a ≠ 36 ∧ a ≠ 127 ∧ a ≠ 10) (hg : ∀ x ∈ g, x ≠ 36 ∧ x ≠ 127) (hl : g.length < 50)
    (hh : raw_header D t [127, 127, sel]) :
    (get_next_packet D s buf).1 = t ∧ (get_next_packet D s buf).2.2.port.input = rest := by
  have e3 : (read_bytes s.port buf 0 3).1 = 3 := by rw [read_bytes_count, hin]; rfl
  have b0 : (read_bytes s.port buf 0 3).2.1 0 = a := by rw [read_bytes_buf, hin]; rfl
  have hsc := recovery_scan_finds 127 (127 :: sel :: rest) (Or.inr rfl) g 50 32
    (read_bytes s.port buf 0 3).2.2 (by decide) (by decide) hl hg
    (by rw [read_bytes_input, hin]; rfl)
  obtain ⟨s1, s2⟩ := hsc
  have hc : classify_packet_header D
      (read_bytes (recovery_scan 50 32 (read_bytes s.port buf 0 3).2.2).2
        (store (memset (read_bytes s.port buf 0 3).2.1 0 256) 0 [127]) 1
        (SK6_RAW_HEADER_LEN - 1)).2.1
      SK6_RAW_HEADER_LEN false = t := by
    apply classify_raw D _ t _ hh
    intro j hj
    simp only [read_bytes_buf, s2]
    interval_cases j <;> rfl
  have hp : (read_bytes (recovery_scan 50 32 (read_bytes s.port buf 0 3).2.2).2
        (store (memset (read_bytes s.port buf 0 3).2.1 0 256) 0 [127]) 1
        (SK6_RAW_HEADER_LEN - 1)).2.2.input = rest := by
    simp only [read_bytes_input, s2]; rfl
  have n : ¬ ((127 : Nat) = 36) := by decide
  unfold get_next_packet
  simp only [e3, b0, ha.1, ha.2.1, ha.2.2, s1, hc, hp, n, if_true, if_false, false_and, or_self,
    and_self]

/-! ### C1, C2: the synchroniser -/

/-- C1 (amended): when no lookahead byte is pending and the link holds k
non-marker bytes (none is `$`, 0x7F or newline) with k = 0 or 3 <= k <= 49,
then a well-formed header, get_next_packet returns the packet type of that
header and leaves the link just after it.  The header is a raw header (marker
twice and the selector of a raw type), or the 4-character code of an ASCII type
that begins with `$`; a code that begins with the newline marker is found at
k = 0 only. -/
theorem c1_header_after_garbage (D : Decls) (s : SK6) (buf : Buf) (g h rest : List Nat)
    (t : Int)
    (_hpk : s.devpriv.peek_flag = false)
    (hk : g = [] ∨ (3 ≤ g.length ∧ g.length ≤ 49))
    (hg : ∀ b ∈ g, b ≠ 36 ∧ b ≠ 127 ∧ b ≠ 10)
    (hh : raw_header D t h ∨
      (ascii_header D t h ∧ (h.head? = some 36 ∨ (g = [] ∧ h.head? = some 10))))
    (hbad : t ≠ D.SHAKE_BAD_PACKET)
    (hin : s.port.input = g ++ h ++ rest) :
    (get_next_packet D s buf).1 = t ∧ (get_next_packet D s buf).2.2.port.input = rest := by
  rcases hk with rfl | ⟨k3, k49⟩
  · -- the header is the first thing on the link
    rcases hh with hr | ⟨hasc, hlead⟩
    · have e := hr.2.2.1
      subst e
      exact gnp_direct_raw D s buf _ rest t (by simpa using hin) hr hbad
    · obtain ⟨h0, h1, h2, h3, rfl⟩ : ∃ h0 h1 h2 h3, h = [h0, h1, h2, h3] := by
        have hl := hasc.2.2.2.1
        rcases h with _ | ⟨a, _ | ⟨b, _ | ⟨c, _ | ⟨d, _ | ⟨e, t⟩⟩⟩⟩⟩ <;> simp at hl
        exact ⟨a, b, c, d, rfl⟩
      have hl : h0 = 36 ∨ h0 = 10 := by
        rcases hlead with e | ⟨_, e⟩
        · left; simpa using e
        · right; simpa using e
      exact gnp_direct_ascii D s buf h0 h1 h2 h3 rest t (by simpa using hin) hl hasc hbad
  · -- at least three bytes of garbage: the recovery scan finds the header
    obtain ⟨a, b, c, g, rfl⟩ : ∃ a b c g1, g = a :: b :: c :: g1 := by
      rcases g with _ | ⟨a, _ | ⟨b, _ | ⟨c, g1⟩⟩⟩ <;> simp at k3
      exact ⟨a, b, c, g1, rfl⟩
    have ha := hg a (by simp)
    have hg1 : ∀ x ∈ g, x ≠ 36 ∧ x ≠ 127 := fun x hx =>
      ⟨(hg x (by simp [hx])).1, (hg x (by simp [hx])).2.1⟩
    have hl : g.length < 50 := by simp at k49; omega
    rcases hh with hr | ⟨hasc, hlead⟩
    · have e := hr.2.2.1
      subst e
      exact gnp_recover_raw D s buf a b c _ g rest t (by simpa using hin) ha hg1 hl hr
    · obtain ⟨h0, h1, h2, h3, rfl⟩ : ∃ h0 h1 h2 h3, h = [h0, h1, h2, h3] := by
        have hl := hasc.2.2.2.1
        rcases h with _ | ⟨a, _ | ⟨b, _ | ⟨c, _ | ⟨d, _ | ⟨e, t⟩⟩⟩⟩⟩ <;> simp at hl
        exact ⟨a, b, c, d, rfl⟩
      have e0 : h0 = 36 := by
        rcases hlead with e | ⟨e, _⟩
        · simpa using e
        · simp at e
      subst e0
      exact gnp_recover_ascii D s buf a b c h1 h2 h3 g rest t (by simpa using hin) ha hg1 hl hasc

/-- C1 witness: three garbage bytes and then the header `$ACC` give type 0, on
a device with no lookahead pending. -/
theorem c1_header_after_garbage_witness :
    (deviceOn [1, 2, 3, 36, 65, 67, 67, 44]).devpriv.peek_flag = false ∧
    (get_next_packet sampleDecls (deviceOn [1, 2, 3, 36, 65, 67, 67, 44]) zeroBuf).1 = 0 ∧
    (get_next_packet sampleDecls (deviceOn [1, 2, 3, 36, 65, 67, 67, 44]) zeroBuf).2.2.port.input
      = [44] :=
  ⟨rfl, c1_header_after_garbage sampleDecls (deviceOn [1, 2, 3, 36, 65, 67, 67, 44]) zeroBuf
    [1, 2, 3] [36, 65, 67, 67] [44] 0 rfl (Or.inr ⟨by decide, by decide⟩) (by decide)
    (Or.inr ⟨⟨by decide, by decide, by decide, rfl, by decide, rfl,
      fun j h1 h2 => absurd (lt_of_le_of_lt h1 h2) (lt_irrefl _)⟩, Or.inl rfl⟩)
    (by decide) rfl⟩

/-- C1 counterexample: with no lookahead pending, one garbage byte `A` followed
by the well-formed header `$ACC` (type 0 of the sample table) is not classified: the first 3-byte read
swallows `$A`, and the sentinel is returned.  Likewise the start-up header
(newline, `SHA`) after three garbage bytes is skipped by the recovery scan. -/
theorem c1_counterexample :
    (deviceOn ([65] ++ [36, 65, 67, 67])).devpriv.peek_flag = false ∧
    ascii_header sampleDecls 0 [36, 65, 67, 67] ∧
    (∀ b ∈ [65], b ≠ 36 ∧ b ≠ 127 ∧ b ≠ 10) ∧
    (get_next_packet sampleDecls (deviceOn ([65] ++ [36, 65, 67, 67])) zeroBuf).1 = -1 ∧
    ascii_header sampleDecls 25 [10, 83, 72, 65] ∧
    (get_next_packet sampleDecls (deviceOn ([1, 2, 3] ++ [10, 83, 72, 65])) zeroBuf).1 = -1 := by
  refine ⟨rfl, ⟨by decide, by decide, by decide, rfl, by decide, rfl,
      fun j h1 h2 => absurd (lt_of_le_of_lt h1 h2) (lt_irrefl _)⟩, by decide, by decide,
    ⟨by decide, by decide, by decide, rfl, by decide, rfl, ?_⟩, by decide⟩
  intro j h1 h2
  obtain ⟨n, rfl⟩ := Int.eq_ofNat_of_zero_le h1
  have hn : n < 25 := by omega
  interval_cases n <;> decide

/-- C2: the recovery scan makes at most 50 reads, each of one byte; and when
none of the bytes read is `$`, 0x7F or newline (no lookahead byte is pending,
which would be one of these three, and none of the first 53 bytes of the link
is one), get_next_packet returns the unrecognized sentinel after requesting 3
bytes and then 50 times one byte, consuming exactly the first 53 bytes of the
link once. -/
theorem c2_scan_bounded_and_unrecognized (D : Decls) (s : SK6) (buf : Buf) :
    (∀ (c : Nat) (p : Port), ∃ n, n ≤ 50 ∧
      (recovery_scan 50 c p).2.requests = p.requests ++ List.replicate n 1) ∧
    (s.devpriv.peek_flag = false →
      (∀ b ∈ s.port.input.take 53, b ≠ 36 ∧ b ≠ 127 ∧ b ≠ 10) →
      (get_next_packet D s buf).1 = D.SHAKE_BAD_PACKET ∧
      (get_next_packet D s buf).2.2.port.requests
        = s.port.requests ++ 3 :: List.replicate 50 1 ∧
      (get_next_packet D s buf).2.2.port.requests.sum = s.port.requests.sum + (3 + 50) ∧
      (get_next_packet D s buf).2.2.port.input = s.port.input.drop 53) := by
  refine ⟨recovery_scan_requests 50, fun _ hq => ?_⟩
  obtain ⟨h1, h2, h3⟩ := gnp_quiet D s buf hq
  refine ⟨h1, h2, ?_, h3⟩
  rw [h2]
  simp

/-- C2 witness: 54 bytes `A` on the link; 53 are requested, the 54th stays. -/
theorem c2_scan_bounded_and_unrecognized_witness :
    (get_next_packet sampleDecls (deviceOn (List.replicate 54 65)) zeroBuf).1 = -1 ∧
    (get_next_packet sampleDecls (deviceOn (List.replicate 54 65)) zeroBuf).2.2.port.requests
      = [] ++ 3 :: List.replicate 50 1 ∧
    (get_next_packet sampleDecls (deviceOn (List.replicate 54 65)) zeroBuf).2.2.port.requests.sum
      = 0 + (3 + 50) ∧
    (get_next_packet sampleDecls (deviceOn (List.replicate 54 65)) zeroBuf).2.2.port.input
      = [65] :=
  (c2_scan_bounded_and_unrecognized sampleDecls (deviceOn (List.replicate 54 65)) zeroBuf).2
    rfl (by decide)

/-! ## The raw extractor and framer -/

/-- Case analysis following the switch of extract_raw_packet. -/
theorem extract_raw_cases (D : Decls) (s : SK6) (packet_type : Int) (rawpacket : Buf)
    (has_seq : Bool) (P : Status × SK6 → Prop)
    (h1 : P (Status.SHAKE_SUCCESS, raw_case_acc D s rawpacket has_seq))
    (h2 : P (Status.SHAKE_SUCCESS, raw_case_gyro D s rawpacket has_seq))
    (h3 : P (Status.SHAKE_SUCCESS, raw_case_mag D s rawpacket has_seq))
    (h4 : P (Status.SHAKE_SUCCESS, raw_case_heading D s rawpacket has_seq))
    (h5 : P (Status.SHAKE_SUCCESS, raw_case_cap0 D s rawpacket has_seq))
    (h6 : P (Status.SHAKE_SUCCESS, raw_case_cap1 D s rawpacket has_seq))
    (h7 : P (Status.SHAKE_SUCCESS, raw_case_analog0 D s rawpacket has_seq))
    (h8 : P (Status.SHAKE_SUCCESS, raw_case_analog1 D s rawpacket has_seq))
    (h9 : P (Status.SHAKE_SUCCESS, raw_case_event D s rawpacket))
    (h10 : P (Status.SHAKE_SUCCESS, raw_case_shaking D s rawpacket))
    (h11 : P (Status.SHAKE_SUCCESS, s)) :
    P (extract_raw_packet D s packet_type rawpacket has_seq) := by
  unfold extract_raw_packet
  by_cases c1 : packet_type = D.SK6_RAW_DATA_ACC
  · rw [if_pos c1]; exact h1
  rw [if_neg c1]
  by_cases c2 : packet_type = D.SK6_RAW_DATA_GYRO
  · rw [if_pos c2]; exact h2
  rw [if_neg c2]
  by_cases c3 : packet_type = D.SK6_RAW_DATA_MAG
  · rw [if_pos c3]; exact h3
  rw [if_neg c3]
  by_cases c4 : packet_type = D.SK6_RAW_DATA_HEADING
  · rw [if_pos c4]; exact h4
  rw [if_neg c4]
  by_cases c5 : packet_type = D.SK6_RAW_DATA_CAP0
  · rw [if_pos c5]; exact h5
  rw [if_neg c5]
  by_cases c6 : packet_type = D.SK6_RAW_DATA_CAP1
  · rw [if_pos c6]; exact h6
  rw [if_neg c6]
  by_cases c7 : packet_type = D.SK6_RAW_DATA_ANALOG0
  · rw [if_pos c7]; exact h7
  rw [if_neg c7]
  by_cases c8 : packet_type = D.SK6_RAW_DATA_ANALOG1
  · rw [if_pos c8]; exact h8
  rw [if_neg c8]
  by_cases c9 : packet_type = D.SK6_RAW_DATA_EVENT
  · rw [if_pos c9]; exact h9
  rw [if_neg c9]
  by_cases c10 : packet_type = D.SK6_RAW_DATA_SHAKING
  · rw [if_pos c10]; exact h10
  rw [if_neg c10]
  exact h11

theorem extract_raw_no_seq (D : Decls) (s : SK6) (packet_type : Int) (rawpacket : Buf) :
    (extract_raw_packet D s packet_type rawpacket false).2.data.internal_timestamps
      = s.data.internal_timestamps := by
  apply extract_raw_cases D s packet_type rawpacket false
    (fun r => r.2.data.internal_timestamps = s.data.internal_timestamps)
  all_goals first
    | rfl
    | (simp only [raw_case_event, raw_case_shaking]; split <;> rfl)

theorem extract_raw_peek (D : Decls) (s : SK6) (packet_type : Int) (rawpacket : Buf)
    (has_seq : Bool) :
    (extract_raw_packet D s packet_type rawpacket has_seq).2.devpriv.peek = s.devpriv.peek ∧
    (extract_raw_packet D s packet_type rawpacket has_seq).2.devpriv.peek_flag
      = s.devpriv.peek_flag := by
  apply extract_raw_cases D s packet_type rawpacket has_seq
    (fun r => r.2.devpriv.peek = s.devpriv.peek ∧ r.2.devpriv.peek_flag = s.devpriv.peek_flag)
  all_goals first
    | exact ⟨rfl, rfl⟩
    | (simp only [raw_case_event, raw_case_shaking]; split <;> exact ⟨rfl, rfl⟩)

/-- What read_raw_packet does once the framing has passed the error test. -/
theorem read_raw_packet_of_framed (D : Decls) (s : SK6) (packet_type : Int) (packetbuf : Buf)
    (buf : Buf) (len : Int) (hs : Bool) (s1 : SK6)
    (h : read_raw_frame D s packet_type packetbuf = RawFrame.framed buf len hs s1) :
    read_raw_packet D s packet_type packetbuf
      = (ReadCode.SK6_RAW_READ_OK, buf, (extract_raw_packet D s1 packet_type buf hs).2) := by
  unfold read_raw_packet
  rw [h]
  rfl

/-- The lookahead fields after read_raw_packet are those the framing left. -/
theorem read_raw_packet_peek (D : Decls) (s : SK6) (packet_type : Int) (packetbuf : Buf) :
    (read_raw_packet D s packet_type packetbuf).2.2.devpriv.peek
      = (read_raw_frame D s packet_type packetbuf).state.devpriv.peek ∧
    (read_raw_packet D s packet_type packetbuf).2.2.devpriv.peek_flag
      = (read_raw_frame D s packet_type packetbuf).state.devpriv.peek_flag := by
  cases h : read_raw_frame D s packet_type packetbuf with
  | returned code buf s1 => unfold read_raw_packet; rw [h]; exact ⟨rfl, rfl⟩
  | framed buf len hs s1 =>
    rw [read_raw_packet_of_framed D s packet_type packetbuf buf len hs s1 h]
    exact extract_raw_peek D s1 packet_type buf hs

/-- The framing of a fully read raw body, by the value of the trailing byte. -/
theorem read_raw_frame_full (D : Decls) (s : SK6) (packet_type : Int) (packetbuf : Buf)
    (hfull : raw_body_full D s packet_type packetbuf) :
    (raw_trailing D s packet_type packetbuf = 127 →
      (read_raw_frame D s packet_type packetbuf).seq = some false ∧
      (read_raw_frame D s packet_type packetbuf).state.devpriv.peek = 127 ∧
      (read_raw_frame D s packet_type packetbuf).state.devpriv.peek_flag = true ∧
      (read_raw_frame D s packet_type packetbuf).state.data = s.data) ∧
    (raw_trailing D s packet_type packetbuf ≠ 127 →
      raw_trailing D s packet_type packetbuf ≠ 36 →
      raw_trailing D s packet_type packetbuf ≠ 10 →
      (read_raw_frame D s packet_type packetbuf).seq = some true ∧
      (read_raw_frame D s packet_type packetbuf).state.devpriv.peek = s.devpriv.peek ∧
      (read_raw_frame D s packet_type packetbuf).state.devpriv.peek_flag = false) ∧
    (raw_trailing D s packet_type packetbuf = 36 ∨ raw_trailing D s packet_type packetbuf = 10 →
      ((raw_trailing D s packet_type packetbuf : Int)
          = s.data.internal_timestamps (packet_type - D.SK6_RAW_DATA_ACC) + 1 →
        (read_raw_frame D s packet_type packetbuf).seq = some true ∧
        (read_raw_frame D s packet_type packetbuf).state.devpriv.peek = s.devpriv.peek ∧
        (read_raw_frame D s packet_type packetbuf).state.devpriv.peek_flag = false) ∧
      ((raw_trailing D s packet_type packetbuf : Int)
          ≠ s.data.internal_timestamps (packet_type - D.SK6_RAW_DATA_ACC) + 1 →
        (read_raw_frame D s packet_type packetbuf).seq = some false ∧
        (read_raw_frame D s packet_type packetbuf).state.devpriv.peek
          = raw_trailing D s packet_type packetbuf ∧
        (read_raw_frame D s packet_type packetbuf).state.devpriv.peek_flag = true)) := by
  unfold raw_body_full at hfull
  have e1 : ¬ (D.sk6_packet_lengths packet_type - SK6_RAW_HEADER_LEN
      - (D.sk6_packet_lengths packet_type - SK6_RAW_HEADER_LEN) > 1) := by omega
  refine ⟨fun h127 => ?_, fun n127 n36 n10 => ?_, fun h3610 => ⟨fun hq => ?_, fun hq => ?_⟩⟩
  · unfold raw_trailing at h127
    unfold read_raw_frame
    simp only [hfull, e1, h127, if_true, if_false]
    exact ⟨rfl, rfl, rfl, rfl⟩
  · unfold raw_trailing at n127 n36 n10
    unfold read_raw_frame
    simp only [hfull, e1, n127, n36, n10, if_true, if_false, or_self]
    exact ⟨rfl, rfl, rfl⟩
  · have n127 : raw_trailing D s packet_type packetbuf ≠ 127 := by
      rcases h3610 with h | h <;> rw [h] <;> decide
    unfold raw_trailing at n127 h3610 hq
    unfold read_raw_frame
    simp only [hfull, e1, n127, h3610, hq, if_true, if_false, true_or]
    exact ⟨rfl, rfl, rfl⟩
  · have n127 : raw_trailing D s packet_type packetbuf ≠ 127 := by
      rcases h3610 with h | h <;> rw [h] <;> decide
    have n0 : raw_trailing D s packet_type packetbuf ≠ 0 := by
      rcases h3610 with h | h <;> rw [h] <;> decide
    unfold raw_trailing at n127 h3610 hq n0
    unfold read_raw_frame
    simp only [hfull, e1, n127, h3610, hq, n0, if_true, if_false, false_and, or_self]
    exact ⟨rfl, rfl, rfl⟩

/-- When the framing hands over `has_seq = false`, read_raw_packet leaves every
sequence counter as the framing left the sensor record. -/
theorem read_raw_packet_no_seq (D : Decls) (s : SK6) (packet_type : Int) (packetbuf : Buf)
    (h : (read_raw_frame D s packet_type packetbuf).seq = some false) :
    (read_raw_packet D s packet_type packetbuf).2.2.data.internal_timestamps
      = (read_raw_frame D s packet_type packetbuf).state.data.internal_timestamps := by
  cases hf : read_raw_frame D s packet_type packetbuf with
  | returned code buf s1 => rw [hf] at h; exact absurd h (by simp [RawFrame.seq])
  | framed buf len hs s1 =>
    rw [hf] at h
    have e : hs = false := by simpa [RawFrame.seq] using h
    subst e
    rw [read_raw_packet_of_framed D s packet_type packetbuf buf len false s1 hf]
    exact extract_raw_no_seq D s1 packet_type buf

/-! ### C3, C4, C5: the trailing byte of a raw packet -/

/-- C3: in read_raw_packet with the full body read and a trailing byte b that is
`$` (36) or newline (10), for every stored counter c in 0..255 of the channel:
has_seq is true exactly when b = (c + 1) mod 256, and then no lookahead is
recorded; otherwise has_seq is false, the lookahead flag is set and the
lookahead byte is b. -/
theorem c3_ambiguous_trailing_byte (D : Decls) (s : SK6) (packet_type : Int) (packetbuf : Buf)
    (hfull : raw_body_full D s packet_type packetbuf)
    (hb : raw_trailing D s packet_type packetbuf = 36 ∨
      raw_trailing D s packet_type packetbuf = 10)
    (hc0 : 0 ≤ s.data.internal_timestamps (packet_type - D.SK6_RAW_DATA_ACC))
    (hc1 : s.data.internal_timestamps (packet_type - D.SK6_RAW_DATA_ACC) ≤ 255) :
    ((read_raw_frame D s packet_type packetbuf).seq = some true ↔
      (raw_trailing D s packet_type packetbuf : Int)
        = (s.data.internal_timestamps (packet_type - D.SK6_RAW_DATA_ACC) + 1) % 256) ∧
    ((raw_trailing D s packet_type packetbuf : Int)
        = (s.data.internal_timestamps (packet_type - D.SK6_RAW_DATA_ACC) + 1) % 256 →
      (read_raw_packet D s packet_type packetbuf).2.2.devpriv.peek_flag = false ∧
      (read_raw_packet D s packet_type packetbuf).2.2.devpriv.peek = s.devpriv.peek) ∧
    ((raw_trailing D s packet_type packetbuf : Int)
        ≠ (s.data.internal_timestamps (packet_type - D.SK6_RAW_DATA_ACC) + 1) % 256 →
      (read_raw_frame D s packet_type packetbuf).seq = some false ∧
      (read_raw_packet D s packet_type packetbuf).2.2.devpriv.peek_flag = true ∧
      (read_raw_packet D s packet_type packetbuf).2.2.devpriv.peek
        = raw_trailing D s packet_type packetbuf) := by
  obtain ⟨hyes, hno⟩ := (read_raw_frame_full D s packet_type packetbuf hfull).2.2 hb
  obtain ⟨p1, p2⟩ := read_raw_packet_peek D s packet_type packetbuf
  have hmod : (raw_trailing D s packet_type packetbuf : Int)
      = (s.data.internal_timestamps (packet_type - D.SK6_RAW_DATA_ACC) + 1) % 256 ↔
      (raw_trailing D s packet_type packetbuf : Int)
      = s.data.internal_timestamps (packet_type - D.SK6_RAW_DATA_ACC) + 1 := by
    rcases hb with h | h <;> rw [h] <;> constructor <;> intro e <;> omega
  refine ⟨⟨fun hs => ?_, fun e => (hyes (hmod.1 e)).1⟩, fun e => ?_, fun e => ?_⟩
  · by_contra hne
    have := (hno (fun e => hne (hmod.2 e))).1
    rw [this] at hs
    exact absurd hs (by decide)
  · obtain ⟨_, q1, q2⟩ := hyes (hmod.1 e)
    exact ⟨p2.trans q2, p1.trans q1⟩
  · obtain ⟨q0, q1, q2⟩ := hno (fun e1 => e (hmod.2 e1))
    exact ⟨q0, p2.trans q2, p1.trans q1⟩

/-- C3 witness: a raw heading packet (length 6) whose trailing byte is `$` while
the heading counter is 0: the byte is kept as lookahead. -/
theorem c3_ambiguous_trailing_byte_witness :
    ((read_raw_frame sampleDecls (deviceOn [1, 2, 36]) 29 zeroBuf).seq = some true ↔
      (raw_trailing sampleDecls (deviceOn [1, 2, 36]) 29 zeroBuf : Int)
        = ((deviceOn [1, 2, 36]).data.internal_timestamps (29 - sampleDecls.SK6_RAW_DATA_ACC) + 1)
          % 256) ∧
    ((raw_trailing sampleDecls (deviceOn [1, 2, 36]) 29 zeroBuf : Int)
        = ((deviceOn [1, 2, 36]).data.internal_timestamps (29 - sampleDecls.SK6_RAW_DATA_ACC) + 1)
          % 256 →
      (read_raw_packet sampleDecls (deviceOn [1, 2, 36]) 29 zeroBuf).2.2.devpriv.peek_flag = false ∧
      (read_raw_packet sampleDecls (deviceOn [1, 2, 36]) 29 zeroBuf).2.2.devpriv.peek
        = (deviceOn [1, 2, 36]).devpriv.peek) ∧
    ((raw_trailing sampleDecls (deviceOn [1, 2, 36]) 29 zeroBuf : Int)
        ≠ ((deviceOn [1, 2, 36]).data.internal_timestamps (29 - sampleDecls.SK6_RAW_DATA_ACC) + 1)
          % 256 →
      (read_raw_frame sampleDecls (deviceOn [1, 2, 36]) 29 zeroBuf).seq = some false ∧
      (read_raw_packet sampleDecls (deviceOn [1, 2, 36]) 29 zeroBuf).2.2.devpriv.peek_flag = true ∧
      (read_raw_packet sampleDecls (deviceOn [1, 2, 36]) 29 zeroBuf).2.2.devpriv.peek
        = raw_trailing sampleDecls (deviceOn [1, 2, 36]) 29 zeroBuf) :=
  c3_ambiguous_trailing_byte sampleDecls (deviceOn [1, 2, 36]) 29 zeroBuf
    (by unfold raw_body_full; decide) (Or.inl (by decide)) (by decide) (by decide)

/-- C4: in read_raw_packet with the full body read and a trailing byte that is
none of 0x7F, `$`, newline, the byte is a sequence number whatever the stored
counters are: has_seq is true and the lookahead flag is clear afterwards. -/
theorem c4_plain_trailing_byte (D : Decls) (s : SK6) (packet_type : Int) (packetbuf : Buf)
    (hfull : raw_body_full D s packet_type packetbuf)
    (n127 : raw_trailing D s packet_type packetbuf ≠ 127)
    (n36 : raw_trailing D s packet_type packetbuf ≠ 36)
    (n10 : raw_trailing D s packet_type packetbuf ≠ 10) :
    (read_raw_frame D s packet_type packetbuf).seq = some true ∧
    (read_raw_packet D s packet_type packetbuf).2.2.devpriv.peek_flag = false := by
  obtain ⟨q0, _, q2⟩ := (read_raw_frame_full D s packet_type packetbuf hfull).2.1 n127 n36 n10
  exact ⟨q0, (read_raw_packet_peek D s packet_type packetbuf).2.trans q2⟩

/-- C4 witness: heading counter 254 and trailing byte 255. -/
theorem c4_plain_trailing_byte_witness :
    (read_raw_frame sampleDecls (withCounter (deviceOn [1, 2, 255]) 3 254) 29 zeroBuf).seq
      = some true ∧
    (read_raw_packet sampleDecls (withCounter (deviceOn [1, 2, 255]) 3 254) 29
      zeroBuf).2.2.devpriv.peek_flag = false :=
  c4_plain_trailing_byte sampleDecls (withCounter (deviceOn [1, 2, 255]) 3 254) 29 zeroBuf
    (by unfold raw_body_full; decide) (by decide) (by decide) (by decide)

/-- C5: in read_raw_packet with the full body read and the trailing byte equal
to 0x7F, for every stored counter: has_seq handed to the extractor is false,
the lookahead byte is 0x7F with its flag set, and no sequence counter of the
sensor record is changed by the packet. -/
theorem c5_marker_trailing_byte (D : Decls) (s : SK6) (packet_type : Int) (packetbuf : Buf)
    (hfull : raw_body_full D s packet_type packetbuf)
    (h127 : raw_trailing D s packet_type packetbuf = 127) :
    (read_raw_frame D s packet_type packetbuf).seq = some false ∧
    (read_raw_packet D s packet_type packetbuf).2.2.devpriv.peek = 127 ∧
    (read_raw_packet D s packet_type packetbuf).2.2.devpriv.peek_flag = true ∧
    (read_raw_packet D s packet_type packetbuf).2.2.data.internal_timestamps
      = s.data.internal_timestamps := by
  obtain ⟨q0, q1, q2, q3⟩ := (read_raw_frame_full D s packet_type packetbuf hfull).1 h127
  obtain ⟨p1, p2⟩ := read_raw_packet_peek D s packet_type packetbuf
  refine ⟨q0, p1.trans q1, p2.trans q2, ?_⟩
  rw [read_raw_packet_no_seq D s packet_type packetbuf q0, q3]

/-- C5 witness: a raw heading packet followed at once by the next raw header,
with the heading counter at 126. -/
theorem c5_marker_trailing_byte_witness :
    (read_raw_frame sampleDecls (withCounter (deviceOn [1, 2, 127]) 3 126) 29 zeroBuf).seq
      = some false ∧
    (read_raw_packet sampleDecls (withCounter (deviceOn [1, 2, 127]) 3 126) 29
      zeroBuf).2.2.devpriv.peek = 127 ∧
    (read_raw_packet sampleDecls (withCounter (deviceOn [1, 2, 127]) 3 126) 29
      zeroBuf).2.2.devpriv.peek_flag = true ∧
    (read_raw_packet sampleDecls (withCounter (deviceOn [1, 2, 127]) 3 126) 29
      zeroBuf).2.2.data.internal_timestamps
      = (withCounter (deviceOn [1, 2, 127]) 3 126).data.internal_timestamps :=
  c5_marker_trailing_byte sampleDecls (withCounter (deviceOn [1, 2, 127]) 3 126) 29 zeroBuf
    (by unfold raw_body_full; decide) (by decide)

/-! ## The ASCII extractor and parser -/

/-- Case analysis following the switch of extract_ascii_packet. -/
theorem extract_ascii_cases (D : Decls) (s : SK6) (packet_type : Int) (rawpacket : Buf)
    (playback : Bool) (ts : List Nat) (P : Status × SK6 → Prop)
    (h1 : P (ascii_break (ascii_case_acc D s rawpacket) playback))
    (h2 : P (ascii_break (ascii_case_gyro D s rawpacket) playback))
    (h3 : P (ascii_break (ascii_case_mag D s rawpacket) playback))
    (h4 : P (ascii_break (ascii_case_heading D s rawpacket) playback))
    (h5 : P (ascii_break (ascii_case_cap0 D s rawpacket) playback))
    (h6 : P (ascii_break (ascii_case_cap1 D s rawpacket) playback))
    (h7 : P (ascii_break (ascii_case_ana0 D s rawpacket) playback))
    (h8 : P (ascii_break (ascii_case_ana1 D s rawpacket) playback))
    (h9 : P (ascii_break (ascii_case_nav D s rawpacket) playback))
    (h10 : P (ascii_break (ascii_case_threshold D s packet_type) playback))
    (h11 : P (ascii_break (ascii_case_shaking D s rawpacket) playback))
    (h12 : P (Status.SHAKE_ERROR, ascii_case_heart_rate D s rawpacket))
    (h13 : P (Status.SHAKE_ERROR, s)) :
    P (extract_ascii_packet D s packet_type rawpacket playback ts) := by
  unfold extract_ascii_packet
  by_cases c1 : packet_type = D.SK6_DATA_ACC
  · rw [if_pos c1]; exact h1
  rw [if_neg c1]
  by_cases c2 : packet_type = D.SK6_DATA_GYRO
  · rw [if_pos c2]; exact h2
  rw [if_neg c2]
  by_cases c3 : packet_type = D.SK6_DATA_MAG
  · rw [if_pos c3]; exact h3
  rw [if_neg c3]
  by_cases c4 : packet_type = D.SK6_DATA_HEADING
  · rw [if_pos c4]; exact h4
  rw [if_neg c4]
  by_cases c5 : packet_type = D.SK6_DATA_CAP0
  · rw [if_pos c5]; exact h5
  rw [if_neg c5]
  by_cases c6 : packet_type = D.SK6_DATA_CAP1
  · rw [if_pos c6]; exact h6
  rw [if_neg c6]
  by_cases c7 : packet_type = D.SK6_DATA_ANA0
  · rw [if_pos c7]; exact h7
  rw [if_neg c7]
  by_cases c8 : packet_type = D.SK6_DATA_ANA1
  · rw [if_pos c8]; exact h8
  rw [if_neg c8]
  by_cases c9 : packet_type = D.SK6_DATA_NVU ∨ packet_type = D.SK6_DATA_NVD
      ∨ packet_type = D.SK6_DATA_NVC ∨ packet_type = D.SK6_DATA_NVN
  · rw [if_pos c9]; exact h9
  rw [if_neg c9]
  by_cases c10 : packet_type = D.SK6_DATA_CU0 ∨ packet_type = D.SK6_DATA_CL0
      ∨ packet_type = D.SK6_DATA_CU1 ∨ packet_type = D.SK6_DATA_CL1
  · rw [if_pos c10]; exact h10
  rw [if_neg c10]
  by_cases c11 : packet_type = D.SK6_DATA_SHAKING
  · rw [if_pos c11]; exact h11
  rw [if_neg c11]
  by_cases c12 : packet_type = D.SK6_DATA_HEART_RATE
  · rw [if_pos c12]; exact h12
  rw [if_neg c12]
  exact h13

theorem ascii_break_link (s : SK6) (playback : Bool) :
    link_part (ascii_break s playback).2 = link_part s := by
  unfold ascii_break
  cases playback <;> rfl

theorem raise_event_link (s : SK6) (ev : Int) : link_part (raise_event s ev) = link_part s := rfl

/-- The ASCII extractor leaves the link, the checksum flag, the lookahead and
the acknowledgment fields as they are. -/
theorem extract_ascii_link (D : Decls) (s : SK6) (packet_type : Int) (rawpacket : Buf)
    (playback : Bool) (ts : List Nat) :
    link_part (extract_ascii_packet D s packet_type rawpacket playback ts).2 = link_part s := by
  apply extract_ascii_cases D s packet_type rawpacket playback ts
    (fun r => link_part r.2 = link_part s)
  case h9 => rw [ascii_break_link]; unfold ascii_case_nav; split <;> rfl
  case h10 => rw [ascii_break_link]; unfold ascii_case_threshold; split <;> rfl
  case h11 => rw [ascii_break_link]; unfold ascii_case_shaking; simp only []; split <;> rfl
  case h12 => unfold ascii_case_heart_rate; simp only []; split <;> rfl
  case h13 => rfl
  all_goals (rw [ascii_break_link]; rfl)

/-- The ASCII parser leaves the link and the checksum flag as they are. -/
theorem parse_ascii_port_checksum (D : Decls) (s : SK6) (packet_type : Int) (packetbuf : Buf)
    (len : Int) (playback : Bool) (ts : List Nat) :
    (parse_ascii_packet D s packet_type packetbuf len playback ts).2.port = s.port ∧
    (parse_ascii_packet D s packet_type packetbuf len playback ts).2.devpriv.checksum
      = s.devpriv.checksum := by
  have hl := extract_ascii_link D s packet_type packetbuf playback ts
  have e1 : (extract_ascii_packet D s packet_type packetbuf playback ts).2.port = s.port :=
    congrArg (fun x => x.1) hl
  have e2 : (extract_ascii_packet D s packet_type packetbuf playback ts).2.devpriv.checksum
      = s.devpriv.checksum := congrArg (fun x => x.2.1) hl
  unfold parse_ascii_packet
  by_cases c1 : packet_type ≠ D.SK6_ACK_ACK ∧ packet_type ≠ D.SK6_ACK_NEG
  · rw [if_pos c1]
    by_cases c2 : s.devpriv.checksum = true
    · rw [if_pos c2]; exact ⟨e1, e2⟩
    · rw [if_neg c2]; exact ⟨e1, e2⟩
  · rw [if_neg c1]
    by_cases c3 : ¬ s.devpriv.waiting_for_ack = true
    · rw [if_pos c3]; exact ⟨rfl, rfl⟩
    · rw [if_neg c3]; exact ⟨rfl, rfl⟩

/-- The link and the checksum flag after read_ascii_packet are those the
framing part left. -/
theorem read_ascii_packet_port_checksum (D : Decls) (s : SK6) (packet_type : Int)
    (packetbuf : Buf) :
    (read_ascii_packet D s packet_type packetbuf).2.2.port
      = (read_ascii_frame D s packet_type packetbuf).state.port ∧
    (read_ascii_packet D s packet_type packetbuf).2.2.devpriv.checksum
      = (read_ascii_frame D s packet_type packetbuf).state.devpriv.checksum := by
  unfold read_ascii_packet
  cases h : read_ascii_frame D s packet_type packetbuf with
  | returned code buf s1 => exact ⟨rfl, rfl⟩
  | framed ty buf n pb ts s1 =>
    simp only [AsciiFrame.state]
    by_cases c : s1.devpriv.rthread_done = true
    · rw [if_pos c]; exact ⟨rfl, rfl⟩
    · rw [if_neg c]; exact parse_ascii_port_checksum D s1 ty buf n pb ts

/-! ## The ASCII framer -/

/-- A packet type that is none of the four handled before the generic path is
framed by `ascii_body` outside playback. -/
theorem read_ascii_frame_generic (D : Decls) (s : SK6) (packet_type : Int) (packetbuf : Buf)
    (hT : packet_type ≠ D.SK6_DATA_TIMESTAMP) (hP : packet_type ≠ D.SK6_DATA_PLAYBACK_COMPLETE)
    (hR : packet_type ≠ D.SK6_DATA_RFID_TID) (hS : packet_type ≠ D.SK6_STARTUP_INFO) :
    read_ascii_frame D s packet_type packetbuf = ascii_body D s packet_type packetbuf false [] := by
  unfold read_ascii_frame
  rw [if_neg hT, if_neg hP, if_neg hR, if_neg hS]

/-- The framing of a fully read body of a live checksum-eligible packet, by the
byte at the terminator position. -/
theorem ascii_body_live (D : Decls) (s : SK6) (packet_type : Int) (packetbuf : Buf)
    (ts : List Nat) (hck : D.sk6_packet_has_checksum packet_type ≠ 0)
    (hfull : ascii_body_full D s packet_type packetbuf) :
    (ascii_terminator D s packet_type packetbuf ≠ 10 →
      (ascii_body D s packet_type packetbuf false ts).state.devpriv.checksum = true ∧
      (ascii_body D s packet_type packetbuf false ts).state.port.requests
        = s.port.requests ++ [(D.sk6_packet_lengths packet_type - SK6_HEADER_LEN).toNat, 3] ∧
      (ascii_body D s packet_type packetbuf false ts).state.port.input
        = (s.port.input.drop (D.sk6_packet_lengths packet_type - SK6_HEADER_LEN).toNat).drop 3) ∧
    (ascii_terminator D s packet_type packetbuf = 10 →
      (ascii_body D s packet_type packetbuf false ts).state.devpriv.checksum = false ∧
      (ascii_body D s packet_type packetbuf false ts).state.port.requests
        = s.port.requests ++ [(D.sk6_packet_lengths packet_type - SK6_HEADER_LEN).toNat] ∧
      (ascii_body D s packet_type packetbuf false ts).state.port.input
        = s.port.input.drop (D.sk6_packet_lengths packet_type - SK6_HEADER_LEN).toNat) := by
  unfold ascii_body_full at hfull
  have e1 : D.sk6_packet_lengths packet_type - SK6_HEADER_LEN + SK6_HEADER_LEN - 1
      = D.sk6_packet_lengths packet_type - 1 := by omega
  constructor
  · intro ht
    unfold ascii_terminator at ht
    unfold ascii_body
    simp only [Bool.false_eq_true, if_false, hfull, ne_eq, not_true_eq_false, e1, hck, ht,
      not_false_eq_true, and_self, if_true]
    by_cases c : s.devpriv.checksum = true
    · simp [c, AsciiFrame.state, read_bytes_requests, read_bytes_input, CHECKSUM_LENGTH]
    · simp [c, AsciiFrame.state, read_bytes_requests, read_bytes_input, CHECKSUM_LENGTH]
  · intro ht
    unfold ascii_terminator at ht
    unfold ascii_body
    simp only [Bool.false_eq_true, if_false, hfull, ne_eq, not_true_eq_false, e1, hck, ht,
      not_false_eq_true, and_false, true_and, if_true]
    by_cases c : s.devpriv.checksum = true
    · simp [c, AsciiFrame.state, read_bytes_requests, read_bytes_input]
    · simp [c, AsciiFrame.state, read_bytes_requests, read_bytes_input]

/-! ### C6: checksum detection -/

/-- C6: for a checksum-eligible ASCII packet type framed by read_ascii_packet
outside playback (the type is none of timestamp, playback-complete, RFID,
start-up) with the full body read: when the byte at the terminator position of
the table-length packet is not 0x0A, one further read of exactly 3 bytes is made
and the checksum flag is on afterwards; when it is 0x0A, no further read is made
and the checksum flag is off afterwards. -/
theorem c6_checksum_detection (D : Decls) (s : SK6) (packet_type : Int) (packetbuf : Buf)
    (hT : packet_type ≠ D.SK6_DATA_TIMESTAMP) (hP : packet_type ≠ D.SK6_DATA_PLAYBACK_COMPLETE)
    (hR : packet_type ≠ D.SK6_DATA_RFID_TID) (hS : packet_type ≠ D.SK6_STARTUP_INFO)
    (hck : D.sk6_packet_has_checksum packet_type ≠ 0)
    (hfull : ascii_body_full D s packet_type packetbuf) :
    (ascii_terminator D s packet_type packetbuf ≠ 10 →
      (read_ascii_packet D s packet_type packetbuf).2.2.devpriv.checksum = true ∧
      (read_ascii_packet D s packet_type packetbuf).2.2.port.requests
        = s.port.requests ++ [(D.sk6_packet_lengths packet_type - SK6_HEADER_LEN).toNat, 3] ∧
      (read_ascii_packet D s packet_type packetbuf).2.2.port.input
        = (s.port.input.drop (D.sk6_packet_lengths packet_type - SK6_HEADER_LEN).toNat).drop 3) ∧
    (ascii_terminator D s packet_type packetbuf = 10 →
      (read_ascii_packet D s packet_type packetbuf).2.2.devpriv.checksum = false ∧
      (read_ascii_packet D s packet_type packetbuf).2.2.port.requests
        = s.port.requests ++ [(D.sk6_packet_lengths packet_type - SK6_HEADER_LEN).toNat] ∧
      (read_ascii_packet D s packet_type packetbuf).2.2.port.input
        = s.port.input.drop (D.sk6_packet_lengths packet_type - SK6_HEADER_LEN).toNat) := by
  obtain ⟨hp, hc⟩ := read_ascii_packet_port_checksum D s packet_type packetbuf
  rw [hp, hc, read_ascii_frame_generic D s packet_type packetbuf hT hP hR hS]
  exact ascii_body_live D s packet_type packetbuf [] hck hfull

/-- C6 witness: the heading packet `$HED,0123,45` closed by CR LF (type 3 of the
sample table, length 14), read while the checksum flag is off. -/
theorem c6_checksum_detection_witness :
    (ascii_terminator sampleDecls (deviceOn [44, 48, 49, 50, 51, 44, 52, 53, 13, 10]) 3 zeroBuf
        ≠ 10 →
      (read_ascii_packet sampleDecls (deviceOn [44, 48, 49, 50, 51, 44, 52, 53, 13, 10]) 3
        zeroBuf).2.2.devpriv.checksum = true ∧
      (read_ascii_packet sampleDecls (deviceOn [44, 48, 49, 50, 51, 44, 52, 53, 13, 10]) 3
        zeroBuf).2.2.port.requests
        = (deviceOn [44, 48, 49, 50, 51, 44, 52, 53, 13, 10]).port.requests
          ++ [(sampleDecls.sk6_packet_lengths 3 - SK6_HEADER_LEN).toNat, 3] ∧
      (read_ascii_packet sampleDecls (deviceOn [44, 48, 49, 50, 51, 44, 52, 53, 13, 10]) 3
        zeroBuf).2.2.port.input
        = ((deviceOn [44, 48, 49, 50, 51, 44, 52, 53, 13, 10]).port.input.drop
            (sampleDecls.sk6_packet_lengths 3 - SK6_HEADER_LEN).toNat).drop 3) ∧
    (ascii_terminator sampleDecls (deviceOn [44, 48, 49, 50, 51, 44, 52, 53, 13, 10]) 3 zeroBuf
        = 10 →
      (read_ascii_packet sampleDecls (deviceOn [44, 48, 49, 50, 51, 44, 52, 53, 13, 10]) 3
        zeroBuf).2.2.devpriv.checksum = false ∧
      (read_ascii_packet sampleDecls (deviceOn [44, 48, 49, 50, 51, 44, 52, 53, 13, 10]) 3
        zeroBuf).2.2.port.requests
        = (deviceOn [44, 48, 49, 50, 51, 44, 52, 53, 13, 10]).port.requests
          ++ [(sampleDecls.sk6_packet_lengths 3 - SK6_HEADER_LEN).toNat] ∧
      (read_ascii_packet sampleDecls (deviceOn [44, 48, 49, 50, 51, 44, 52, 53, 13, 10]) 3
        zeroBuf).2.2.port.input
        = (deviceOn [44, 48, 49, 50, 51, 44, 52, 53, 13, 10]).port.input.drop
            (sampleDecls.sk6_packet_lengths 3 - SK6_HEADER_LEN).toNat) :=
  c6_checksum_detection sampleDecls (deviceOn [44, 48, 49, 50, 51, 44, 52, 53, 13, 10]) 3 zeroBuf
    (by decide) (by decide) (by decide) (by decide) (by decide)
    (by unfold ascii_body_full; decide)

/-! ## Acknowledgments -/

theorem hex_digit_of_char (c d : Nat) (h : is_hex_char c d) : hex_digit c = d := by
  unfold hex_digit
  rcases h with ⟨h1, rfl⟩ | ⟨h1, h2, rfl | rfl⟩
  · rw [if_pos (by omega)]; omega
  · rw [if_neg (by omega), if_pos (by omega)]; omega
  · rw [if_neg (by omega), if_neg (by omega), if_pos (by omega)]; omega

theorem hex4 (b : Buf) (off a3 a2 a1 a0 : Nat)
    (h3 : is_hex_char (b off) a3) (h2 : is_hex_char (b (off + 1)) a2)
    (h1 : is_hex_char (b (off + 2)) a1) (h0 : is_hex_char (b (off + 3)) a0) :
    hex_ascii_to_int b off 4 4 = ((a3 * 4096 + a2 * 256 + a1 * 16 + a0 : Nat) : Int) := by
  have e : List.range 4 = [0, 1, 2, 3] := by decide
  unfold hex_ascii_to_int
  rw [e]
  simp only [List.foldl, Nat.sub_self, Nat.add_zero, hex_digit_of_char _ _ h3,
    hex_digit_of_char _ _ h2, hex_digit_of_char _ _ h1, hex_digit_of_char _ _ h0]
  push_cast
  ring

theorem hex2 (b : Buf) (off v1 v0 : Nat)
    (h1 : is_hex_char (b off) v1) (h0 : is_hex_char (b (off + 1)) v0) :
    hex_ascii_to_int b off 2 2 = ((v1 * 16 + v0 : Nat) : Int) := by
  have e : List.range 2 = [0, 1] := by decide
  unfold hex_ascii_to_int
  rw [e]
  simp only [List.foldl, Nat.sub_self, Nat.add_zero, hex_digit_of_char _ _ h1,
    hex_digit_of_char _ _ h0]
  push_cast
  ring

/-! ### C9, C10: the acknowledgment path of parse_ascii_packet -/

/-- C9: with the pending-acknowledgment flag set, parse_ascii_packet on an ACK
packet whose address field holds the four hexadecimal digits a3 a2 a1 a0 and
whose value field holds the two digits v1 v0 returns the OK code and stores
outcome = success, address = a3*4096 + a2*256 + a1*16 + a0 and value =
v1*16 + v0; on a NAK packet it returns the OK code and stores outcome = failure. -/
theorem c9_ack_decoded (D : Decls) (s : SK6) (packetbuf : Buf) (len : Int) (playback : Bool)
    (ts : List Nat) (a3 a2 a1 a0 v1 v0 : Nat)
    (hw : s.devpriv.waiting_for_ack = true)
    (hne : D.SK6_ACK_NEG ≠ D.SK6_ACK_ACK)
    (h3 : is_hex_char (packetbuf D.ack_addr) a3)
    (h2 : is_hex_char (packetbuf (D.ack_addr + 1)) a2)
    (h1 : is_hex_char (packetbuf (D.ack_addr + 2)) a1)
    (h0 : is_hex_char (packetbuf (D.ack_addr + 3)) a0)
    (g1 : is_hex_char (packetbuf D.ack_val) v1)
    (g0 : is_hex_char (packetbuf (D.ack_val + 1)) v0) :
    ((parse_ascii_packet D s D.SK6_ACK_ACK packetbuf len playback ts).1
        = ReadCode.SK6_ASCII_READ_OK ∧
      (parse_ascii_packet D s D.SK6_ACK_ACK packetbuf len playback ts).2.devpriv.lastack = true ∧
      (parse_ascii_packet D s D.SK6_ACK_ACK packetbuf len playback ts).2.devpriv.lastaddr
        = ((a3 * 4096 + a2 * 256 + a1 * 16 + a0 : Nat) : Int) ∧
      (parse_ascii_packet D s D.SK6_ACK_ACK packetbuf len playback ts).2.devpriv.lastval
        = ((v1 * 16 + v0 : Nat) : Int)) ∧
    ((parse_ascii_packet D s D.SK6_ACK_NEG packetbuf len playback ts).1
        = ReadCode.SK6_ASCII_READ_OK ∧
      (parse_ascii_packet D s D.SK6_ACK_NEG packetbuf len playback ts).2.devpriv.lastack
        = false) := by
  have hw1 : ¬ ¬ s.devpriv.waiting_for_ack = true := fun h => h hw
  constructor
  · unfold parse_ascii_packet
    rw [if_neg (fun h => h.1 rfl), if_neg hw1]
    refine ⟨rfl, ?_, ?_, ?_⟩
    · simp only [if_true]
    · exact hex4 packetbuf D.ack_addr a3 a2 a1 a0 h3 h2 h1 h0
    · exact hex2 packetbuf D.ack_val v1 v0 g1 g0
  · unfold parse_ascii_packet
    rw [if_neg (fun h => h.2 rfl), if_neg hw1]
    refine ⟨rfl, ?_⟩
    simp only [hne, if_false]

/-- C9 witness: the packet `$ACK,1234,56` gives address 0x1234 and value 0x56. -/
theorem c9_ack_decoded_witness :
    ((parse_ascii_packet sampleDecls
        { deviceOn [] with devpriv := { idlePriv with waiting_for_ack := true } }
        sampleDecls.SK6_ACK_ACK
        (store zeroBuf 0 [36, 65, 67, 75, 44, 49, 50, 51, 52, 44, 53, 54, 13, 10]) 14 false []).1
        = ReadCode.SK6_ASCII_READ_OK ∧
      (parse_ascii_packet sampleDecls
        { deviceOn [] with devpriv := { idlePriv with waiting_for_ack := true } }
        sampleDecls.SK6_ACK_ACK
        (store zeroBuf 0 [36, 65, 67, 75, 44, 49, 50, 51, 52, 44, 53, 54, 13, 10]) 14 false
        []).2.devpriv.lastack = true ∧
      (parse_ascii_packet sampleDecls
        { deviceOn [] with devpriv := { idlePriv with waiting_for_ack := true } }
        sampleDecls.SK6_ACK_ACK
        (store zeroBuf 0 [36, 65, 67, 75, 44, 49, 50, 51, 52, 44, 53, 54, 13, 10]) 14 false
        []).2.devpriv.lastaddr = ((1 * 4096 + 2 * 256 + 3 * 16 + 4 : Nat) : Int) ∧
      (parse_ascii_packet sampleDecls
        { deviceOn [] with devpriv := { idlePriv with waiting_for_ack := true } }
        sampleDecls.SK6_ACK_ACK
        (store zeroBuf 0 [36, 65, 67, 75, 44, 49, 50, 51, 52, 44, 53, 54, 13, 10]) 14 false
        []).2.devpriv.lastval = ((5 * 16 + 6 : Nat) : Int)) ∧
    ((parse_ascii_packet sampleDecls
        { deviceOn [] with devpriv := { idlePriv with waiting_for_ack := true } }
        sampleDecls.SK6_ACK_NEG
        (store zeroBuf 0 [36, 65, 67, 75, 44, 49, 50, 51, 52, 44, 53, 54, 13, 10]) 14 false []).1
        = ReadCode.SK6_ASCII_READ_OK ∧
      (parse_ascii_packet sampleDecls
        { deviceOn [] with devpriv := { idlePriv with waiting_for_ack := true } }
        sampleDecls.SK6_ACK_NEG
        (store zeroBuf 0 [36, 65, 67, 75, 44, 49, 50, 51, 52, 44, 53, 54, 13, 10]) 14 false
        []).2.devpriv.lastack = false) :=
  c9_ack_decoded sampleDecls
    { deviceOn [] with devpriv := { idlePriv with waiting_for_ack := true } }
    (store zeroBuf 0 [36, 65, 67, 75, 44, 49, 50, 51, 52, 44, 53, 54, 13, 10]) 14 false []
    1 2 3 4 5 6 rfl (by decide)
    (Or.inl ⟨by decide, by decide⟩) (Or.inl ⟨by decide, by decide⟩)
    (Or.inl ⟨by decide, by decide⟩) (Or.inl ⟨by decide, by decide⟩)
    (Or.inl ⟨by decide, by decide⟩) (Or.inl ⟨by decide, by decide⟩)

/-- C10: with the pending-acknowledgment flag clear, parse_ascii_packet on an
ACK or NAK packet returns the ASCII read-error code and leaves the pending flag,
the last outcome, the last address and the last value unchanged, whatever the
packet holds. -/
theorem c10_unexpected_ack (D : Decls) (s : SK6) (packet_type : Int) (packetbuf : Buf)
    (len : Int) (playback : Bool) (ts : List Nat)
    (hw : s.devpriv.waiting_for_ack = false)
    (ht : packet_type = D.SK6_ACK_ACK ∨ packet_type = D.SK6_ACK_NEG) :
    (parse_ascii_packet D s packet_type packetbuf len playback ts).1
      = ReadCode.SK6_ASCII_READ_ERROR ∧
    (parse_ascii_packet D s packet_type packetbuf len playback ts).2.devpriv.waiting_for_ack
      = s.devpriv.waiting_for_ack ∧
    (parse_ascii_packet D s packet_type packetbuf len playback ts).2.devpriv.lastack
      = s.devpriv.lastack ∧
    (parse_ascii_packet D s packet_type packetbuf len playback ts).2.devpriv.lastaddr
      = s.devpriv.lastaddr ∧
    (parse_ascii_packet D s packet_type packetbuf len playback ts).2.devpriv.lastval
      = s.devpriv.lastval := by
  have h1 : ¬ (packet_type ≠ D.SK6_ACK_ACK ∧ packet_type ≠ D.SK6_ACK_NEG) := by
    rcases ht with h | h
    · exact fun c => c.1 h
    · exact fun c => c.2 h
  have h2 : ¬ s.devpriv.waiting_for_ack = true := by rw [hw]; decide
  unfold parse_ascii_packet
  rw [if_neg h1, if_pos h2]
  exact ⟨rfl, rfl, rfl, rfl, rfl⟩

/-- C10 witness: an ACK arriving at the idle device. -/
theorem c10_unexpected_ack_witness :
    (parse_ascii_packet sampleDecls (deviceOn []) 23
      (store zeroBuf 0 [36, 65, 67, 75, 44, 49, 50, 51, 52, 44, 53, 54, 13, 10]) 14 false []).1
      = ReadCode.SK6_ASCII_READ_ERROR ∧
    (parse_ascii_packet sampleDecls (deviceOn []) 23
      (store zeroBuf 0 [36, 65, 67, 75, 44, 49, 50, 51, 52, 44, 53, 54, 13, 10]) 14 false
      []).2.devpriv.waiting_for_ack = (deviceOn []).devpriv.waiting_for_ack ∧
    (parse_ascii_packet sampleDecls (deviceOn []) 23
      (store zeroBuf 0 [36, 65, 67, 75, 44, 49, 50, 51, 52, 44, 53, 54, 13, 10]) 14 false
      []).2.devpriv.lastack = (deviceOn []).devpriv.lastack ∧
    (parse_ascii_packet sampleDecls (deviceOn []) 23
      (store zeroBuf 0 [36, 65, 67, 75, 44, 49, 50, 51, 52, 44, 53, 54, 13, 10]) 14 false
      []).2.devpriv.lastaddr = (deviceOn []).devpriv.lastaddr ∧
    (parse_ascii_packet sampleDecls (deviceOn []) 23
      (store zeroBuf 0 [36, 65, 67, 75, 44, 49, 50, 51, 52, 44, 53, 54, 13, 10]) 14 false
      []).2.devpriv.lastval = (deviceOn []).devpriv.lastval :=
  c10_unexpected_ack sampleDecls (deviceOn []) 23
    (store zeroBuf 0 [36, 65, 67, 75, 44, 49, 50, 51, 52, 44, 53, 54, 13, 10]) 14 false []
    rfl (Or.inl rfl)

/-! ## Playback framing -/

theorem store_at (buf : Buf) (off : Nat) (bytes : List Nat) (i : Nat) (h : i < bytes.length) :
    store buf off bytes (off + i) = bytes.getD i 0 := by
  unfold store
  rw [if_pos ⟨by omega, by omega⟩]
  congr 1
  omega

theorem store_below (buf : Buf) (off : Nat) (bytes : List Nat) (i : Nat) (h : i < off) :
    store buf off bytes i = buf i := by
  unfold store
  rw [if_neg (by omega)]

theorem read_bytes_all (p : Port) (buf : Buf) (off : Nat) (n : Int) (b rest : List Nat)
    (hin : p.input = b ++ rest) (hb : (b.length : Int) = n) :
    (read_bytes p buf off n).1 = n ∧ (read_bytes p buf off n).2.1 = store buf off b ∧
    (read_bytes p buf off n).2.2.input = rest ∧
    (read_bytes p buf off n).2.2.requests = p.requests ++ [b.length] := by
  have e : n.toNat = b.length := by omega
  unfold read_bytes
  simp only [e, hin, List.take_left', List.drop_left', hb, and_self]

/-- The playback body: when the `L - 7` body bytes `b` of the inner packet are
all on the link, the framing patches the five bytes `,00\r\n` over the end of
the body, reads no checksum trailer and hands over a packet of size `L`; the
checksum flag is cleared when the type is checksum-eligible. -/
theorem ascii_body_playback (D : Decls) (s : SK6) (inner : Int) (buf : Buf) (ts : List Nat)
    (b rest : List Nat) (hin : s.port.input = b ++ rest)
    (hb : (b.length : Int) = D.sk6_packet_lengths inner - 7) :
    ∃ s1 : SK6,
      ascii_body D s inner buf true ts
        = AsciiFrame.framed inner
            (store (store buf 4 b) (D.sk6_packet_lengths inner - 5).toNat [44, 48, 48, 13, 10])
            (D.sk6_packet_lengths inner) true ts s1 ∧
      s1.port.input = rest ∧
      s1.port.requests = s.port.requests ++ [b.length] ∧
      s1.devpriv.checksum
        = (if D.sk6_packet_has_checksum inner ≠ 0 then false else s.devpriv.checksum) ∧
      s1.data = s.data ∧
      s1.devpriv.rthread_done = s.devpriv.rthread_done := by
  have hb1 : (b.length : Int) = D.sk6_packet_lengths inner - SK6_HEADER_LEN - 3 := by
    unfold SK6_HEADER_LEN; omega
  obtain ⟨r1, r2, r3, r4⟩ := read_bytes_all s.port buf SK6_HEADER_LEN.toNat _ b rest hin hb1
  have hlast : store (store buf 4 b) (D.sk6_packet_lengths inner - 5).toNat [44, 48, 48, 13, 10]
      (D.sk6_packet_lengths inner - 1).toNat = 10 := by
    have e : (D.sk6_packet_lengths inner - 1).toNat
        = (D.sk6_packet_lengths inner - 5).toNat + 4 := by omega
    rw [e, store_at _ _ _ 4 (by decide)]
    rfl
  have e4 : SK6_HEADER_LEN.toNat = 4 := rfl
  rw [e4] at r1 r2 r3 r4
  have eoff : D.sk6_packet_lengths inner - SK6_HEADER_LEN - 3 + SK6_HEADER_LEN - 2
      = D.sk6_packet_lengths inner - 5 := by unfold SK6_HEADER_LEN; omega
  have elast : D.sk6_packet_lengths inner - SK6_HEADER_LEN - 3 + 3 + SK6_HEADER_LEN - 1
      = D.sk6_packet_lengths inner - 1 := by unfold SK6_HEADER_LEN; omega
  have esize : D.sk6_packet_lengths inner - SK6_HEADER_LEN - 3 + 3 + SK6_HEADER_LEN
      = D.sk6_packet_lengths inner := by unfold SK6_HEADER_LEN; omega
  unfold ascii_body
  simp only [if_true, r1, r2, ne_eq, not_true_eq_false, if_false, eoff, elast, esize, e4, hlast,
    and_false, true_and]
  by_cases c : D.sk6_packet_has_checksum inner ≠ 0 ∧ s.devpriv.checksum = true
  · refine ⟨{ s with
        port := (read_bytes s.port buf 4 (D.sk6_packet_lengths inner - SK6_HEADER_LEN - 3)).2.2,
        devpriv := { s.devpriv with checksum := false } }, ?_, r3, r4, ?_, rfl, rfl⟩
    · rw [if_pos (by simpa using c)]
    · simp [c.1]
  · refine ⟨{ s with
        port := (read_bytes s.port buf 4 (D.sk6_packet_lengths inner - SK6_HEADER_LEN - 3)).2.2 },
      ?_, r3, r4, ?_, rfl, rfl⟩
    · rw [if_neg (by simpa using c)]
    · by_cases c1 : D.sk6_packet_has_checksum inner = 0
      · simp [c1]
      · have : s.devpriv.checksum = false := by
          simpa using fun h => c ⟨c1, h⟩
        simp [c1, this]

/-- The timestamp envelope: when the rest of the envelope `e` and a recognized
inner header `h` are on the link, read_ascii_packet goes on with the body of
the inner type in playback mode, the buffer holding the inner header. -/
theorem read_ascii_frame_timestamp (D : Decls) (s : SK6) (buf : Buf) (e h tail : List Nat)
    (inner : Int) (hin : s.port.input = e ++ h ++ tail)
    (he : (e.length : Int) = D.sk6_packet_lengths D.SK6_DATA_TIMESTAMP - 4)
    (hh : ascii_header D inner h) :
    ∃ P : Port, P.input = tail ∧ P.requests = s.port.requests ++ [e.length, 4] ∧
      read_ascii_frame D s D.SK6_DATA_TIMESTAMP buf
        = ascii_body D { s with port := P } inner (store (memset (store buf 4 e) 0 256) 0 h) true
            ((List.range (D.sk6_packet_lengths D.SK6_DATA_TIMESTAMP).toNat).map
              (store buf 4 e)) := by
  have hlen : (h.length : Int) = SK6_HEADER_LEN := by
    rw [hh.2.2.2.1]; rfl
  have he1 : (e.length : Int) = D.sk6_packet_lengths D.SK6_DATA_TIMESTAMP - SK6_HEADER_LEN := by
    unfold SK6_HEADER_LEN; omega
  obtain ⟨_, r2, r3, r4⟩ := read_bytes_all s.port buf SK6_HEADER_LEN.toNat _ e (h ++ tail)
    (by rw [hin, List.append_assoc]) he1
  obtain ⟨_, q2, q3, q4⟩ := read_bytes_all
    (read_bytes s.port buf SK6_HEADER_LEN.toNat
      (D.sk6_packet_lengths D.SK6_DATA_TIMESTAMP - SK6_HEADER_LEN)).2.2
    (memset (store buf 4 e) 0 256) 0 SK6_HEADER_LEN h tail r3 hlen
  have e4 : SK6_HEADER_LEN.toNat = 4 := rfl
  rw [e4] at r2 r3 r4 q2 q3 q4
  have hcl : classify_packet_header D (store (memset (store buf 4 e) 0 256) 0 h)
      SK6_HEADER_LEN true = inner := by
    apply classify_ascii D _ inner h hh
    intro j hj
    have := store_at (memset (store buf 4 e) 0 256) 0 h j (by rw [hh.2.2.2.1]; exact hj)
    rwa [Nat.zero_add] at this
  refine ⟨_, q3, ?_, ?_⟩
  · rw [q4, r4, hh.2.2.2.1]
    simp
  · unfold read_ascii_frame
    rw [if_pos rfl]
    simp only [e4, r2, q2, hcl]

/-! ### C8: the playback patch -/

/-- C8: for a timestamp envelope followed by a recognized inner packet of table
length L whose playback body b of L-4-3 bytes (at least the two that get
overwritten) is fully read, read_ascii_packet hands over a buffer of size L
with no checksum trailer: bytes [0, L-5) are the inner header followed by the
received body bytes up to the last two, and the last five bytes are `,00\r\n`.
Unless the thread is stopping or the inner type is ACK/NAK, that buffer goes to
the extractor with playback set. -/
theorem c8_playback_buffer (D : Decls) (s : SK6) (buf : Buf) (e h b rest : List Nat)
    (inner : Int) (hin : s.port.input = e ++ h ++ b ++ rest)
    (he : (e.length : Int) = D.sk6_packet_lengths D.SK6_DATA_TIMESTAMP - 4)
    (hh : ascii_header D inner h)
    (hb : (b.length : Int) = D.sk6_packet_lengths inner - 4 - 3)
    (hb2 : 2 ≤ b.length) :
    ∃ (B : Buf) (ts : List Nat) (s1 : SK6),
      read_ascii_frame D s D.SK6_DATA_TIMESTAMP buf
        = AsciiFrame.framed inner B (D.sk6_packet_lengths inner) true ts s1 ∧
      (∀ i, i < 4 → B i = h.getD i 0) ∧
      (∀ i, i + 2 < b.length → B (4 + i) = b.getD i 0) ∧
      B (D.sk6_packet_lengths inner - 5).toNat = 44 ∧
      B (D.sk6_packet_lengths inner - 4).toNat = 48 ∧
      B (D.sk6_packet_lengths inner - 3).toNat = 48 ∧
      B (D.sk6_packet_lengths inner - 2).toNat = 13 ∧
      B (D.sk6_packet_lengths inner - 1).toNat = 10 ∧
      s1.port.input = rest ∧
      (s1.devpriv.rthread_done = false → inner ≠ D.SK6_ACK_ACK → inner ≠ D.SK6_ACK_NEG →
        read_ascii_packet D s D.SK6_DATA_TIMESTAMP buf
          = (ReadCode.SK6_ASCII_READ_OK, B, (extract_ascii_packet D s1 inner B true ts).2)) := by
  obtain ⟨P, p1, _, p3⟩ := read_ascii_frame_timestamp D s buf e h (b ++ rest) inner
    (by rw [hin, List.append_assoc]) he hh
  obtain ⟨s1, f1, f2, _, _, _, _⟩ := ascii_body_playback D { s with port := P } inner
    (store (memset (store buf 4 e) 0 256) 0 h) _ b rest p1 (by omega)
  have hlen := hh.2.2.2.1
  have key : ∀ k, k < 5 →
      store (store (store (memset (store buf 4 e) 0 256) 0 h) 4 b)
        (D.sk6_packet_lengths inner - 5).toNat [44, 48, 48, 13, 10]
        ((D.sk6_packet_lengths inner - 5).toNat + k) = [44, 48, 48, 13, 10].getD k 0 :=
    fun k hk => store_at _ _ _ k hk
  refine ⟨_, _, s1, p3.trans f1, ?_, ?_, ?_, ?_, ?_, ?_, ?_, f2, ?_⟩
  · intro i hi
    rw [store_below _ _ _ _ (by omega), store_below _ _ _ _ (by omega)]
    have := store_at (memset (store buf 4 e) 0 256) 0 h i (by omega)
    rwa [Nat.zero_add] at this
  · intro i hi
    rw [store_below _ _ _ _ (by omega)]
    exact store_at _ 4 b i (by omega)
  · have := key 0 (by decide)
    rwa [Nat.add_zero] at this
  · have e1 : (D.sk6_packet_lengths inner - 4).toNat
        = (D.sk6_packet_lengths inner - 5).toNat + 1 := by omega
    rw [e1]; exact key 1 (by decide)
  · have e1 : (D.sk6_packet_lengths inner - 3).toNat
        = (D.sk6_packet_lengths inner - 5).toNat + 2 := by omega
    rw [e1]; exact key 2 (by decide)
  · have e1 : (D.sk6_packet_lengths inner - 2).toNat
        = (D.sk6_packet_lengths inner - 5).toNat + 3 := by omega
    rw [e1]; exact key 3 (by decide)
  · have e1 : (D.sk6_packet_lengths inner - 1).toNat
        = (D.sk6_packet_lengths inner - 5).toNat + 4 := by omega
    rw [e1]; exact key 4 (by decide)
  · intro hdone ha hn
    unfold read_ascii_packet
    rw [p3.trans f1]
    simp only [hdone, Bool.false_eq_true, if_false]
    unfold parse_ascii_packet
    rw [if_pos ⟨ha, hn⟩]
    by_cases c : s1.devpriv.checksum = true
    · rw [if_pos c]
    · rw [if_neg c]

/-- C8 witness: the envelope `$TIM,0000001234,` around the heading packet
`$HED,0123` CR LF of the sample table (inner length 14, playback body 7 bytes). -/
theorem c8_playback_buffer_witness :
    ∃ (B : Buf) (ts : List Nat) (s1 : SK6),
      read_ascii_frame sampleDecls
          (deviceOn ([44, 48, 48, 48, 48, 48, 48, 49, 50, 51, 52, 44] ++ [36, 72, 69, 68]
            ++ [44, 48, 49, 50, 51, 13, 10] ++ [36]))
          sampleDecls.SK6_DATA_TIMESTAMP zeroBuf
        = AsciiFrame.framed 3 B (sampleDecls.sk6_packet_lengths 3) true ts s1 ∧
      (∀ i, i < 4 → B i = [36, 72, 69, 68].getD i 0) ∧
      (∀ i, i + 2 < [44, 48, 49, 50, 51, 13, 10].length →
        B (4 + i) = [44, 48, 49, 50, 51, 13, 10].getD i 0) ∧
      B (sampleDecls.sk6_packet_lengths 3 - 5).toNat = 44 ∧
      B (sampleDecls.sk6_packet_lengths 3 - 4).toNat = 48 ∧
      B (sampleDecls.sk6_packet_lengths 3 - 3).toNat = 48 ∧
      B (sampleDecls.sk6_packet_lengths 3 - 2).toNat = 13 ∧
      B (sampleDecls.sk6_packet_lengths 3 - 1).toNat = 10 ∧
      s1.port.input = [36] ∧
      (s1.devpriv.rthread_done = false → 3 ≠ sampleDecls.SK6_ACK_ACK →
        3 ≠ sampleDecls.SK6_ACK_NEG →
        read_ascii_packet sampleDecls
            (deviceOn ([44, 48, 48, 48, 48, 48, 48, 49, 50, 51, 52, 44] ++ [36, 72, 69, 68]
              ++ [44, 48, 49, 50, 51, 13, 10] ++ [36]))
            sampleDecls.SK6_DATA_TIMESTAMP zeroBuf
          = (ReadCode.SK6_ASCII_READ_OK, B, (extract_ascii_packet sampleDecls s1 3 B true ts).2)) :=
  c8_playback_buffer sampleDecls
    (deviceOn ([44, 48, 48, 48, 48, 48, 48, 49, 50, 51, 52, 44] ++ [36, 72, 69, 68]
      ++ [44, 48, 49, 50, 51, 13, 10] ++ [36]))
    zeroBuf [44, 48, 48, 48, 48, 48, 48, 49, 50, 51, 52, 44] [36, 72, 69, 68]
    [44, 48, 49, 50, 51, 13, 10] [36] 3 rfl (by decide)
    ⟨by decide, by decide, by decide, rfl, by decide, rfl, by
      intro j h1 h2
      obtain ⟨n, rfl⟩ := Int.eq_ofNat_of_zero_le h1
      have hn : n < 3 := by omega
      interval_cases n <;> decide⟩
    (by decide) (by decide)

/-! ## The checksum flag across framings -/

/-- The checksum flag after `ascii_body` is the outcome read off the link, or
the previous flag when there is none. -/
theorem ascii_body_checksum (D : Decls) (s : SK6) (packet_type : Int) (packetbuf : Buf)
    (playback : Bool) (ts : List Nat) :
    (ascii_body D s packet_type packetbuf playback ts).state.devpriv.checksum
      = (checksum_outcome D s packet_type packetbuf playback).getD s.devpriv.checksum := by
  unfold ascii_body checksum_outcome body_left
  cases playback
  · simp only [Bool.false_eq_true, if_false]
    split_ifs <;> simp_all [AsciiFrame.state]
  · simp only [if_true]
    split_ifs <;> simp_all [AsciiFrame.state]

/-- The link after `ascii_body` is the link before less the body bytes asked
for, and perhaps the three trailer bytes. -/
theorem ascii_body_input (D : Decls) (s : SK6) (packet_type : Int) (packetbuf : Buf)
    (playback : Bool) (ts : List Nat) :
    ∃ k, (body_left D packet_type playback).toNat ≤ k ∧
      (ascii_body D s packet_type packetbuf playback ts).state.port.input
        = s.port.input.drop k := by
  unfold ascii_body body_left
  cases playback
  · simp only [Bool.false_eq_true, if_false]
    split_ifs
    all_goals first
      | exact ⟨_, le_refl _, rfl⟩
      | exact ⟨_ + 3, Nat.le_add_right _ _, by
          simp [AsciiFrame.state, read_bytes_input, CHECKSUM_LENGTH, Nat.add_comm]⟩
  · simp only [if_true]
    split_ifs
    all_goals first
      | exact ⟨_, le_refl _, rfl⟩
      | exact ⟨_ + 3, Nat.le_add_right _ _, by
          simp [AsciiFrame.state, read_bytes_input, CHECKSUM_LENGTH, Nat.add_comm]⟩

/-- The byte tested at SK6.cpp:147 is the same for two buffers that received
the same body, provided they agree on the last header byte. -/
theorem last_byte_congr (buf buf2 : Buf) (T : List Nat) (pb : Bool)
    (h3 : pb = false → buf2 3 = buf 3) :
    (if pb then store (store buf2 4 T) ((T.length : Int) + SK6_HEADER_LEN - 2).toNat
        [44, 48, 48, 13, 10] else store buf2 4 T)
      ((if pb then (T.length : Int) + 3 else (T.length : Int)) + SK6_HEADER_LEN - 1).toNat
    = (if pb then store (store buf 4 T) ((T.length : Int) + SK6_HEADER_LEN - 2).toNat
        [44, 48, 48, 13, 10] else store buf 4 T)
      ((if pb then (T.length : Int) + 3 else (T.length : Int)) + SK6_HEADER_LEN - 1).toNat := by
  cases pb
  · simp only [Bool.false_eq_true, if_false]
    have e : ((T.length : Int) + SK6_HEADER_LEN - 1).toNat = T.length + 3 := by
      unfold SK6_HEADER_LEN; omega
    rw [e]
    by_cases h : T.length = 0
    · unfold store
      rw [if_neg (by omega), if_neg (by omega), h]
      exact h3 rfl
    · unfold store
      rw [if_pos ⟨by omega, by omega⟩, if_pos ⟨by omega, by omega⟩]
  · simp only [if_true]
    have e1 : ((T.length : Int) + SK6_HEADER_LEN - 2).toNat = T.length + 2 := by
      unfold SK6_HEADER_LEN; omega
    have e2 : ((T.length : Int) + 3 + SK6_HEADER_LEN - 1).toNat = (T.length + 2) + 4 := by
      unfold SK6_HEADER_LEN; omega
    rw [e1, e2, store_at _ _ _ 4 (by decide), store_at _ _ _ 4 (by decide)]

/-- The checksum outcome only depends on the body bytes delivered and on the
last header byte in the buffer. -/
theorem checksum_outcome_congr (D : Decls) (s s2 : SK6) (packet_type : Int) (buf buf2 : Buf)
    (pb : Bool)
    (htake : s2.port.input.take (body_left D packet_type pb).toNat
      = s.port.input.take (body_left D packet_type pb).toNat)
    (h3 : pb = false → buf2 3 = buf 3) :
    checksum_outcome D s2 packet_type buf2 pb = checksum_outcome D s packet_type buf pb := by
  unfold checksum_outcome
  simp only [read_bytes, htake]
  have e4 : SK6_HEADER_LEN.toNat = 4 := rfl
  rw [e4, last_byte_congr buf buf2 _ pb h3]

/-- When a framing that consumed `k` bytes of `pkt ++ pkt ++ rest` leaves
`pkt ++ rest`, what is left starts with the same `M <= k` bytes. -/
theorem take_after_packet (pkt rest : List Nat) (k M : Nat) (hM : M ≤ k)
    (h : (pkt ++ pkt ++ rest).drop k = pkt ++ rest) :
    (pkt ++ rest).take M = (pkt ++ pkt ++ rest).take M := by
  have hlen := congrArg List.length h
  simp only [List.length_drop, List.length_append] at hlen
  by_cases c : k ≤ pkt.length + pkt.length + rest.length
  · have hk : pkt.length = k := by omega
    rw [List.append_assoc pkt pkt rest, List.take_append_of_le_length (by omega),
      List.take_append_of_le_length (by omega)]
  · have h0 : pkt.length = 0 := by omega
    have : pkt = [] := List.length_eq_zero.mp h0
    subst this
    rfl

theorem take_drop_congr (l1 l2 : List Nat) (a b M : Nat) (hM : b + a ≤ M)
    (h : l2.take M = l1.take M) : (l2.drop b).take a = (l1.drop b).take a := by
  have e : ∀ l : List Nat, (l.drop b).take a = ((l.take M).drop b).take a := by
    intro l
    rw [List.drop_take, List.take_take, Nat.min_eq_left (by omega)]
  rw [e l1, e l2, h]

theorem strncmp_eq_congr (w w2 : Buf) (b : List Nat) (m : Nat) (hw : ∀ i, i < m → w2 i = w i) :
    ∀ (n i : Nat), i + n ≤ m → strncmp_eq w2 b i n = strncmp_eq w b i n := by
  intro n
  induction n with
  | zero => intro i _; rfl
  | succ k ih =>
    intro i hi
    unfold strncmp_eq
    rw [hw i (by omega), ih (i + 1) (by omega)]

theorem classify_loop_congr (D : Decls) (w w2 : Buf) (hw : ∀ i, i < 4 → w2 i = w i) :
    ∀ (fuel : Nat) (i : Int),
      classify_loop D w2 true fuel i = classify_loop D w true fuel i := by
  intro fuel
  induction fuel with
  | zero => intro i; rfl
  | succ k ih =>
    intro i
    unfold classify_loop
    simp only [if_true]
    rw [strncmp_eq_congr w w2 _ 4 hw 4 0 (by decide), ih (i + 1)]

/-- ASCII classification looks at the four header bytes only. -/
theorem classify_ascii_congr (D : Decls) (w w2 : Buf) (hw : ∀ i, i < 4 → w2 i = w i) :
    classify_packet_header D w2 SK6_HEADER_LEN true
      = classify_packet_header D w SK6_HEADER_LEN true := by
  unfold classify_packet_header
  simp [classify_loop_congr D w w2 hw]

/-- The three packet types that are read to completion and handled at once
leave the checksum flag alone. -/
theorem read_ascii_frame_special (D : Decls) (s : SK6) (packet_type : Int) (buf : Buf)
    (hT : packet_type ≠ D.SK6_DATA_TIMESTAMP)
    (h : packet_type = D.SK6_DATA_PLAYBACK_COMPLETE ∨ packet_type = D.SK6_DATA_RFID_TID
      ∨ packet_type = D.SK6_STARTUP_INFO) :
    (read_ascii_frame D s packet_type buf).state.devpriv.checksum = s.devpriv.checksum := by
  unfold read_ascii_frame
  rw [if_neg hT]
  by_cases c1 : packet_type = D.SK6_DATA_PLAYBACK_COMPLETE
  · rw [if_pos c1]; simp only []; split <;> rfl
  rw [if_neg c1]
  by_cases c2 : packet_type = D.SK6_DATA_RFID_TID
  · rw [if_pos c2]; simp only []; split <;> rfl
  rw [if_neg c2]
  by_cases c3 : packet_type = D.SK6_STARTUP_INFO
  · rw [if_pos c3]; rfl
  · rcases h with h | h | h <;> contradiction

/-- The timestamp envelope in general: the framing goes on with `ascii_body` in
playback mode for the type classified from the four bytes after the envelope. -/
theorem read_ascii_frame_envelope (D : Decls) (s : SK6) (buf : Buf) :
    ∃ (sA : SK6) (BA : Buf) (ts : List Nat),
      read_ascii_frame D s D.SK6_DATA_TIMESTAMP buf
        = ascii_body D sA (classify_packet_header D BA SK6_HEADER_LEN true) BA true ts ∧
      sA.port.input = (s.port.input.drop
        (D.sk6_packet_lengths D.SK6_DATA_TIMESTAMP - SK6_HEADER_LEN).toNat).drop 4 ∧
      sA.devpriv.checksum = s.devpriv.checksum ∧
      ∀ i, i < 4 → BA i = ((s.port.input.drop
        (D.sk6_packet_lengths D.SK6_DATA_TIMESTAMP - SK6_HEADER_LEN).toNat).take 4).getD i 0 := by
  unfold read_ascii_frame
  rw [if_pos rfl]
  refine ⟨_, _, _, rfl, rfl, rfl, ?_⟩
  · intro i hi
    simp only [read_bytes]
    unfold store
    by_cases c : i < (List.take SK6_HEADER_LEN.toNat (List.drop
        (D.sk6_packet_lengths D.SK6_DATA_TIMESTAMP - SK6_HEADER_LEN).toNat s.port.input)).length
    · rw [if_pos ⟨Nat.zero_le _, by omega⟩]; rfl
    · rw [if_neg (by omega)]
      have e4 : SK6_HEADER_LEN.toNat = 4 := rfl
      rw [e4] at c
      rw [List.getD_eq_default _ _ (by omega)]
      unfold memset
      rw [if_pos (by omega)]

theorem getD_idem (o : Option Bool) (c : Bool) : o.getD (o.getD c) = o.getD c := by
  cases o <;> rfl

/-- Two framings in succession of the same packet bytes: the second leaves the
checksum flag as the first left it. -/
theorem frame_checksum_twice (D : Decls) (s s2 : SK6) (packet_type : Int) (buf buf2 : Buf)
    (pkt rest : List Nat)
    (hin : s.port.input = pkt ++ pkt ++ rest)
    (hcons : (read_ascii_frame D s packet_type buf).state.port.input = pkt ++ rest)
    (h2in : s2.port.input = pkt ++ rest)
    (h2ck : s2.devpriv.checksum = (read_ascii_frame D s packet_type buf).state.devpriv.checksum)
    (hbuf : ∀ i, i < 4 → buf2 i = buf i) :
    (read_ascii_frame D s2 packet_type buf2).state.devpriv.checksum
      = (read_ascii_frame D s packet_type buf).state.devpriv.checksum := by
  by_cases hT : packet_type = D.SK6_DATA_TIMESTAMP
  · subst hT
    obtain ⟨sA, BA, ts, fA, iA, cA, bA⟩ := read_ascii_frame_envelope D s buf
    obtain ⟨sB, BB, ts2, fB, iB, cB, bB⟩ := read_ascii_frame_envelope D s2 buf2
    obtain ⟨kb, hkb, hdrop⟩ := ascii_body_input D sA
      (classify_packet_header D BA SK6_HEADER_LEN true) BA true ts
    rw [fA] at hcons h2ck ⊢
    rw [fB]
    rw [hdrop, iA, hin, List.drop_drop, List.drop_drop] at hcons
    have htake := take_after_packet pkt rest _
      ((D.sk6_packet_lengths D.SK6_DATA_TIMESTAMP - SK6_HEADER_LEN).toNat + 4
        + (body_left D (classify_packet_header D BA SK6_HEADER_LEN true) true).toNat)
      (by omega) hcons
    have hhdr : ∀ i, i < 4 → BB i = BA i := by
      intro i hi
      rw [bA i hi, bB i hi, h2in, hin,
        take_drop_congr _ _ 4 _ _ (by omega) htake]
    have hinner := classify_ascii_congr D BA BB hhdr
    rw [hinner]
    have hbody : sB.port.input.take
          (body_left D (classify_packet_header D BA SK6_HEADER_LEN true) true).toNat
        = sA.port.input.take
          (body_left D (classify_packet_header D BA SK6_HEADER_LEN true) true).toNat := by
      rw [iA, iB, h2in, hin, List.drop_drop, List.drop_drop]
      exact take_drop_congr _ _ _ _ _ (by omega) htake
    rw [ascii_body_checksum] at h2ck ⊢
    rw [ascii_body_checksum,
      checksum_outcome_congr D sA sB _ BA BB true hbody (fun h => absurd h (by decide)),
      cB, h2ck, cA, getD_idem]
  · by_cases hsp : packet_type = D.SK6_DATA_PLAYBACK_COMPLETE ∨ packet_type = D.SK6_DATA_RFID_TID
        ∨ packet_type = D.SK6_STARTUP_INFO
    · rw [read_ascii_frame_special D s2 packet_type buf2 hT hsp, h2ck]
    · have hP : packet_type ≠ D.SK6_DATA_PLAYBACK_COMPLETE := fun h => hsp (Or.inl h)
      have hR : packet_type ≠ D.SK6_DATA_RFID_TID := fun h => hsp (Or.inr (Or.inl h))
      have hS : packet_type ≠ D.SK6_STARTUP_INFO := fun h => hsp (Or.inr (Or.inr h))
      rw [read_ascii_frame_generic D s packet_type buf hT hP hR hS] at hcons h2ck ⊢
      rw [read_ascii_frame_generic D s2 packet_type buf2 hT hP hR hS]
      obtain ⟨k, hk, hdrop⟩ := ascii_body_input D s packet_type buf false []
      rw [hdrop, hin] at hcons
      have htake := take_after_packet pkt rest k _ hk hcons
      rw [ascii_body_checksum] at h2ck ⊢
      rw [ascii_body_checksum,
        checksum_outcome_congr D s s2 packet_type buf buf2 false
          (by rw [h2in, hin]; exact htake) (fun _ => hbuf 3 (by decide)),
        h2ck, getD_idem]

/-! ### C7: the checksum flag under a repeated packet -/

/-- C7: for every packet type and every initial value of the checksum flag,
when the link holds the same packet bytes `pkt` twice and read_ascii_packet
frames them in succession (the first framing consumes exactly `pkt`, the buffer
of the second holds the same header), the flag after the second framing equals
the flag after the first. -/
theorem c7_checksum_idempotent (D : Decls) (s : SK6) (packet_type : Int) (buf buf2 : Buf)
    (pkt rest : List Nat)
    (hin : s.port.input = pkt ++ pkt ++ rest)
    (hcons : (read_ascii_packet D s packet_type buf).2.2.port.input = pkt ++ rest)
    (hbuf : ∀ i, i < 4 → buf2 i = buf i) :
    (read_ascii_packet D (read_ascii_packet D s packet_type buf).2.2 packet_type
        buf2).2.2.devpriv.checksum
      = (read_ascii_packet D s packet_type buf).2.2.devpriv.checksum := by
  obtain ⟨p1, c1⟩ := read_ascii_packet_port_checksum D s packet_type buf
  obtain ⟨_, c2⟩ := read_ascii_packet_port_checksum D
    (read_ascii_packet D s packet_type buf).2.2 packet_type buf2
  rw [c2, c1]
  exact frame_checksum_twice D s (read_ascii_packet D s packet_type buf).2.2 packet_type buf buf2
    pkt rest hin (by rw [← p1]; exact hcons) hcons c1 hbuf

/-- C7 witness: the heading packet body `,0123,45` CR LF twice on the link, the
checksum flag being on at first: both framings end with the flag off. -/
theorem c7_checksum_idempotent_witness :
    (read_ascii_packet sampleDecls
        (read_ascii_packet sampleDecls
          { deviceOn ([44, 48, 49, 50, 51, 44, 52, 53, 13, 10]
              ++ [44, 48, 49, 50, 51, 44, 52, 53, 13, 10] ++ []) with
            devpriv := { idlePriv with checksum := true } } 3 zeroBuf).2.2 3
        zeroBuf).2.2.devpriv.checksum
      = (read_ascii_packet sampleDecls
          { deviceOn ([44, 48, 49, 50, 51, 44, 52, 53, 13, 10]
              ++ [44, 48, 49, 50, 51, 44, 52, 53, 13, 10] ++ []) with
            devpriv := { idlePriv with checksum := true } } 3 zeroBuf).2.2.devpriv.checksum :=
  c7_checksum_idempotent sampleDecls
    { deviceOn ([44, 48, 49, 50, 51, 44, 52, 53, 13, 10]
        ++ [44, 48, 49, 50, 51, 44, 52, 53, 13, 10] ++ []) with
      devpriv := { idlePriv with checksum := true } } 3 zeroBuf zeroBuf
    [44, 48, 49, 50, 51, 44, 52, 53, 13, 10] [] rfl (by decide) (fun _ _ => rfl)

/-! ### C11: the pending flag after an acknowledgment -/

/-- C11 (amended): after parse_ascii_packet has processed an ACK or NAK packet
while the pending-acknowledgment flag `waiting_for_ack` is set, the wait-signal
flag `waiting_for_ack_signal` is clear and the pending flag itself is still
set; a second ACK or NAK handed to parse_ascii_packet right afterwards is
therefore decoded again and returns the OK code. -/
theorem c11_pending_flag_kept (D : Decls) (s : SK6) (packet_type : Int) (packetbuf : Buf)
    (len : Int) (playback : Bool) (ts : List Nat)
    (hw : s.devpriv.waiting_for_ack = true)
    (ht : packet_type = D.SK6_ACK_ACK ∨ packet_type = D.SK6_ACK_NEG) :
    (parse_ascii_packet D s packet_type packetbuf len playback ts).1
      = ReadCode.SK6_ASCII_READ_OK ∧
    (parse_ascii_packet D s packet_type packetbuf len playback ts).2.devpriv.waiting_for_ack_signal
      = false ∧
    (parse_ascii_packet D s packet_type packetbuf len playback ts).2.devpriv.waiting_for_ack
      = true ∧
    ∀ (ty2 : Int) (buf2 : Buf) (len2 : Int) (pb2 : Bool) (ts2 : List Nat),
      ty2 = D.SK6_ACK_ACK ∨ ty2 = D.SK6_ACK_NEG →
      (parse_ascii_packet D (parse_ascii_packet D s packet_type packetbuf len playback ts).2
        ty2 buf2 len2 pb2 ts2).1 = ReadCode.SK6_ASCII_READ_OK := by
  have key : ∀ (s0 : SK6) (ty : Int) (b : Buf) (l : Int) (pb : Bool) (t0 : List Nat),
      s0.devpriv.waiting_for_ack = true → (ty = D.SK6_ACK_ACK ∨ ty = D.SK6_ACK_NEG) →
      (parse_ascii_packet D s0 ty b l pb t0).1 = ReadCode.SK6_ASCII_READ_OK ∧
      (parse_ascii_packet D s0 ty b l pb t0).2.devpriv.waiting_for_ack_signal = false ∧
      (parse_ascii_packet D s0 ty b l pb t0).2.devpriv.waiting_for_ack = true := by
    intro s0 ty b l pb t0 h0 hty
    have h1 : ¬ (ty ≠ D.SK6_ACK_ACK ∧ ty ≠ D.SK6_ACK_NEG) := by
      rcases hty with h | h
      · exact fun c => c.1 h
      · exact fun c => c.2 h
    have h2 : ¬ ¬ s0.devpriv.waiting_for_ack = true := fun c => c h0
    unfold parse_ascii_packet
    rw [if_neg h1, if_neg h2]
    exact ⟨rfl, rfl, h0⟩
  obtain ⟨k1, k2, k3⟩ := key s packet_type packetbuf len playback ts hw ht
  exact ⟨k1, k2, k3, fun ty2 buf2 len2 pb2 ts2 h2 => (key _ ty2 buf2 len2 pb2 ts2 k3 h2).1⟩

/-- C11 witness: an ACK processed by the device that has a command outstanding. -/
theorem c11_pending_flag_kept_witness :
    (parse_ascii_packet sampleDecls pendingDevice 23 ackBuf 14 false []).1
      = ReadCode.SK6_ASCII_READ_OK ∧
    (parse_ascii_packet sampleDecls pendingDevice 23 ackBuf 14 false
      []).2.devpriv.waiting_for_ack_signal = false ∧
    (parse_ascii_packet sampleDecls pendingDevice 23 ackBuf 14 false
      []).2.devpriv.waiting_for_ack = true ∧
    ∀ (ty2 : Int) (buf2 : Buf) (len2 : Int) (pb2 : Bool) (ts2 : List Nat),
      ty2 = sampleDecls.SK6_ACK_ACK ∨ ty2 = sampleDecls.SK6_ACK_NEG →
      (parse_ascii_packet sampleDecls
        (parse_ascii_packet sampleDecls pendingDevice 23 ackBuf 14 false []).2
        ty2 buf2 len2 pb2 ts2).1 = ReadCode.SK6_ASCII_READ_OK :=
  c11_pending_flag_kept sampleDecls pendingDevice 23 ackBuf 14 false [] rfl (Or.inl rfl)

/-- C11 counterexample: after an ACK has been processed with a command
outstanding, the pending flag is still set, and a second ACK right afterwards
is not discarded: it returns the OK code, not the read-error code. -/
theorem c11_counterexample :
    pendingDevice.devpriv.waiting_for_ack = true ∧
    (parse_ascii_packet sampleDecls pendingDevice sampleDecls.SK6_ACK_ACK ackBuf 14 false
      []).2.devpriv.waiting_for_ack = true ∧
    (parse_ascii_packet sampleDecls
      (parse_ascii_packet sampleDecls pendingDevice sampleDecls.SK6_ACK_ACK ackBuf 14 false []).2
      sampleDecls.SK6_ACK_ACK ackBuf 14 false []).1 = ReadCode.SK6_ASCII_READ_OK ∧
    ReadCode.SK6_ASCII_READ_OK ≠ ReadCode.SK6_ASCII_READ_ERROR := by
  decide

/-! ### C15: dispatch -/

/-- C15: for every integer packet type t, is_ascii_packet gives 1 exactly when
SK6_DATA_ACC <= t < SK6_RAW_DATA_ACC and 0 otherwise; parse_packet runs
read_ascii_packet in the first case and read_raw_packet in every other case,
and returns 1 whatever the framer reports. -/
theorem c15_dispatch (D : Decls) (s : SK6) (packetbuf : Buf) (t : Int) :
    (is_ascii_packet D t = 1 ↔ (D.SK6_DATA_ACC ≤ t ∧ t < D.SK6_RAW_DATA_ACC)) ∧
    (is_ascii_packet D t = 0 ↔ ¬ (D.SK6_DATA_ACC ≤ t ∧ t < D.SK6_RAW_DATA_ACC)) ∧
    (parse_packet D s packetbuf t).1 = 1 ∧
    parse_packet D s packetbuf t =
      (if D.SK6_DATA_ACC ≤ t ∧ t < D.SK6_RAW_DATA_ACC then
        (1, (read_ascii_packet D { s with devpriv := { s.devpriv with rthread_exit := 5 } }
              t packetbuf).2.1,
          { (read_ascii_packet D { s with devpriv := { s.devpriv with rthread_exit := 5 } }
              t packetbuf).2.2 with
            devpriv := { (read_ascii_packet D
              { s with devpriv := { s.devpriv with rthread_exit := 5 } }
              t packetbuf).2.2.devpriv with rthread_exit := 6 } })
      else
        (1, (read_raw_packet D { s with devpriv := { s.devpriv with rthread_exit := 7 } }
              t packetbuf).2.1,
          { (read_raw_packet D { s with devpriv := { s.devpriv with rthread_exit := 7 } }
              t packetbuf).2.2 with
            devpriv := { (read_raw_packet D
              { s with devpriv := { s.devpriv with rthread_exit := 7 } }
              t packetbuf).2.2.devpriv with rthread_exit := 8 } })) := by
  by_cases c : D.SK6_DATA_ACC ≤ t ∧ t < D.SK6_RAW_DATA_ACC
  · have e : is_ascii_packet D t = 1 := by
      unfold is_ascii_packet
      rw [if_pos ⟨c.1, c.2⟩]
    refine ⟨⟨fun _ => c, fun _ => e⟩, ⟨fun h => ?_, fun h => absurd c h⟩, ?_, ?_⟩
    · rw [e] at h; exact absurd h (by decide)
    · unfold parse_packet
      rw [e, if_pos (by decide)]
    · unfold parse_packet
      rw [e, if_pos (by decide), if_pos c]
  · have e : is_ascii_packet D t = 0 := by
      unfold is_ascii_packet
      rw [if_neg (fun h => c ⟨h.1, h.2⟩)]
    refine ⟨⟨fun h => ?_, fun h => absurd h c⟩, ⟨fun _ => c, fun _ => e⟩, ?_, ?_⟩
    · rw [e] at h; exact absurd h (by decide)
    · unfold parse_packet
      rw [e, if_neg (by decide)]
    · unfold parse_packet
      rw [e, if_neg (by decide), if_neg c]

/-! ### C18, C19, C20: short reads -/

/-- The timestamp branch of read_ascii_packet goes on with `ascii_body` in
playback mode on the inner type. -/
theorem read_ascii_frame_inner (D : Decls) (s : SK6) (buf : Buf) :
    ∃ ts : List Nat, read_ascii_frame D s D.SK6_DATA_TIMESTAMP buf
      = ascii_body D { s with port := (envelope_read D s buf).2.2 } (envelope_inner D s buf)
          (envelope_read D s buf).2.1 true ts := by
  unfold read_ascii_frame envelope_inner envelope_read
  rw [if_pos rfl]
  exact ⟨_, rfl⟩

/-- The inner body read of a timestamp envelope falling short ends the framing
with the read-error code, the private state and the sensor record untouched. -/
theorem envelope_frame_short (D : Decls) (s : SK6) (buf : Buf)
    (hshort : ¬ envelope_body_full D s buf) :
    ∃ buf1 s1, read_ascii_frame D s D.SK6_DATA_TIMESTAMP buf
        = AsciiFrame.returned ReadCode.SK6_ASCII_READ_ERROR buf1 s1 ∧
      s1.devpriv = s.devpriv ∧ s1.data = s.data ∧ s1.thread_signals = s.thread_signals := by
  obtain ⟨ts, hfr⟩ := read_ascii_frame_inner D s buf
  unfold envelope_body_full body_left at hshort
  simp only [if_true] at hshort
  have hf : read_ascii_frame D s D.SK6_DATA_TIMESTAMP buf
      = AsciiFrame.returned ReadCode.SK6_ASCII_READ_ERROR
          (read_bytes (envelope_read D s buf).2.2 (envelope_read D s buf).2.1
            SK6_HEADER_LEN.toNat
            (D.sk6_packet_lengths (envelope_inner D s buf) - SK6_HEADER_LEN - 3)).2.1
          { s with port := (read_bytes (envelope_read D s buf).2.2 (envelope_read D s buf).2.1
            SK6_HEADER_LEN.toNat
            (D.sk6_packet_lengths (envelope_inner D s buf) - SK6_HEADER_LEN - 3)).2.2 } := by
    rw [hfr]
    unfold ascii_body
    simp only [if_true]
    rw [if_pos hshort]
  exact ⟨_, _, hf, rfl, rfl, rfl⟩

/-- C18: in read_ascii_packet for a packet that reaches the generic body read
(SK6.cpp:116-130), live (the type is none of timestamp, playback-complete,
RFID, start-up) or in playback (the inner packet of a timestamp envelope,
whose required count is 3 less), whenever the body read returns a count
different from the count required, the function returns the ASCII read-error
code before the parser and the extractor are reached: only the link has moved,
the private state (checksum flag, acknowledgment fields, last event, packet
counter) and the sensor record with its sequence counters are unchanged. -/
theorem c18_ascii_short_read (D : Decls) (s : SK6) (packet_type : Int) (packetbuf : Buf)
    (hgen : packet_type = D.SK6_DATA_TIMESTAMP ∨
      (packet_type ≠ D.SK6_DATA_PLAYBACK_COMPLETE ∧ packet_type ≠ D.SK6_DATA_RFID_TID
        ∧ packet_type ≠ D.SK6_STARTUP_INFO))
    (hshort : ascii_body_short D s packet_type packetbuf) :
    (∃ buf1 s1, read_ascii_frame D s packet_type packetbuf
      = AsciiFrame.returned ReadCode.SK6_ASCII_READ_ERROR buf1 s1) ∧
    (read_ascii_packet D s packet_type packetbuf).1 = ReadCode.SK6_ASCII_READ_ERROR ∧
    (read_ascii_packet D s packet_type packetbuf).2.2.devpriv = s.devpriv ∧
    (read_ascii_packet D s packet_type packetbuf).2.2.devpriv.checksum = s.devpriv.checksum ∧
    (read_ascii_packet D s packet_type packetbuf).2.2.data = s.data ∧
    (read_ascii_packet D s packet_type packetbuf).2.2.thread_signals = s.thread_signals := by
  unfold ascii_body_short at hshort
  by_cases hT : packet_type = D.SK6_DATA_TIMESTAMP
  · rw [if_pos hT] at hshort
    subst hT
    obtain ⟨buf1, s1, hf, h1, h2, h3⟩ := envelope_frame_short D s packetbuf hshort
    refine ⟨⟨_, _, hf⟩, ?_⟩
    unfold read_ascii_packet
    rw [hf]
    exact ⟨rfl, h1, congrArg DevPriv.checksum h1, h2, h3⟩
  · rw [if_neg hT] at hshort
    unfold ascii_body_full at hshort
    obtain ⟨hP, hR, hS⟩ : packet_type ≠ D.SK6_DATA_PLAYBACK_COMPLETE
        ∧ packet_type ≠ D.SK6_DATA_RFID_TID ∧ packet_type ≠ D.SK6_STARTUP_INFO := by
      rcases hgen with h | h
      · exact absurd h hT
      · exact h
    have hf : read_ascii_frame D s packet_type packetbuf
        = AsciiFrame.returned ReadCode.SK6_ASCII_READ_ERROR
            (read_bytes s.port packetbuf SK6_HEADER_LEN.toNat
              (D.sk6_packet_lengths packet_type - SK6_HEADER_LEN)).2.1
            { s with port := (read_bytes s.port packetbuf SK6_HEADER_LEN.toNat
              (D.sk6_packet_lengths packet_type - SK6_HEADER_LEN)).2.2 } := by
      rw [read_ascii_frame_generic D s packet_type packetbuf hT hP hR hS]
      unfold ascii_body
      simp only [Bool.false_eq_true, if_false]
      rw [if_pos hshort]
    refine ⟨⟨_, _, hf⟩, ?_⟩
    unfold read_ascii_packet
    rw [hf]
    exact ⟨rfl, rfl, rfl, rfl, rfl⟩

/-- C18 witness: the envelope `$TIM,0000001234,` around a playback heading
packet `$HED` whose body (7 bytes wanted) is cut after 3 bytes, read with the
checksum flag on. -/
theorem c18_ascii_short_read_witness :
    (∃ buf1 s1, read_ascii_frame sampleDecls
        (withChecksum (deviceOn ([44, 48, 48, 48, 48, 48, 48, 49, 50, 51, 52, 44]
          ++ [36, 72, 69, 68] ++ [44, 48, 49])) true) sampleDecls.SK6_DATA_TIMESTAMP zeroBuf
      = AsciiFrame.returned ReadCode.SK6_ASCII_READ_ERROR buf1 s1) ∧
    (read_ascii_packet sampleDecls
        (withChecksum (deviceOn ([44, 48, 48, 48, 48, 48, 48, 49, 50, 51, 52, 44]
          ++ [36, 72, 69, 68] ++ [44, 48, 49])) true) sampleDecls.SK6_DATA_TIMESTAMP zeroBuf).1
      = ReadCode.SK6_ASCII_READ_ERROR ∧
    (read_ascii_packet sampleDecls
        (withChecksum (deviceOn ([44, 48, 48, 48, 48, 48, 48, 49, 50, 51, 52, 44]
          ++ [36, 72, 69, 68] ++ [44, 48, 49])) true)
        sampleDecls.SK6_DATA_TIMESTAMP zeroBuf).2.2.devpriv
      = (withChecksum (deviceOn ([44, 48, 48, 48, 48, 48, 48, 49, 50, 51, 52, 44]
          ++ [36, 72, 69, 68] ++ [44, 48, 49])) true).devpriv ∧
    (read_ascii_packet sampleDecls
        (withChecksum (deviceOn ([44, 48, 48, 48, 48, 48, 48, 49, 50, 51, 52, 44]
          ++ [36, 72, 69, 68] ++ [44, 48, 49])) true)
        sampleDecls.SK6_DATA_TIMESTAMP zeroBuf).2.2.devpriv.checksum
      = (withChecksum (deviceOn ([44, 48, 48, 48, 48, 48, 48, 49, 50, 51, 52, 44]
          ++ [36, 72, 69, 68] ++ [44, 48, 49])) true).devpriv.checksum ∧
    (read_ascii_packet sampleDecls
        (withChecksum (deviceOn ([44, 48, 48, 48, 48, 48, 48, 49, 50, 51, 52, 44]
          ++ [36, 72, 69, 68] ++ [44, 48, 49])) true)
        sampleDecls.SK6_DATA_TIMESTAMP zeroBuf).2.2.data
      = (withChecksum (deviceOn ([44, 48, 48, 48, 48, 48, 48, 49, 50, 51, 52, 44]
          ++ [36, 72, 69, 68] ++ [44, 48, 49])) true).data ∧
    (read_ascii_packet sampleDecls
        (withChecksum (deviceOn ([44, 48, 48, 48, 48, 48, 48, 49, 50, 51, 52, 44]
          ++ [36, 72, 69, 68] ++ [44, 48, 49])) true)
        sampleDecls.SK6_DATA_TIMESTAMP zeroBuf).2.2.thread_signals
      = (withChecksum (deviceOn ([44, 48, 48, 48, 48, 48, 48, 49, 50, 51, 52, 44]
          ++ [36, 72, 69, 68] ++ [44, 48, 49])) true).thread_signals :=
  c18_ascii_short_read sampleDecls
    (withChecksum (deviceOn ([44, 48, 48, 48, 48, 48, 48, 49, 50, 51, 52, 44]
      ++ [36, 72, 69, 68] ++ [44, 48, 49])) true) sampleDecls.SK6_DATA_TIMESTAMP zeroBuf
    (Or.inl rfl) (by unfold ascii_body_short; rw [if_pos rfl]; unfold envelope_body_full; decide)

/-- C19: in read_raw_packet entered with no lookahead byte pending, whenever
the body read falls short by more than one byte (fewer than table length - 3 - 1
bytes arrive), the function returns the raw read-error code before the
extractor is reached: only the link has moved, the sensor record with its
sequence counters and the private state, lookahead byte and lookahead flag
included, are unchanged. -/
theorem c19_raw_short_read (D : Decls) (s : SK6) (packet_type : Int) (packetbuf : Buf)
    (_hpk : s.devpriv.peek_flag = false)
    (hshort : (read_bytes s.port packetbuf SK6_RAW_HEADER_LEN.toNat
        (D.sk6_packet_lengths packet_type - SK6_RAW_HEADER_LEN)).1
      < D.sk6_packet_lengths packet_type - 3 - 1) :
    (read_raw_frame D s packet_type packetbuf).seq = none ∧
    (read_raw_packet D s packet_type packetbuf).1 = ReadCode.SK6_RAW_READ_ERROR ∧
    (read_raw_packet D s packet_type packetbuf).2.2.data = s.data ∧
    (read_raw_packet D s packet_type packetbuf).2.2.devpriv = s.devpriv ∧
    (read_raw_packet D s packet_type packetbuf).2.2.devpriv.peek = s.devpriv.peek ∧
    (read_raw_packet D s packet_type packetbuf).2.2.devpriv.peek_flag = s.devpriv.peek_flag := by
  have hgt : D.sk6_packet_lengths packet_type - SK6_RAW_HEADER_LEN
      - (read_bytes s.port packetbuf SK6_RAW_HEADER_LEN.toNat
        (D.sk6_packet_lengths packet_type - SK6_RAW_HEADER_LEN)).1 > 1 := by
    unfold SK6_RAW_HEADER_LEN at hshort ⊢
    omega
  have hf : read_raw_frame D s packet_type packetbuf
      = RawFrame.returned ReadCode.SK6_RAW_READ_ERROR
          (read_bytes s.port packetbuf SK6_RAW_HEADER_LEN.toNat
            (D.sk6_packet_lengths packet_type - SK6_RAW_HEADER_LEN)).2.1
          { s with port := (read_bytes s.port packetbuf SK6_RAW_HEADER_LEN.toNat
            (D.sk6_packet_lengths packet_type - SK6_RAW_HEADER_LEN)).2.2 } := by
    unfold read_raw_frame
    simp only []
    rw [if_pos hgt]
  unfold read_raw_packet
  rw [hf]
  exact ⟨rfl, rfl, rfl, rfl, rfl, rfl⟩

/-- C19 witness: a raw accelerometer packet (7 body bytes wanted) cut after 2
bytes; the lookahead byte is a `$` served earlier, the flag is clear. -/
theorem c19_raw_short_read_witness :
    (read_raw_frame sampleDecls
      { deviceOn [1, 2] with devpriv := { idlePriv with peek := 36 } }
      26 zeroBuf).seq = none ∧
    (read_raw_packet sampleDecls
      { deviceOn [1, 2] with devpriv := { idlePriv with peek := 36 } }
      26 zeroBuf).1 = ReadCode.SK6_RAW_READ_ERROR ∧
    (read_raw_packet sampleDecls
      { deviceOn [1, 2] with devpriv := { idlePriv with peek := 36 } }
      26 zeroBuf).2.2.data
      = ({ deviceOn [1, 2] with
          devpriv := { idlePriv with peek := 36 } } : SK6).data ∧
    (read_raw_packet sampleDecls
      { deviceOn [1, 2] with devpriv := { idlePriv with peek := 36 } }
      26 zeroBuf).2.2.devpriv
      = ({ deviceOn [1, 2] with
          devpriv := { idlePriv with peek := 36 } } : SK6).devpriv ∧
    (read_raw_packet sampleDecls
      { deviceOn [1, 2] with devpriv := { idlePriv with peek := 36 } }
      26 zeroBuf).2.2.devpriv.peek
      = ({ deviceOn [1, 2] with
          devpriv := { idlePriv with peek := 36 } } : SK6).devpriv.peek ∧
    (read_raw_packet sampleDecls
      { deviceOn [1, 2] with devpriv := { idlePriv with peek := 36 } }
      26 zeroBuf).2.2.devpriv.peek_flag
      = ({ deviceOn [1, 2] with
          devpriv := { idlePriv with peek := 36 } } : SK6).devpriv.peek_flag :=
  c19_raw_short_read sampleDecls
    { deviceOn [1, 2] with devpriv := { idlePriv with peek := 36 } }
    26 zeroBuf rfl (by decide)

/-- C20: in read_raw_packet, when exactly one byte fewer than requested was
read, no trailing byte is classified: the packet goes to the extractor with
has_seq false, the function returns the raw OK code, the lookahead flag is clear
afterwards and every sequence counter keeps its previous value. -/
theorem c20_raw_one_byte_short (D : Decls) (s : SK6) (packet_type : Int) (packetbuf : Buf)
    (hone : (read_bytes s.port packetbuf SK6_RAW_HEADER_LEN.toNat
        (D.sk6_packet_lengths packet_type - SK6_RAW_HEADER_LEN)).1
      = D.sk6_packet_lengths packet_type - SK6_RAW_HEADER_LEN - 1) :
    (read_raw_frame D s packet_type packetbuf).seq = some false ∧
    (read_raw_packet D s packet_type packetbuf).1 = ReadCode.SK6_RAW_READ_OK ∧
    (read_raw_packet D s packet_type packetbuf).2.2.devpriv.peek_flag = false ∧
    (read_raw_packet D s packet_type packetbuf).2.2.devpriv.peek = s.devpriv.peek ∧
    (read_raw_packet D s packet_type packetbuf).2.2.data.internal_timestamps
      = s.data.internal_timestamps := by
  have h1 : ¬ (D.sk6_packet_lengths packet_type - SK6_RAW_HEADER_LEN
      - (read_bytes s.port packetbuf SK6_RAW_HEADER_LEN.toNat
        (D.sk6_packet_lengths packet_type - SK6_RAW_HEADER_LEN)).1 > 1) := by
    rw [hone]; omega
  have h2 : ¬ (D.sk6_packet_lengths packet_type - SK6_RAW_HEADER_LEN
      = (read_bytes s.port packetbuf SK6_RAW_HEADER_LEN.toNat
        (D.sk6_packet_lengths packet_type - SK6_RAW_HEADER_LEN)).1) := by
    rw [hone]; omega
  have hf : read_raw_frame D s packet_type packetbuf
      = RawFrame.framed
          (read_bytes s.port packetbuf SK6_RAW_HEADER_LEN.toNat
            (D.sk6_packet_lengths packet_type - SK6_RAW_HEADER_LEN)).2.1
          ((read_bytes s.port packetbuf SK6_RAW_HEADER_LEN.toNat
            (D.sk6_packet_lengths packet_type - SK6_RAW_HEADER_LEN)).1 + SK6_RAW_HEADER_LEN)
          false
          { s with
            port := (read_bytes s.port packetbuf SK6_RAW_HEADER_LEN.toNat
              (D.sk6_packet_lengths packet_type - SK6_RAW_HEADER_LEN)).2.2,
            devpriv := { s.devpriv with peek_flag := false } } := by
    unfold read_raw_frame
    simp only []
    rw [if_neg h1, if_neg h2]
  have hseq : (read_raw_frame D s packet_type packetbuf).seq = some false := by
    rw [hf]; rfl
  obtain ⟨p1, p2⟩ := read_raw_packet_peek D s packet_type packetbuf
  refine ⟨hseq, ?_, ?_, ?_, ?_⟩
  · rw [read_raw_packet_of_framed D s packet_type packetbuf _ _ _ _ hf]
  · rw [p2, hf]; rfl
  · rw [p1, hf]; rfl
  · rw [read_raw_packet_no_seq D s packet_type packetbuf hseq, hf]; rfl

/-- C20 witness: a raw heading packet (3 body bytes wanted) of which 2 arrive,
with a lookahead flag left over and the heading counter at 7. -/
theorem c20_raw_one_byte_short_witness :
    (read_raw_frame sampleDecls
      (withCounter { deviceOn [1, 2] with devpriv := { idlePriv with peek_flag := true } } 3 7)
      29 zeroBuf).seq = some false ∧
    (read_raw_packet sampleDecls
      (withCounter { deviceOn [1, 2] with devpriv := { idlePriv with peek_flag := true } } 3 7)
      29 zeroBuf).1 = ReadCode.SK6_RAW_READ_OK ∧
    (read_raw_packet sampleDecls
      (withCounter { deviceOn [1, 2] with devpriv := { idlePriv with peek_flag := true } } 3 7)
      29 zeroBuf).2.2.devpriv.peek_flag = false ∧
    (read_raw_packet sampleDecls
      (withCounter { deviceOn [1, 2] with devpriv := { idlePriv with peek_flag := true } } 3 7)
      29 zeroBuf).2.2.devpriv.peek
      = (withCounter { deviceOn [1, 2] with devpriv := { idlePriv with peek_flag := true } }
          3 7).devpriv.peek ∧
    (read_raw_packet sampleDecls
      (withCounter { deviceOn [1, 2] with devpriv := { idlePriv with peek_flag := true } } 3 7)
      29 zeroBuf).2.2.data.internal_timestamps
      = (withCounter { deviceOn [1, 2] with devpriv := { idlePriv with peek_flag := true } }
          3 7).data.internal_timestamps :=
  c20_raw_one_byte_short sampleDecls
    (withCounter { deviceOn [1, 2] with devpriv := { idlePriv with peek_flag := true } } 3 7)
    29 zeroBuf (by decide)

/-- When `strncmp_eq` succeeds against a string with no NUL in the compared
range, the compared bytes agree. -/
theorem agree_of_strncmp_eq_code (a : Buf) (b : List Nat) : ∀ (n i : Nat),
    strncmp_eq a b i n = true → (∀ j, i ≤ j → j < i + n → b.getD j 0 ≠ 0) →
    ∀ j, i ≤ j → j < i + n → a j = b.getD j 0 := by
  intro n
  induction n with
  | zero => intro i _ _ j h1 h2; omega
  | succ k ih =>
    intro i h hz j h1 h2
    unfold strncmp_eq at h
    by_cases e : a i = b.getD i 0
    · have hz0 : a i ≠ 0 := by rw [e]; exact hz i (le_refl _) (by omega)
      simp only [e, ne_eq, not_true_eq_false, if_false] at h
      rw [← e] at h
      simp only [hz0, if_false] at h
      by_cases hj : j = i
      · rw [hj]; exact e
      · exact ih (i + 1) h (fun j h1 h2 => hz j (by omega) (by omega)) j (by omega) (by omega)
    · simp only [e, ne_eq, not_false_eq_true, if_true] at h
      exact absurd h (by decide)

/-! ## Header classification in full -/

/-- For a table code of four characters, none of them NUL, the comparison
`strncmp(window, code, 4) == 0` holds exactly when the window is the code. -/
theorem strncmp_eq_iff_code (w : Buf) (code : List Nat) (hl : code.length = 4)
    (hz : 0 ∉ code) : strncmp_eq w code 0 4 = true ↔ code = header_window w := by
  rcases code with _ | ⟨a, _ | ⟨b, _ | ⟨c, _ | ⟨d, _ | ⟨e, t⟩⟩⟩⟩⟩ <;> simp at hl
  simp only [List.mem_cons, List.mem_singleton, not_or, List.not_mem_nil, or_false] at hz
  obtain ⟨ha, hb, hc, hd⟩ := hz
  unfold header_window
  constructor
  · intro h
    have hag := agree_of_strncmp_eq_code w [a, b, c, d] 4 0 h (by
      intro j _ hj
      interval_cases j
      · exact fun e => ha e.symm
      · exact fun e => hb e.symm
      · exact fun e => hc e.symm
      · exact fun e => hd e.symm)
    have h0 := hag 0 (by decide) (by decide)
    have h1 := hag 1 (by decide) (by decide)
    have h2 := hag 2 (by decide) (by decide)
    have h3 := hag 3 (by decide) (by decide)
    simp at h0 h1 h2 h3
    rw [h0, h1, h2, h3]
  · intro h
    apply strncmp_eq_of_agree
    intro j _ hj
    have e0 : a = w 0 := by injection h
    have e1 : b = w 1 := by simp at h; exact h.2.1
    have e2 : c = w 2 := by simp at h; exact h.2.2.1
    have e3 : d = w 3 := by simp at h; exact h.2.2.2
    interval_cases j <;> simp [e0, e1, e2, e3]

/-- A result of the ASCII loop other than the sentinel is a match, at the first
matching index from `i0` on, and not beyond the boundary. -/
theorem classify_loop_ascii_sound (D : Decls) (w : Buf) : ∀ (fuel : Nat) (i0 : Int),
    classify_loop D w true fuel i0 ≠ D.SHAKE_BAD_PACKET → i0 ≤ D.SK6_STARTUP_INFO →
    i0 ≤ classify_loop D w true fuel i0 ∧
    classify_loop D w true fuel i0 ≤ D.SK6_STARTUP_INFO ∧
    classify_loop D w true fuel i0 < i0 + fuel ∧
    strncmp_eq w (D.sk6_packet_headers (classify_loop D w true fuel i0)) 0 4 = true ∧
    ∀ j : Int, i0 ≤ j → j < classify_loop D w true fuel i0 →
      strncmp_eq w (D.sk6_packet_headers j) 0 4 = false := by
  intro fuel
  induction fuel with
  | zero =>
    intro i0 h _
    exact absurd rfl h
  | succ k ih =>
    intro i0 h hi
    unfold classify_loop at h ⊢
    simp only [if_true] at h ⊢
    by_cases c : strncmp_eq w (D.sk6_packet_headers i0) 0 4 = true
    · rw [if_pos c]
      exact ⟨le_refl _, hi, by push_cast; omega, c, fun j h1 h2 => absurd h2 (by omega)⟩
    · rw [if_neg c] at h ⊢
      by_cases c2 : i0 ≥ D.SK6_STARTUP_INFO
      · rw [if_pos c2] at h
        exact absurd rfl h
      · rw [if_neg c2] at h ⊢
        obtain ⟨a1, a2, a3, a4, a5⟩ := ih (i0 + 1) h (by omega)
        refine ⟨by omega, a2, by push_cast; omega, a4, ?_⟩
        intro j h1 h2
        by_cases e : j = i0
        · rw [e]; simpa using c
        · exact a5 j (by omega) h2

/-- A result of the raw loop other than the sentinel is a match, at the first
matching index from `i0` on, below the end of the loop. -/
theorem classify_loop_raw_sound (D : Decls) (w : Buf) : ∀ (fuel : Nat) (i0 : Int),
    classify_loop D w false fuel i0 ≠ D.SHAKE_BAD_PACKET →
    i0 ≤ classify_loop D w false fuel i0 ∧
    classify_loop D w false fuel i0 < i0 + fuel ∧
    w 2 = D.sk6_raw_packet_headers (classify_loop D w false fuel i0 - D.SK6_RAW_DATA_ACC) ∧
    ∀ j : Int, i0 ≤ j → j < classify_loop D w false fuel i0 →
      w 2 ≠ D.sk6_raw_packet_headers (j - D.SK6_RAW_DATA_ACC) := by
  intro fuel
  induction fuel with
  | zero =>
    intro i0 h
    exact absurd rfl h
  | succ k ih =>
    intro i0 h
    unfold classify_loop at h ⊢
    simp only [Bool.false_eq_true, if_false] at h ⊢
    by_cases c : w 2 = D.sk6_raw_packet_headers (i0 - D.SK6_RAW_DATA_ACC)
    · rw [if_pos c]
      exact ⟨le_refl _, by push_cast; omega, c, fun j h1 h2 => absurd h2 (by omega)⟩
    · rw [if_neg c] at h ⊢
      obtain ⟨a1, a2, a3, a4⟩ := ih (i0 + 1) h
      refine ⟨by omega, by push_cast; omega, a3, ?_⟩
      intro j h1 h2
      by_cases e : j = i0
      · rw [e]; exact c
      · exact a4 j (by omega) h2

theorem classify_ascii_unfold (D : Decls) (w : Buf) :
    classify_packet_header D w 4 true
      = classify_loop D w true D.SK6_NUM_PACKET_TYPES.toNat 0 := by
  unfold classify_packet_header
  simp [SK6_HEADER_LEN]

theorem classify_ascii_length (D : Decls) (w : Buf) (n : Int) (h : n ≠ 4) :
    classify_packet_header D w n true = D.SHAKE_BAD_PACKET := by
  unfold classify_packet_header
  simp [SK6_HEADER_LEN, h]

theorem classify_raw_unfold (D : Decls) (w : Buf) (h0 : w 0 = 127) (h1 : w 1 = 127) :
    classify_packet_header D w 3 false
      = classify_loop D w false (D.SK6_NUM_PACKET_TYPES - D.SK6_RAW_DATA_ACC).toNat
          D.SK6_RAW_DATA_ACC := by
  unfold classify_packet_header
  simp [SK6_RAW_HEADER_LEN, h0, h1]

theorem classify_raw_reject (D : Decls) (w : Buf) (n : Int)
    (h : n ≠ 3 ∨ w 0 ≠ 127 ∨ w 1 ≠ 127) :
    classify_packet_header D w n false = D.SHAKE_BAD_PACKET := by
  unfold classify_packet_header
  simp only [Bool.false_eq_true, false_and, if_false, SK6_RAW_HEADER_LEN, not_false_eq_true,
    true_and]
  rw [if_pos h]

/-! ### C13, C14: classify_packet_header -/

/-- C13: in ASCII mode, with a header table of 4-character codes and the
boundary SK6_STARTUP_INFO inside the enumeration, classify_packet_header
returns an index i other than the sentinel if and only if header_length is 4
and i is the least index in [0, SK6_STARTUP_INFO] whose code equals the 4-byte
window; it returns the sentinel for a wrong length and when no code up to the
boundary matches, and it never returns an index above the boundary. -/
theorem c13_ascii_classification (D : Decls) (w : Buf) (header_length : Int)
    (hS0 : 0 ≤ D.SK6_STARTUP_INFO) (hSN : D.SK6_STARTUP_INFO < D.SK6_NUM_PACKET_TYPES)
    (hcodes : ∀ j : Int, 0 ≤ j → j ≤ D.SK6_STARTUP_INFO →
      (D.sk6_packet_headers j).length = 4 ∧ 0 ∉ D.sk6_packet_headers j) :
    (∀ i : Int, i ≠ D.SHAKE_BAD_PACKET →
      (classify_packet_header D w header_length true = i ↔
        header_length = 4 ∧ 0 ≤ i ∧ i ≤ D.SK6_STARTUP_INFO ∧
        D.sk6_packet_headers i = header_window w ∧
        ∀ j : Int, 0 ≤ j → j < i → D.sk6_packet_headers j ≠ header_window w)) ∧
    (classify_packet_header D w header_length true = D.SHAKE_BAD_PACKET ∨
      (0 ≤ classify_packet_header D w header_length true ∧
        classify_packet_header D w header_length true ≤ D.SK6_STARTUP_INFO)) ∧
    (header_length ≠ 4 → classify_packet_header D w header_length true = D.SHAKE_BAD_PACKET) ∧
    ((∀ j : Int, 0 ≤ j → j ≤ D.SK6_STARTUP_INFO → D.sk6_packet_headers j ≠ header_window w) →
      classify_packet_header D w header_length true = D.SHAKE_BAD_PACKET) := by
  have hmatch : ∀ j : Int, 0 ≤ j → j ≤ D.SK6_STARTUP_INFO →
      (strncmp_eq w (D.sk6_packet_headers j) 0 4 = true ↔
        D.sk6_packet_headers j = header_window w) :=
    fun j h1 h2 => strncmp_eq_iff_code w _ (hcodes j h1 h2).1 (hcodes j h1 h2).2
  by_cases hlen : header_length = 4
  · subst hlen
    have hsound := classify_loop_ascii_sound D w D.SK6_NUM_PACKET_TYPES.toNat 0
    rw [← classify_ascii_unfold] at hsound
    refine ⟨?_, ?_, fun h => absurd rfl h, ?_⟩
    · intro i hi
      constructor
      · intro h
        obtain ⟨a1, a2, _, a4, a5⟩ := hsound (by rw [h]; exact hi) hS0
        rw [h] at a1 a2 a4 a5
        refine ⟨rfl, a1, a2, (hmatch i a1 a2).1 a4, ?_⟩
        intro j h1 h2 e
        have := (hmatch j h1 (by omega)).2 e
        rw [a5 j h1 h2] at this
        exact absurd this (by decide)
      · rintro ⟨_, h0, h1, h2, h3⟩
        rw [classify_ascii_unfold]
        apply classify_loop_ascii D w i h1 ((hmatch i h0 h1).2 h2) _ 0 h0 (by omega)
        intro j hj0 hji
        by_contra c
        rw [Bool.not_eq_false] at c
        exact h3 j hj0 hji ((hmatch j hj0 (by omega)).1 c)
    · by_cases c : classify_packet_header D w 4 true = D.SHAKE_BAD_PACKET
      · exact Or.inl c
      · obtain ⟨a1, a2, _⟩ := hsound c hS0
        exact Or.inr ⟨a1, a2⟩
    · intro hnone
      by_contra c
      obtain ⟨a1, a2, _, a4, _⟩ := hsound c hS0
      exact hnone _ a1 a2 ((hmatch _ a1 a2).1 a4)
  · have hb := classify_ascii_length D w header_length hlen
    refine ⟨?_, Or.inl hb, fun _ => hb, fun _ => hb⟩
    intro i hi
    constructor
    · intro h
      rw [hb] at h
      exact absurd h.symm hi
    · intro h
      exact absurd h.1 hlen

/-- C13 witness: the window `$HED` is classified as type 3 of the sample table. -/
theorem c13_ascii_classification_witness :
    classify_packet_header sampleDecls (store zeroBuf 0 [36, 72, 69, 68]) 4 true = 3 ↔
      (4 : Int) = 4 ∧ (0 : Int) ≤ 3 ∧ 3 ≤ sampleDecls.SK6_STARTUP_INFO ∧
      sampleDecls.sk6_packet_headers 3 = header_window (store zeroBuf 0 [36, 72, 69, 68]) ∧
      ∀ j : Int, 0 ≤ j → j < 3 →
        sampleDecls.sk6_packet_headers j ≠ header_window (store zeroBuf 0 [36, 72, 69, 68]) :=
  (c13_ascii_classification sampleDecls (store zeroBuf 0 [36, 72, 69, 68]) 4
    (by decide) (by decide) (by
      intro j h1 h2
      obtain ⟨n, rfl⟩ := Int.eq_ofNat_of_zero_le h1
      have hn : n < 26 := by
        have : (n : Int) ≤ 25 := h2
        omega
      interval_cases n <;> decide)).1 3 (by decide)

/-- C14: in raw mode classify_packet_header returns the sentinel whenever
header_length is not 3 or byte 0 or byte 1 is not 0x7F; otherwise it returns a
type T other than the sentinel if and only if T is the least raw packet type
(SK6_RAW_DATA_ACC <= T < SK6_NUM_PACKET_TYPES) whose selector equals byte 2, and
the sentinel when no selector matches.  The result is the sentinel or a raw
type; it is never an ASCII packet type (the sentinel not being one). -/
theorem c14_raw_classification (D : Decls) (w : Buf) (header_length : Int) :
    ((header_length ≠ 3 ∨ w 0 ≠ 127 ∨ w 1 ≠ 127) →
      classify_packet_header D w header_length false = D.SHAKE_BAD_PACKET) ∧
    (header_length = 3 → w 0 = 127 → w 1 = 127 →
      (∀ T : Int, T ≠ D.SHAKE_BAD_PACKET →
        (classify_packet_header D w header_length false = T ↔
          D.SK6_RAW_DATA_ACC ≤ T ∧ T < D.SK6_NUM_PACKET_TYPES ∧
          D.sk6_raw_packet_headers (T - D.SK6_RAW_DATA_ACC) = w 2 ∧
          ∀ j : Int, D.SK6_RAW_DATA_ACC ≤ j → j < T →
            D.sk6_raw_packet_headers (j - D.SK6_RAW_DATA_ACC) ≠ w 2)) ∧
      ((∀ j : Int, D.SK6_RAW_DATA_ACC ≤ j → j < D.SK6_NUM_PACKET_TYPES →
          D.sk6_raw_packet_headers (j - D.SK6_RAW_DATA_ACC) ≠ w 2) →
        classify_packet_header D w header_length false = D.SHAKE_BAD_PACKET)) ∧
    (classify_packet_header D w header_length false = D.SHAKE_BAD_PACKET ∨
      (D.SK6_RAW_DATA_ACC ≤ classify_packet_header D w header_length false ∧
        classify_packet_header D w header_length false < D.SK6_NUM_PACKET_TYPES)) ∧
    (is_ascii_packet D D.SHAKE_BAD_PACKET = 0 →
      is_ascii_packet D (classify_packet_header D w header_length false) = 0) := by
  have hrange : classify_packet_header D w header_length false = D.SHAKE_BAD_PACKET ∨
      (D.SK6_RAW_DATA_ACC ≤ classify_packet_header D w header_length false ∧
        classify_packet_header D w header_length false < D.SK6_NUM_PACKET_TYPES) := by
    by_cases c : header_length ≠ 3 ∨ w 0 ≠ 127 ∨ w 1 ≠ 127
    · exact Or.inl (classify_raw_reject D w header_length c)
    · have c3 : header_length = 3 := by by_contra h; exact c (Or.inl h)
      have c0 : w 0 = 127 := by by_contra h; exact c (Or.inr (Or.inl h))
      have c1 : w 1 = 127 := by by_contra h; exact c (Or.inr (Or.inr h))
      subst c3
      by_cases cb : classify_packet_header D w 3 false = D.SHAKE_BAD_PACKET
      · exact Or.inl cb
      · have hs := classify_loop_raw_sound D w
          (D.SK6_NUM_PACKET_TYPES - D.SK6_RAW_DATA_ACC).toNat D.SK6_RAW_DATA_ACC
        rw [← classify_raw_unfold D w c0 c1] at hs
        obtain ⟨a1, a2, _⟩ := hs cb
        exact Or.inr ⟨a1, by omega⟩
  refine ⟨classify_raw_reject D w header_length, ?_, hrange, ?_⟩
  · intro c3 c0 c1
    subst c3
    have hs := classify_loop_raw_sound D w
      (D.SK6_NUM_PACKET_TYPES - D.SK6_RAW_DATA_ACC).toNat D.SK6_RAW_DATA_ACC
    rw [← classify_raw_unfold D w c0 c1] at hs
    constructor
    · intro T hT
      constructor
      · intro h
        obtain ⟨a1, a2, a3, a4⟩ := hs (by rw [h]; exact hT)
        rw [h] at a1 a2 a3 a4
        exact ⟨a1, by omega, a3.symm, fun j h1 h2 e => a4 j h1 h2 e.symm⟩
      · rintro ⟨h1, h2, h3, h4⟩
        rw [classify_raw_unfold D w c0 c1]
        exact classify_loop_raw D w T h3.symm _ _ h1 (by omega)
          (fun j a b e => h4 j a b e.symm)
    · intro hnone
      by_contra c
      obtain ⟨a1, a2, a3, _⟩ := hs c
      exact hnone _ a1 (by omega) a3.symm
  · intro hb
    rcases hrange with h | ⟨h1, _⟩
    · rw [h]; exact hb
    · unfold is_ascii_packet
      rw [if_neg (fun c => absurd c.2 (by omega))]

/-- C14 witness: the raw header 0x7F 0x7F 0x7B is the heading type 29 of the
sample table, and the result of a raw classification is no ASCII type. -/
theorem c14_raw_classification_witness :
    (classify_packet_header sampleDecls (store zeroBuf 0 [127, 127, 123]) 3 false = 29 ↔
      sampleDecls.SK6_RAW_DATA_ACC ≤ 29 ∧ 29 < sampleDecls.SK6_NUM_PACKET_TYPES ∧
      sampleDecls.sk6_raw_packet_headers (29 - sampleDecls.SK6_RAW_DATA_ACC)
        = store zeroBuf 0 [127, 127, 123] 2 ∧
      ∀ j : Int, sampleDecls.SK6_RAW_DATA_ACC ≤ j → j < 29 →
        sampleDecls.sk6_raw_packet_headers (j - sampleDecls.SK6_RAW_DATA_ACC)
          ≠ store zeroBuf 0 [127, 127, 123] 2) ∧
    is_ascii_packet sampleDecls
      (classify_packet_header sampleDecls (store zeroBuf 0 [127, 127, 123]) 3 false) = 0 :=
  ⟨((c14_raw_classification sampleDecls (store zeroBuf 0 [127, 127, 123]) 3).2.1
      rfl (by decide) (by decide)).1 29 (by decide),
    (c14_raw_classification sampleDecls (store zeroBuf 0 [127, 127, 123]) 3).2.2.2 (by decide)⟩

/-! ### C12: raw round trip -/

theorem le16_of_field (b : Buf) (off v : Nat) (h : le16_field b off v) : le16 b off = (v : Int) := by
  unfold le16
  rw [h.1, h.2]
  push_cast
  omega

/-- With pairwise distinct enumerators, each raw sensor type selects its own
case of the switch of extract_raw_packet. -/
theorem extract_raw_sensor_case (D : Decls) (s : SK6) (b : Buf) (hs : Bool)
    (hd : (raw_sensor_types D).Nodup) :
    extract_raw_packet D s D.SK6_RAW_DATA_ACC b hs
      = (Status.SHAKE_SUCCESS, raw_case_acc D s b hs) ∧
    extract_raw_packet D s D.SK6_RAW_DATA_GYRO b hs
      = (Status.SHAKE_SUCCESS, raw_case_gyro D s b hs) ∧
    extract_raw_packet D s D.SK6_RAW_DATA_MAG b hs
      = (Status.SHAKE_SUCCESS, raw_case_mag D s b hs) ∧
    extract_raw_packet D s D.SK6_RAW_DATA_HEADING b hs
      = (Status.SHAKE_SUCCESS, raw_case_heading D s b hs) ∧
    extract_raw_packet D s D.SK6_RAW_DATA_CAP0 b hs
      = (Status.SHAKE_SUCCESS, raw_case_cap0 D s b hs) ∧
    extract_raw_packet D s D.SK6_RAW_DATA_CAP1 b hs
      = (Status.SHAKE_SUCCESS, raw_case_cap1 D s b hs) ∧
    extract_raw_packet D s D.SK6_RAW_DATA_ANALOG0 b hs
      = (Status.SHAKE_SUCCESS, raw_case_analog0 D s b hs) ∧
    extract_raw_packet D s D.SK6_RAW_DATA_ANALOG1 b hs
      = (Status.SHAKE_SUCCESS, raw_case_analog1 D s b hs) := by
  simp only [raw_sensor_types, List.nodup_cons, List.mem_cons, List.mem_singleton, not_or,
    List.not_mem_nil, List.nodup_nil, and_true, not_false_eq_true] at hd
  obtain ⟨⟨a1, a2, a3, a4, a5, a6, a7⟩, ⟨b2, b3, b4, b5, b6, b7⟩, ⟨c3, c4, c5, c6, c7⟩,
    ⟨d4, d5, d6, d7⟩, ⟨e5, e6, e7⟩, ⟨f6, f7⟩, g7⟩ := hd
  refine ⟨?_, ?_, ?_, ?_, ?_, ?_, ?_, ?_⟩
  · unfold extract_raw_packet
    rw [if_pos rfl]
  · unfold extract_raw_packet
    rw [if_neg (Ne.symm a1), if_pos rfl]
  · unfold extract_raw_packet
    rw [if_neg (Ne.symm a2), if_neg (Ne.symm b2), if_pos rfl]
  · unfold extract_raw_packet
    rw [if_neg (Ne.symm a3), if_neg (Ne.symm b3), if_neg (Ne.symm c3), if_pos rfl]
  · unfold extract_raw_packet
    rw [if_neg (Ne.symm a4), if_neg (Ne.symm b4), if_neg (Ne.symm c4), if_neg (Ne.symm d4),
      if_pos rfl]
  · unfold extract_raw_packet
    rw [if_neg (Ne.symm a5), if_neg (Ne.symm b5), if_neg (Ne.symm c5), if_neg (Ne.symm d5),
      if_neg (Ne.symm e5), if_pos rfl]
  · unfold extract_raw_packet
    rw [if_neg (Ne.symm a6), if_neg (Ne.symm b6), if_neg (Ne.symm c6), if_neg (Ne.symm d6),
      if_neg (Ne.symm e6), if_neg (Ne.symm f6), if_pos rfl]
  · unfold extract_raw_packet
    rw [if_neg (Ne.symm a7), if_neg (Ne.symm b7), if_neg (Ne.symm c7), if_neg (Ne.symm d7),
      if_neg (Ne.symm e7), if_neg (Ne.symm f7), if_neg (Ne.symm g7), if_pos rfl]

/-- C12: raw round trip.  When the field bytes of a raw packet are
(v mod 256, v div 256), low byte first, extract_raw_packet stores exactly v:
the three fields of the accelerometer, gyroscope and magnetometer packets, and
the single field of the heading, two capacitive and two analog packets, with or
without a sequence byte.  The raw sensor enumerators are pairwise distinct. -/
theorem c12_raw_round_trip (D : Decls) (s : SK6) (b : Buf) (has_seq : Bool)
    (v0 v1 v2 v : Nat)
    (hd : (raw_sensor_types D).Nodup)
    (f0 : le16_field b D.raw_long_data v0)
    (f1 : le16_field b (D.raw_long_data + 2) v1)
    (f2 : le16_field b (D.raw_long_data + 4) v2)
    (g : le16_field b D.raw_short_data v) :
    ((extract_raw_packet D s D.SK6_RAW_DATA_ACC b has_seq).2.data.accx = v0 ∧
      (extract_raw_packet D s D.SK6_RAW_DATA_ACC b has_seq).2.data.accy = v1 ∧
      (extract_raw_packet D s D.SK6_RAW_DATA_ACC b has_seq).2.data.accz = v2) ∧
    ((extract_raw_packet D s D.SK6_RAW_DATA_GYRO b has_seq).2.data.gyrx = v0 ∧
      (extract_raw_packet D s D.SK6_RAW_DATA_GYRO b has_seq).2.data.gyry = v1 ∧
      (extract_raw_packet D s D.SK6_RAW_DATA_GYRO b has_seq).2.data.gyrz = v2) ∧
    ((extract_raw_packet D s D.SK6_RAW_DATA_MAG b has_seq).2.data.magx = v0 ∧
      (extract_raw_packet D s D.SK6_RAW_DATA_MAG b has_seq).2.data.magy = v1 ∧
      (extract_raw_packet D s D.SK6_RAW_DATA_MAG b has_seq).2.data.magz = v2) ∧
    (extract_raw_packet D s D.SK6_RAW_DATA_HEADING b has_seq).2.data.heading = v ∧
    (extract_raw_packet D s D.SK6_RAW_DATA_CAP0 b has_seq).2.data.cap_sk6_0 = v ∧
    (extract_raw_packet D s D.SK6_RAW_DATA_CAP1 b has_seq).2.data.cap_sk6_1 = v ∧
    (extract_raw_packet D s D.SK6_RAW_DATA_ANALOG0 b has_seq).2.data.ana0 = v ∧
    (extract_raw_packet D s D.SK6_RAW_DATA_ANALOG1 b has_seq).2.data.ana1 = v := by
  obtain ⟨c1, c2, c3, c4, c5, c6, c7, c8⟩ := extract_raw_sensor_case D s b has_seq hd
  have l0 := le16_of_field b _ v0 f0
  have l1 := le16_of_field b _ v1 f1
  have l2 := le16_of_field b _ v2 f2
  have l3 := le16_of_field b _ v g
  rw [c1, c2, c3, c4, c5, c6, c7, c8]
  cases has_seq
  · exact ⟨⟨l0, l1, l2⟩, ⟨l0, l1, l2⟩, ⟨l0, l1, l2⟩, l3, l3, l3, l3, l3⟩
  · exact ⟨⟨l0, l1, l2⟩, ⟨l0, l1, l2⟩, ⟨l0, l1, l2⟩, l3, l3, l3, l3, l3⟩

/-- C12 witness: the field bytes 0x34 0x12, 0xFF 0xFF, 0x00 0x00 after the raw
header decode to 0x1234, 65535 and 0. -/
theorem c12_raw_round_trip_witness :
    ((extract_raw_packet sampleDecls (deviceOn []) sampleDecls.SK6_RAW_DATA_ACC
        (store zeroBuf 3 [52, 18, 255, 255, 0, 0, 9]) true).2.data.accx = (4660 : Nat) ∧
      (extract_raw_packet sampleDecls (deviceOn []) sampleDecls.SK6_RAW_DATA_ACC
        (store zeroBuf 3 [52, 18, 255, 255, 0, 0, 9]) true).2.data.accy = (65535 : Nat) ∧
      (extract_raw_packet sampleDecls (deviceOn []) sampleDecls.SK6_RAW_DATA_ACC
        (store zeroBuf 3 [52, 18, 255, 255, 0, 0, 9]) true).2.data.accz = (0 : Nat)) ∧
    ((extract_raw_packet sampleDecls (deviceOn []) sampleDecls.SK6_RAW_DATA_GYRO
        (store zeroBuf 3 [52, 18, 255, 255, 0, 0, 9]) true).2.data.gyrx = (4660 : Nat) ∧
      (extract_raw_packet sampleDecls (deviceOn []) sampleDecls.SK6_RAW_DATA_GYRO
        (store zeroBuf 3 [52, 18, 255, 255, 0, 0, 9]) true).2.data.gyry = (65535 : Nat) ∧
      (extract_raw_packet sampleDecls (deviceOn []) sampleDecls.SK6_RAW_DATA_GYRO
        (store zeroBuf 3 [52, 18, 255, 255, 0, 0, 9]) true).2.data.gyrz = (0 : Nat)) ∧
    ((extract_raw_packet sampleDecls (deviceOn []) sampleDecls.SK6_RAW_DATA_MAG
        (store zeroBuf 3 [52, 18, 255, 255, 0, 0, 9]) true).2.data.magx = (4660 : Nat) ∧
      (extract_raw_packet sampleDecls (deviceOn []) sampleDecls.SK6_RAW_DATA_MAG
        (store zeroBuf 3 [52, 18, 255, 255, 0, 0, 9]) true).2.data.magy = (65535 : Nat) ∧
      (extract_raw_packet sampleDecls (deviceOn []) sampleDecls.SK6_RAW_DATA_MAG
        (store zeroBuf 3 [52, 18, 255, 255, 0, 0, 9]) true).2.data.magz = (0 : Nat)) ∧
    (extract_raw_packet sampleDecls (deviceOn []) sampleDecls.SK6_RAW_DATA_HEADING
      (store zeroBuf 3 [52, 18, 255, 255, 0, 0, 9]) true).2.data.heading = (4660 : Nat) ∧
    (extract_raw_packet sampleDecls (deviceOn []) sampleDecls.SK6_RAW_DATA_CAP0
      (store zeroBuf 3 [52, 18, 255, 255, 0, 0, 9]) true).2.data.cap_sk6_0 = (4660 : Nat) ∧
    (extract_raw_packet sampleDecls (deviceOn []) sampleDecls.SK6_RAW_DATA_CAP1
      (store zeroBuf 3 [52, 18, 255, 255, 0, 0, 9]) true).2.data.cap_sk6_1 = (4660 : Nat) ∧
    (extract_raw_packet sampleDecls (deviceOn []) sampleDecls.SK6_RAW_DATA_ANALOG0
      (store zeroBuf 3 [52, 18, 255, 255, 0, 0, 9]) true).2.data.ana0 = (4660 : Nat) ∧
    (extract_raw_packet sampleDecls (deviceOn []) sampleDecls.SK6_RAW_DATA_ANALOG1
      (store zeroBuf 3 [52, 18, 255, 255, 0, 0, 9]) true).2.data.ana1 = (4660 : Nat) :=
  c12_raw_round_trip sampleDecls (deviceOn []) (store zeroBuf 3 [52, 18, 255, 255, 0, 0, 9]) true
    4660 65535 0 4660 (by decide) ⟨by decide, by decide⟩ ⟨by decide, by decide⟩
    ⟨by decide, by decide⟩ ⟨by decide, by decide⟩

/-! ### C16, C17: the two cases of extract_ascii_packet without `break` -/

/-- Whatever the declarations, the four threshold cases end with `ev` equal to
SK6_CS1_LOWER: each label falls through to the last assignment. -/
theorem threshold_event_value (D : Decls) (packet_type : Int)
    (h : packet_type = D.SK6_DATA_CU0 ∨ packet_type = D.SK6_DATA_CL0
      ∨ packet_type = D.SK6_DATA_CU1 ∨ packet_type = D.SK6_DATA_CL1) :
    threshold_event D packet_type = D.SK6_CS1_LOWER := by
  unfold threshold_event
  simp only []
  rw [if_pos h]

/-- C16, the code at the failing inputs: with an event callback registered,
extract_ascii_packet stores SK6_CS1_LOWER for each of the types CU0, CL0, CU1
and CL1, whereas extract_raw_packet stores SK6_CS0_UPPER, SK6_CS0_LOWER,
SK6_CS1_UPPER and SK6_CS1_LOWER for the event numbers 5, 6, 7 and 8; the two
paths agree on the last of the four events only. -/
theorem c16_threshold_codes_differ :
    callback_registered callbackDevice = true ∧
    (extract_ascii_packet sampleDecls callbackDevice sampleDecls.SK6_DATA_CU0 zeroBuf false
      []).2.devpriv.lastevent = sampleDecls.SK6_CS1_LOWER ∧
    (extract_ascii_packet sampleDecls callbackDevice sampleDecls.SK6_DATA_CL0 zeroBuf false
      []).2.devpriv.lastevent = sampleDecls.SK6_CS1_LOWER ∧
    (extract_ascii_packet sampleDecls callbackDevice sampleDecls.SK6_DATA_CU1 zeroBuf false
      []).2.devpriv.lastevent = sampleDecls.SK6_CS1_LOWER ∧
    (extract_ascii_packet sampleDecls callbackDevice sampleDecls.SK6_DATA_CL1 zeroBuf false
      []).2.devpriv.lastevent = sampleDecls.SK6_CS1_LOWER ∧
    (extract_raw_packet sampleDecls callbackDevice sampleDecls.SK6_RAW_DATA_EVENT
      (store zeroBuf 3 [5]) false).2.devpriv.lastevent = sampleDecls.SK6_CS0_UPPER ∧
    (extract_raw_packet sampleDecls callbackDevice sampleDecls.SK6_RAW_DATA_EVENT
      (store zeroBuf 3 [6]) false).2.devpriv.lastevent = sampleDecls.SK6_CS0_LOWER ∧
    (extract_raw_packet sampleDecls callbackDevice sampleDecls.SK6_RAW_DATA_EVENT
      (store zeroBuf 3 [7]) false).2.devpriv.lastevent = sampleDecls.SK6_CS1_UPPER ∧
    (extract_raw_packet sampleDecls callbackDevice sampleDecls.SK6_RAW_DATA_EVENT
      (store zeroBuf 3 [8]) false).2.devpriv.lastevent = sampleDecls.SK6_CS1_LOWER ∧
    sampleDecls.SK6_CS1_LOWER ≠ sampleDecls.SK6_CS0_UPPER ∧
    sampleDecls.SK6_CS1_LOWER ≠ sampleDecls.SK6_CS0_LOWER ∧
    sampleDecls.SK6_CS1_LOWER ≠ sampleDecls.SK6_CS1_UPPER := by
  decide

/-- When extract_ascii_packet returns SHAKE_ERROR, either nothing was written
(the default label was reached directly) or the heart-rate case has run. -/
theorem extract_ascii_error_state (D : Decls) (s : SK6) (packet_type : Int) (rawpacket : Buf)
    (playback : Bool) (ts : List Nat)
    (h : (extract_ascii_packet D s packet_type rawpacket playback ts).1 = Status.SHAKE_ERROR) :
    (extract_ascii_packet D s packet_type rawpacket playback ts).2 = s ∨
    (extract_ascii_packet D s packet_type rawpacket playback ts).2
      = ascii_case_heart_rate D s rawpacket := by
  revert h
  apply extract_ascii_cases D s packet_type rawpacket playback ts
    (fun r => r.1 = Status.SHAKE_ERROR → (r.2 = s ∨ r.2 = ascii_case_heart_rate D s rawpacket))
  case h12 => exact fun _ => Or.inr rfl
  case h13 => exact fun _ => Or.inl rfl
  all_goals exact fun h => absurd h (by simp [ascii_break])

/-- C17, the code at the failing input: on the heart-rate packet
`$HR ,0072,05`, a type the extractor handles, extract_ascii_packet returns the
decode-error code although it has stored the heart rate 72 and the sequence
value 5 in the sensor record and the heart-rate event in the last-event field;
the playback packet counter is not advanced. -/
theorem c17_heart_rate_error_with_writes :
    (extract_ascii_packet sampleDecls callbackDevice sampleDecls.SK6_DATA_HEART_RATE
      heartRateBuf true []).1 = Status.SHAKE_ERROR ∧
    callbackDevice.data.hr_bpm = 0 ∧
    (extract_ascii_packet sampleDecls callbackDevice sampleDecls.SK6_DATA_HEART_RATE
      heartRateBuf true []).2.data.hr_bpm = 72 ∧
    callbackDevice.data.hrseq = 0 ∧
    (extract_ascii_packet sampleDecls callbackDevice sampleDecls.SK6_DATA_HEART_RATE
      heartRateBuf true []).2.data.hrseq = 5 ∧
    callbackDevice.devpriv.lastevent = 0 ∧
    (extract_ascii_packet sampleDecls callbackDevice sampleDecls.SK6_DATA_HEART_RATE
      heartRateBuf true []).2.devpriv.lastevent = sampleDecls.SHAKE_HEART_RATE_EVENT ∧
    sampleDecls.SHAKE_HEART_RATE_EVENT ≠ 0 ∧
    (extract_ascii_packet sampleDecls callbackDevice sampleDecls.SK6_DATA_HEART_RATE
      heartRateBuf true []).2.devpriv.packets_read = callbackDevice.devpriv.packets_read := by
  decide

/-! ### C23: has_seq and the lookahead flag -/

/-- The framing of read_raw_packet, by what the body read delivered. -/
theorem read_raw_frame_flags (D : Decls) (s : SK6) (packet_type : Int) (packetbuf : Buf) :
    (read_raw_frame D s packet_type packetbuf).seq = none ∨
    ∃ hs : Bool, (read_raw_frame D s packet_type packetbuf).seq = some hs ∧
      (raw_body_full D s packet_type packetbuf →
        (read_raw_frame D s packet_type packetbuf).state.devpriv.peek_flag = !hs) ∧
      (¬ raw_body_full D s packet_type packetbuf →
        hs = false ∧
        (read_raw_frame D s packet_type packetbuf).state.devpriv.peek_flag = false) := by
  unfold read_raw_frame raw_body_full
  simp only []
  split_ifs with h1 h2 h3 h4 h5
  · exact Or.inl rfl
  · exact Or.inr ⟨false, rfl, fun _ => rfl, fun hf => absurd h2.symm hf⟩
  · exact Or.inr ⟨true, rfl, fun _ => rfl, fun hf => absurd h2.symm hf⟩
  · exact Or.inr ⟨false, rfl, fun _ => rfl, fun hf => absurd h2.symm hf⟩
  · exact Or.inr ⟨true, rfl, fun _ => rfl, fun hf => absurd h2.symm hf⟩
  · exact Or.inr ⟨false, rfl, fun hf => absurd hf.symm h2, fun _ => ⟨rfl, rfl⟩⟩

/-- The framing of read_raw_packet does not look at the lookahead flag it
finds, and past the error test it leaves a flag of its own. -/
theorem read_raw_frame_prior_flag (D : Decls) (s : SK6) (packet_type : Int) (packetbuf : Buf)
    (b : Bool) :
    (read_raw_frame D (withPeekFlag s b) packet_type packetbuf).seq
      = (read_raw_frame D s packet_type packetbuf).seq ∧
    ((read_raw_frame D s packet_type packetbuf).seq ≠ none →
      (read_raw_frame D (withPeekFlag s b) packet_type packetbuf).state.devpriv.peek_flag
        = (read_raw_frame D s packet_type packetbuf).state.devpriv.peek_flag) := by
  unfold read_raw_frame withPeekFlag
  simp only []
  split_ifs
  · exact ⟨rfl, fun h => absurd rfl h⟩
  all_goals exact ⟨rfl, fun _ => rfl⟩

/-- The return code of read_raw_packet is the error code exactly when the
framing returned before the parser. -/
theorem read_raw_packet_code (D : Decls) (s : SK6) (packet_type : Int) (packetbuf : Buf)
    (hok : (read_raw_packet D s packet_type packetbuf).1 = ReadCode.SK6_RAW_READ_OK) :
    (read_raw_frame D s packet_type packetbuf).seq ≠ none := by
  intro hn
  cases hf : read_raw_frame D s packet_type packetbuf with
  | returned code buf s1 =>
    have hc : code = ReadCode.SK6_RAW_READ_ERROR := by
      unfold read_raw_frame at hf
      simp only [] at hf
      split_ifs at hf
      all_goals (injection hf with e1 _ _; exact e1.symm)
    unfold read_raw_packet at hok
    rw [hf, hc] at hok
    simp at hok
  | framed buf len hs s1 =>
    rw [hf] at hn
    exact absurd hn (by simp [RawFrame.seq])

/-- C23: when read_raw_packet returns without a framing error (return code
SK6_RAW_READ_OK), the has_seq value hs handed to the extractor and the
lookahead flag afterwards are never both set; when the full body was read the
flag is the negation of hs (exactly one of the two is set); when the body read
was short (one byte short, the only short read that is not an error) hs is
false and the flag is clear; and neither hs nor the flag afterwards depends on
the flag found at entry, so a flag left over from an earlier packet is gone
unless this packet sets it again. -/
theorem c23_seq_peek_exclusive (D : Decls) (s : SK6) (packet_type : Int) (packetbuf : Buf)
    (hok : (read_raw_packet D s packet_type packetbuf).1 = ReadCode.SK6_RAW_READ_OK) :
    ∃ hs : Bool, (read_raw_frame D s packet_type packetbuf).seq = some hs ∧
      ¬ (hs = true ∧ (read_raw_packet D s packet_type packetbuf).2.2.devpriv.peek_flag = true) ∧
      (raw_body_full D s packet_type packetbuf →
        (read_raw_packet D s packet_type packetbuf).2.2.devpriv.peek_flag = !hs) ∧
      (¬ raw_body_full D s packet_type packetbuf →
        hs = false ∧ (read_raw_packet D s packet_type packetbuf).2.2.devpriv.peek_flag = false) ∧
      ∀ b : Bool,
        (read_raw_frame D (withPeekFlag s b) packet_type packetbuf).seq = some hs ∧
        (read_raw_packet D (withPeekFlag s b) packet_type packetbuf).2.2.devpriv.peek_flag
          = (read_raw_packet D s packet_type packetbuf).2.2.devpriv.peek_flag := by
  obtain ⟨_, p2⟩ := read_raw_packet_peek D s packet_type packetbuf
  rcases read_raw_frame_flags D s packet_type packetbuf with hn | ⟨hs, h1, h2, h3⟩
  · exact absurd hn (read_raw_packet_code D s packet_type packetbuf hok)
  · refine ⟨hs, h1, ?_, ?_, ?_, ?_⟩
    · rw [p2]
      by_cases hf : raw_body_full D s packet_type packetbuf
      · rw [h2 hf]; cases hs <;> simp
      · rw [(h3 hf).1]; simp
    · intro hf; rw [p2]; exact h2 hf
    · intro hf; rw [p2]; exact h3 hf
    · intro b
      obtain ⟨q1, q2⟩ := read_raw_frame_prior_flag D s packet_type packetbuf b
      obtain ⟨_, p3⟩ := read_raw_packet_peek D (withPeekFlag s b) packet_type packetbuf
      exact ⟨q1.trans h1, by rw [p3, p2, q2 (by rw [h1]; simp)]⟩

/-- C23 witness: a raw heading packet (3 body bytes) that ends in the raw
marker 0x7F, read while a lookahead flag is left over: has_seq is false and the
flag is set for the marker. -/
theorem c23_seq_peek_exclusive_witness :
    ∃ hs : Bool,
      (read_raw_frame sampleDecls (withPeekFlag (deviceOn [1, 2, 127]) true) 29 zeroBuf).seq
        = some hs ∧
      ¬ (hs = true ∧ (read_raw_packet sampleDecls (withPeekFlag (deviceOn [1, 2, 127]) true) 29
          zeroBuf).2.2.devpriv.peek_flag = true) ∧
      (raw_body_full sampleDecls (withPeekFlag (deviceOn [1, 2, 127]) true) 29 zeroBuf →
        (read_raw_packet sampleDecls (withPeekFlag (deviceOn [1, 2, 127]) true) 29
          zeroBuf).2.2.devpriv.peek_flag = !hs) ∧
      (¬ raw_body_full sampleDecls (withPeekFlag (deviceOn [1, 2, 127]) true) 29 zeroBuf →
        hs = false ∧ (read_raw_packet sampleDecls (withPeekFlag (deviceOn [1, 2, 127]) true) 29
          zeroBuf).2.2.devpriv.peek_flag = false) ∧
      ∀ b : Bool,
        (read_raw_frame sampleDecls
          (withPeekFlag (withPeekFlag (deviceOn [1, 2, 127]) true) b) 29 zeroBuf).seq = some hs ∧
        (read_raw_packet sampleDecls
          (withPeekFlag (withPeekFlag (deviceOn [1, 2, 127]) true) b) 29
            zeroBuf).2.2.devpriv.peek_flag
          = (read_raw_packet sampleDecls (withPeekFlag (deviceOn [1, 2, 127]) true) 29
              zeroBuf).2.2.devpriv.peek_flag :=
  c23_seq_peek_exclusive sampleDecls (withPeekFlag (deviceOn [1, 2, 127]) true) 29 zeroBuf
    (by decide)

/-! ### C24: the checksum test in playback -/

theorem envelope_read_requests (D : Decls) (s : SK6) (buf : Buf) :
    (envelope_read D s buf).2.2.requests
      = s.port.requests
        ++ [(D.sk6_packet_lengths D.SK6_DATA_TIMESTAMP - SK6_HEADER_LEN).toNat, 4] := by
  unfold envelope_read
  simp only [read_bytes_requests, List.append_assoc, List.singleton_append]
  rfl

/-- The framing of the inner packet of an envelope when its body is read in
full: no trailer is read, and the byte at the end of the packet is the
terminator that the playback patch wrote. -/
theorem envelope_frame_full (D : Decls) (s : SK6) (buf : Buf)
    (hfull : envelope_body_full D s buf) :
    ∃ (B : Buf) (ts : List Nat) (s1 : SK6),
      read_ascii_frame D s D.SK6_DATA_TIMESTAMP buf
        = AsciiFrame.framed (envelope_inner D s buf) B
            (D.sk6_packet_lengths (envelope_inner D s buf)) true ts s1 ∧
      B (D.sk6_packet_lengths (envelope_inner D s buf) - 1).toNat = 10 ∧
      s1.port.requests = s.port.requests
        ++ [(D.sk6_packet_lengths D.SK6_DATA_TIMESTAMP - SK6_HEADER_LEN).toNat, 4,
            (body_left D (envelope_inner D s buf) true).toNat] ∧
      s1.devpriv.checksum
        = (if D.sk6_packet_has_checksum (envelope_inner D s buf) ≠ 0 then false
            else s.devpriv.checksum) := by
  obtain ⟨ts, hfr⟩ := read_ascii_frame_inner D s buf
  unfold envelope_body_full at hfull
  have hlen : ((List.take (body_left D (envelope_inner D s buf) true).toNat
      (envelope_read D s buf).2.2.input).length : Int)
      = body_left D (envelope_inner D s buf) true := by
    exact hfull
  have hb : ((List.take (body_left D (envelope_inner D s buf) true).toNat
      (envelope_read D s buf).2.2.input).length : Int)
      = D.sk6_packet_lengths (envelope_inner D s buf) - 7 := by
    rw [hlen]; unfold body_left SK6_HEADER_LEN; simp only [if_true]; omega
  obtain ⟨s1, f1, _, f3, f4, _, _⟩ := ascii_body_playback D
    { s with port := (envelope_read D s buf).2.2 } (envelope_inner D s buf)
    (envelope_read D s buf).2.1 ts _ _ (List.take_append_drop _ _).symm hb
  refine ⟨_, ts, s1, hfr.trans f1, ?_, ?_, f4⟩
  · have e : (D.sk6_packet_lengths (envelope_inner D s buf) - 1).toNat
        = (D.sk6_packet_lengths (envelope_inner D s buf) - 5).toNat + 4 := by omega
    rw [e, store_at _ _ _ 4 (by decide)]
    rfl
  · rw [f3, envelope_read_requests]
    have e : (List.take (body_left D (envelope_inner D s buf) true).toNat
        (envelope_read D s buf).2.2.input).length
        = (body_left D (envelope_inner D s buf) true).toNat := by omega
    rw [e]
    simp

/-- C24: for a timestamp envelope whose inner packet type (the type classified
from the four bytes after the envelope) is checksum-eligible and whose playback
body is read in full, read_ascii_packet issues exactly three reads (the rest of
the envelope, the inner header, the body: no checksum trailer) and ends with
the checksum flag off, whatever the flag was before and whatever bytes came in;
the byte at the end of the packet, which the checksum test inspects, is the
newline (10) written by the playback patch. -/
theorem c24_playback_checksum_off (D : Decls) (s : SK6) (buf : Buf)
    (hck : D.sk6_packet_has_checksum (envelope_inner D s buf) ≠ 0)
    (hfull : envelope_body_full D s buf) :
    (read_ascii_packet D s D.SK6_DATA_TIMESTAMP buf).2.2.devpriv.checksum = false ∧
    (read_ascii_packet D s D.SK6_DATA_TIMESTAMP buf).2.2.port.requests
      = s.port.requests
        ++ [(D.sk6_packet_lengths D.SK6_DATA_TIMESTAMP - SK6_HEADER_LEN).toNat, 4,
            (body_left D (envelope_inner D s buf) true).toNat] ∧
    (read_ascii_packet D s D.SK6_DATA_TIMESTAMP buf).2.1
      (D.sk6_packet_lengths (envelope_inner D s buf) - 1).toNat = 10 := by
  obtain ⟨B, ts, s1, hfr, hB, hreq, hcs⟩ := envelope_frame_full D s buf hfull
  obtain ⟨p1, p2⟩ := read_ascii_packet_port_checksum D s D.SK6_DATA_TIMESTAMP buf
  rw [if_pos hck] at hcs
  refine ⟨?_, ?_, ?_⟩
  · rw [p2, hfr]; exact hcs
  · rw [p1, hfr]; exact hreq
  · unfold read_ascii_packet
    rw [hfr]
    simp only []
    split <;> exact hB

/-- C24 witness: the envelope `$TIM,0000001234,` around the playback heading
packet `$HED,0123` CR LF of the sample table, read with the checksum flag on. -/
theorem c24_playback_checksum_off_witness :
    (read_ascii_packet sampleDecls
      (withChecksum (deviceOn ([44, 48, 48, 48, 48, 48, 48, 49, 50, 51, 52, 44]
        ++ [36, 72, 69, 68] ++ [44, 48, 49, 50, 51, 13, 10])) true)
      sampleDecls.SK6_DATA_TIMESTAMP zeroBuf).2.2.devpriv.checksum = false ∧
    (read_ascii_packet sampleDecls
      (withChecksum (deviceOn ([44, 48, 48, 48, 48, 48, 48, 49, 50, 51, 52, 44]
        ++ [36, 72, 69, 68] ++ [44, 48, 49, 50, 51, 13, 10])) true)
      sampleDecls.SK6_DATA_TIMESTAMP zeroBuf).2.2.port.requests
      = (withChecksum (deviceOn ([44, 48, 48, 48, 48, 48, 48, 49, 50, 51, 52, 44]
          ++ [36, 72, 69, 68] ++ [44, 48, 49, 50, 51, 13, 10])) true).port.requests
        ++ [(sampleDecls.sk6_packet_lengths sampleDecls.SK6_DATA_TIMESTAMP
              - SK6_HEADER_LEN).toNat, 4,
            (body_left sampleDecls (envelope_inner sampleDecls
              (withChecksum (deviceOn ([44, 48, 48, 48, 48, 48, 48, 49, 50, 51, 52, 44]
                ++ [36, 72, 69, 68] ++ [44, 48, 49, 50, 51, 13, 10])) true) zeroBuf)
              true).toNat] ∧
    (read_ascii_packet sampleDecls
      (withChecksum (deviceOn ([44, 48, 48, 48, 48, 48, 48, 49, 50, 51, 52, 44]
        ++ [36, 72, 69, 68] ++ [44, 48, 49, 50, 51, 13, 10])) true)
      sampleDecls.SK6_DATA_TIMESTAMP zeroBuf).2.1
      (sampleDecls.sk6_packet_lengths (envelope_inner sampleDecls
        (withChecksum (deviceOn ([44, 48, 48, 48, 48, 48, 48, 49, 50, 51, 52, 44]
          ++ [36, 72, 69, 68] ++ [44, 48, 49, 50, 51, 13, 10])) true) zeroBuf) - 1).toNat = 10 :=
  c24_playback_checksum_off sampleDecls
    (withChecksum (deviceOn ([44, 48, 48, 48, 48, 48, 48, 49, 50, 51, 52, 44]
      ++ [36, 72, 69, 68] ++ [44, 48, 49, 50, 51, 13, 10])) true)
    zeroBuf (by decide) (by unfold envelope_body_full; decide)

/-! ### C21: the sequence counters in the raw extractor -/

/-- With pairwise distinct raw sensor enumerators, the raw type of a channel
with `has_seq` set leaves the counters as they were but for the counter of the
channel, which takes the sequence byte of the packet. -/
theorem extract_raw_channel_counters (D : Decls) (s : SK6) (b : Buf) (c : Channel)
    (hd : (raw_sensor_types D).Nodup) :
    (extract_raw_packet D s (c.raw_type D) b true).2.data.internal_timestamps
      = fun i => if i = c.sensor D then (b (c.raw_seq D) : Int)
          else s.data.internal_timestamps i := by
  obtain ⟨c1, c2, c3, c4, c5, c6, c7, c8⟩ := extract_raw_sensor_case D s b true hd
  cases c
  · simp only [Channel.raw_type]; rw [c1]; rfl
  · simp only [Channel.raw_type]; rw [c2]; rfl
  · simp only [Channel.raw_type]; rw [c3]; rfl
  · simp only [Channel.raw_type]; rw [c4]; rfl
  · simp only [Channel.raw_type]; rw [c5]; rfl
  · simp only [Channel.raw_type]; rw [c6]; rfl
  · simp only [Channel.raw_type]; rw [c7]; rfl
  · simp only [Channel.raw_type]; rw [c8]; rfl

/-- C21: extract_raw_packet called with has_seq false leaves every sequence
counter unchanged, for every packet type and buffer; called with has_seq true
on the raw type of one of the eight sensor channels (the enumerators being
pairwise distinct) it sets the counter of that channel to the sequence byte of
the packet (`seq` of the long packet for acc, gyro, mag, of the short packet
for the other five) and leaves the counter at every other index unchanged. -/
theorem c21_raw_sequence_counters (D : Decls) (s : SK6) (b : Buf) (c : Channel)
    (hd : (raw_sensor_types D).Nodup) :
    (∀ t : Int, (extract_raw_packet D s t b false).2.data.internal_timestamps
      = s.data.internal_timestamps) ∧
    (extract_raw_packet D s (c.raw_type D) b true).2.data.internal_timestamps (c.sensor D)
      = (b (c.raw_seq D) : Int) ∧
    ∀ i : Int, i ≠ c.sensor D →
      (extract_raw_packet D s (c.raw_type D) b true).2.data.internal_timestamps i
        = s.data.internal_timestamps i := by
  have h := extract_raw_channel_counters D s b c hd
  refine ⟨fun t => extract_raw_no_seq D s t b, ?_, ?_⟩
  · rw [h]; exact if_pos rfl
  · intro i hi
    rw [h]; exact if_neg hi

/-- C21 witness: a raw accelerometer packet of the sample table whose sequence
byte (offset 9) is 9, on a device whose counters are all 0. -/
theorem c21_raw_sequence_counters_witness :
    (∀ t : Int, (extract_raw_packet sampleDecls (deviceOn []) t
        (store zeroBuf 3 [52, 18, 255, 255, 0, 0, 9]) false).2.data.internal_timestamps
      = (deviceOn []).data.internal_timestamps) ∧
    (extract_raw_packet sampleDecls (deviceOn []) (Channel.acc.raw_type sampleDecls)
        (store zeroBuf 3 [52, 18, 255, 255, 0, 0, 9]) true).2.data.internal_timestamps
        (Channel.acc.sensor sampleDecls)
      = ((store zeroBuf 3 [52, 18, 255, 255, 0, 0, 9]) (Channel.acc.raw_seq sampleDecls) : Int) ∧
    ∀ i : Int, i ≠ Channel.acc.sensor sampleDecls →
      (extract_raw_packet sampleDecls (deviceOn []) (Channel.acc.raw_type sampleDecls)
        (store zeroBuf 3 [52, 18, 255, 255, 0, 0, 9]) true).2.data.internal_timestamps i
        = (deviceOn []).data.internal_timestamps i :=
  c21_raw_sequence_counters sampleDecls (deviceOn []) (store zeroBuf 3 [52, 18, 255, 255, 0, 0, 9])
    Channel.acc (by decide)

/-! ### C26: what a sensor packet writes -/

/-- With pairwise distinct ASCII sensor enumerators, each ASCII sensor type
selects its own case of the switch of extract_ascii_packet. -/
theorem extract_ascii_sensor_case (D : Decls) (s : SK6) (b : Buf) (pb : Bool) (ts : List Nat)
    (hd : (ascii_sensor_types D).Nodup) :
    extract_ascii_packet D s D.SK6_DATA_ACC b pb ts = ascii_break (ascii_case_acc D s b) pb ∧
    extract_ascii_packet D s D.SK6_DATA_GYRO b pb ts = ascii_break (ascii_case_gyro D s b) pb ∧
    extract_ascii_packet D s D.SK6_DATA_MAG b pb ts = ascii_break (ascii_case_mag D s b) pb ∧
    extract_ascii_packet D s D.SK6_DATA_HEADING b pb ts
      = ascii_break (ascii_case_heading D s b) pb ∧
    extract_ascii_packet D s D.SK6_DATA_CAP0 b pb ts = ascii_break (ascii_case_cap0 D s b) pb ∧
    extract_ascii_packet D s D.SK6_DATA_CAP1 b pb ts = ascii_break (ascii_case_cap1 D s b) pb ∧
    extract_ascii_packet D s D.SK6_DATA_ANA0 b pb ts = ascii_break (ascii_case_ana0 D s b) pb ∧
    extract_ascii_packet D s D.SK6_DATA_ANA1 b pb ts = ascii_break (ascii_case_ana1 D s b) pb := by
  simp only [ascii_sensor_types, List.nodup_cons, List.mem_cons, List.mem_singleton, not_or,
    List.not_mem_nil, List.nodup_nil, and_true, not_false_eq_true] at hd
  obtain ⟨⟨a1, a2, a3, a4, a5, a6, a7⟩, ⟨b2, b3, b4, b5, b6, b7⟩, ⟨c3, c4, c5, c6, c7⟩,
    ⟨d4, d5, d6, d7⟩, ⟨e5, e6, e7⟩, ⟨f6, f7⟩, g7⟩ := hd
  refine ⟨?_, ?_, ?_, ?_, ?_, ?_, ?_, ?_⟩
  · unfold extract_ascii_packet
    rw [if_pos rfl]
  · unfold extract_ascii_packet
    rw [if_neg (Ne.symm a1), if_pos rfl]
  · unfold extract_ascii_packet
    rw [if_neg (Ne.symm a2), if_neg (Ne.symm b2), if_pos rfl]
  · unfold extract_ascii_packet
    rw [if_neg (Ne.symm a3), if_neg (Ne.symm b3), if_neg (Ne.symm c3), if_pos rfl]
  · unfold extract_ascii_packet
    rw [if_neg (Ne.symm a4), if_neg (Ne.symm b4), if_neg (Ne.symm c4), if_neg (Ne.symm d4),
      if_pos rfl]
  · unfold extract_ascii_packet
    rw [if_neg (Ne.symm a5), if_neg (Ne.symm b5), if_neg (Ne.symm c5), if_neg (Ne.symm d5),
      if_neg (Ne.symm e5), if_pos rfl]
  · unfold extract_ascii_packet
    rw [if_neg (Ne.symm a6), if_neg (Ne.symm b6), if_neg (Ne.symm c6), if_neg (Ne.symm d6),
      if_neg (Ne.symm e6), if_neg (Ne.symm f6), if_pos rfl]
  · unfold extract_ascii_packet
    rw [if_neg (Ne.symm a7), if_neg (Ne.symm b7), if_neg (Ne.symm c7), if_neg (Ne.symm d7),
      if_neg (Ne.symm e7), if_neg (Ne.symm f7), if_neg (Ne.symm g7), if_pos rfl]

/-- What the ASCII extractor leaves alone on the packet type of channel `c`. -/
theorem extract_ascii_channel_frame (D : Decls) (s : SK6) (b : Buf) (c : Channel)
    (playback : Bool) (ts : List Nat) (ha : (ascii_sensor_types D).Nodup) :
    (∀ c2 : Channel, c2 ≠ c →
      c2.values (extract_ascii_packet D s (c.ascii_type D) b playback ts).2.data
        = c2.values s.data) ∧
    (∀ i : Int, i ≠ c.sensor D →
      (extract_ascii_packet D s (c.ascii_type D) b playback ts).2.data.internal_timestamps i
        = s.data.internal_timestamps i) ∧
    event_fields (extract_ascii_packet D s (c.ascii_type D) b playback ts).2.data
      = event_fields s.data ∧
    (extract_ascii_packet D s (c.ascii_type D) b playback ts).2.devpriv
      = counted s.devpriv playback ∧
    (extract_ascii_packet D s (c.ascii_type D) b playback ts).2.port = s.port ∧
    (extract_ascii_packet D s (c.ascii_type D) b playback ts).2.thread_signals
      = s.thread_signals := by
  obtain ⟨c1, c2, c3, c4, c5, c6, c7, c8⟩ := extract_ascii_sensor_case D s b playback ts ha
  cases c <;> cases playback <;> simp only [Channel.ascii_type]
  all_goals first
    | rw [c1] | rw [c2] | rw [c3] | rw [c4] | rw [c5] | rw [c6] | rw [c7] | rw [c8]
  all_goals
    refine ⟨fun k hk => ?_, fun i hi => if_neg hi, rfl, rfl, rfl, rfl⟩
    cases k <;> first | rfl | exact absurd rfl hk

/-- What the raw extractor leaves alone on the packet type of channel `c`. -/
theorem extract_raw_channel_frame (D : Decls) (s : SK6) (b : Buf) (c : Channel)
    (has_seq : Bool) (hr : (raw_sensor_types D).Nodup) :
    (∀ c2 : Channel, c2 ≠ c →
      c2.values (extract_raw_packet D s (c.raw_type D) b has_seq).2.data = c2.values s.data) ∧
    (∀ i : Int, i ≠ c.sensor D →
      (extract_raw_packet D s (c.raw_type D) b has_seq).2.data.internal_timestamps i
        = s.data.internal_timestamps i) ∧
    event_fields (extract_raw_packet D s (c.raw_type D) b has_seq).2.data = event_fields s.data ∧
    (extract_raw_packet D s (c.raw_type D) b has_seq).2.devpriv = s.devpriv ∧
    (extract_raw_packet D s (c.raw_type D) b has_seq).2.port = s.port ∧
    (extract_raw_packet D s (c.raw_type D) b has_seq).2.thread_signals = s.thread_signals := by
  obtain ⟨c1, c2, c3, c4, c5, c6, c7, c8⟩ := extract_raw_sensor_case D s b has_seq hr
  cases c <;> cases has_seq <;> simp only [Channel.raw_type]
  all_goals first
    | rw [c1] | rw [c2] | rw [c3] | rw [c4] | rw [c5] | rw [c6] | rw [c7] | rw [c8]
  all_goals
    refine ⟨fun k hk => ?_, fun i hi => ?_, rfl, rfl, rfl, rfl⟩
    · cases k <;> first | rfl | exact absurd rfl hk
    · first | rfl | exact if_neg hi

/-- A value in the range of a C `int` is kept by `int_wrap`. -/
theorem int_wrap_in_range (x : Int) (h1 : -2147483648 ≤ x) (h2 : x < 2147483648) :
    int_wrap x = x := by
  unfold int_wrap
  omega

/-- The increment of a C `int` at INT_MAX gives INT_MIN. -/
theorem int_wrap_max : int_wrap (2147483647 + 1) = -2147483648 := by
  decide

/-- C26 (amended): on the packet type of a sensor channel c (acc, gyro, mag,
heading, cap0, cap1, analog0, analog1; the enumerators being pairwise
distinct), extract_ascii_packet and extract_raw_packet write only the value
fields of c and the sequence counter of c, and extract_ascii_packet in
playback mode also increments the packet count `packets_read`, a C `int`
(`counted`: one more, INT_MAX going to INT_MIN).  The value
fields of every other channel, the counter at every other index, the shaking
and heart-rate fields, the last-event field, the link with the checksum,
lookahead and acknowledgment fields, the thread-signal count and the whole of
the private state but for that packet count are unchanged. -/
theorem c26_sensor_packet_frame (D : Decls) (s : SK6) (b : Buf) (c : Channel)
    (playback has_seq : Bool) (ts : List Nat)
    (ha : (ascii_sensor_types D).Nodup) (hr : (raw_sensor_types D).Nodup) :
    ((∀ c2 : Channel, c2 ≠ c →
        c2.values (extract_ascii_packet D s (c.ascii_type D) b playback ts).2.data
          = c2.values s.data) ∧
      (∀ i : Int, i ≠ c.sensor D →
        (extract_ascii_packet D s (c.ascii_type D) b playback ts).2.data.internal_timestamps i
          = s.data.internal_timestamps i) ∧
      event_fields (extract_ascii_packet D s (c.ascii_type D) b playback ts).2.data
        = event_fields s.data ∧
      (extract_ascii_packet D s (c.ascii_type D) b playback ts).2.devpriv.lastevent
        = s.devpriv.lastevent ∧
      link_part (extract_ascii_packet D s (c.ascii_type D) b playback ts).2 = link_part s ∧
      (extract_ascii_packet D s (c.ascii_type D) b playback ts).2.devpriv
        = counted s.devpriv playback ∧
      (extract_ascii_packet D s (c.ascii_type D) b playback ts).2.thread_signals
        = s.thread_signals) ∧
    ((∀ c2 : Channel, c2 ≠ c →
        c2.values (extract_raw_packet D s (c.raw_type D) b has_seq).2.data = c2.values s.data) ∧
      (∀ i : Int, i ≠ c.sensor D →
        (extract_raw_packet D s (c.raw_type D) b has_seq).2.data.internal_timestamps i
          = s.data.internal_timestamps i) ∧
      event_fields (extract_raw_packet D s (c.raw_type D) b has_seq).2.data
        = event_fields s.data ∧
      (extract_raw_packet D s (c.raw_type D) b has_seq).2.devpriv.lastevent
        = s.devpriv.lastevent ∧
      link_part (extract_raw_packet D s (c.raw_type D) b has_seq).2 = link_part s ∧
      (extract_raw_packet D s (c.raw_type D) b has_seq).2.devpriv = s.devpriv ∧
      (extract_raw_packet D s (c.raw_type D) b has_seq).2.thread_signals = s.thread_signals) := by
  obtain ⟨a1, a2, a3, a4, _, a6⟩ := extract_ascii_channel_frame D s b c playback ts ha
  obtain ⟨r1, r2, r3, r4, r5, r6⟩ := extract_raw_channel_frame D s b c has_seq hr
  refine ⟨⟨a1, a2, a3, ?_, extract_ascii_link D s _ b playback ts, a4, a6⟩,
    ⟨r1, r2, r3, ?_, ?_, r4, r6⟩⟩
  · rw [a4]; rfl
  · rw [r4]
  · unfold link_part
    rw [r4, r5]

/-- C26 witness: the accelerometer packet of the sample table, ASCII in
playback and raw with a sequence byte. -/
theorem c26_sensor_packet_frame_witness :
    ((∀ c2 : Channel, c2 ≠ Channel.acc →
        c2.values (extract_ascii_packet sampleDecls (deviceOn [])
          (Channel.acc.ascii_type sampleDecls) accBuf true []).2.data
          = c2.values (deviceOn []).data) ∧
      (∀ i : Int, i ≠ Channel.acc.sensor sampleDecls →
        (extract_ascii_packet sampleDecls (deviceOn [])
          (Channel.acc.ascii_type sampleDecls) accBuf true []).2.data.internal_timestamps i
          = (deviceOn []).data.internal_timestamps i) ∧
      event_fields (extract_ascii_packet sampleDecls (deviceOn [])
          (Channel.acc.ascii_type sampleDecls) accBuf true []).2.data
        = event_fields (deviceOn []).data ∧
      (extract_ascii_packet sampleDecls (deviceOn [])
          (Channel.acc.ascii_type sampleDecls) accBuf true []).2.devpriv.lastevent
        = (deviceOn []).devpriv.lastevent ∧
      link_part (extract_ascii_packet sampleDecls (deviceOn [])
          (Channel.acc.ascii_type sampleDecls) accBuf true []).2 = link_part (deviceOn []) ∧
      (extract_ascii_packet sampleDecls (deviceOn [])
          (Channel.acc.ascii_type sampleDecls) accBuf true []).2.devpriv
        = counted (deviceOn []).devpriv true ∧
      (extract_ascii_packet sampleDecls (deviceOn [])
          (Channel.acc.ascii_type sampleDecls) accBuf true []).2.thread_signals
        = (deviceOn []).thread_signals) ∧
    ((∀ c2 : Channel, c2 ≠ Channel.acc →
        c2.values (extract_raw_packet sampleDecls (deviceOn [])
          (Channel.acc.raw_type sampleDecls) accBuf true).2.data
          = c2.values (deviceOn []).data) ∧
      (∀ i : Int, i ≠ Channel.acc.sensor sampleDecls →
        (extract_raw_packet sampleDecls (deviceOn [])
          (Channel.acc.raw_type sampleDecls) accBuf true).2.data.internal_timestamps i
          = (deviceOn []).data.internal_timestamps i) ∧
      event_fields (extract_raw_packet sampleDecls (deviceOn [])
          (Channel.acc.raw_type sampleDecls) accBuf true).2.data
        = event_fields (deviceOn []).data ∧
      (extract_raw_packet sampleDecls (deviceOn [])
          (Channel.acc.raw_type sampleDecls) accBuf true).2.devpriv.lastevent
        = (deviceOn []).devpriv.lastevent ∧
      link_part (extract_raw_packet sampleDecls (deviceOn [])
          (Channel.acc.raw_type sampleDecls) accBuf true).2 = link_part (deviceOn []) ∧
      (extract_raw_packet sampleDecls (deviceOn [])
          (Channel.acc.raw_type sampleDecls) accBuf true).2.devpriv = (deviceOn []).devpriv ∧
      (extract_raw_packet sampleDecls (deviceOn [])
          (Channel.acc.raw_type sampleDecls) accBuf true).2.thread_signals
        = (deviceOn []).thread_signals) :=
  c26_sensor_packet_frame sampleDecls (deviceOn []) accBuf Channel.acc true true []
    (by decide) (by decide)

/-- C26 counterexample: on the accelerometer packet `$ACC,+0123,+0456,+0789,05`
in playback mode extract_ascii_packet returns SHAKE_SUCCESS with the
accelerometer fields and counter written, and the packet count `packets_read`
of the private state, which is no field of the accelerometer channel, has gone
from 0 to 1 (SK6.cpp:529-530). -/
theorem c26_counterexample :
    (extract_ascii_packet sampleDecls (deviceOn []) sampleDecls.SK6_DATA_ACC accBuf true []).1
      = Status.SHAKE_SUCCESS ∧
    Channel.acc.values (extract_ascii_packet sampleDecls (deviceOn []) sampleDecls.SK6_DATA_ACC
      accBuf true []).2.data = [123, 456, 789] ∧
    (extract_ascii_packet sampleDecls (deviceOn []) sampleDecls.SK6_DATA_ACC accBuf true
      []).2.data.internal_timestamps sampleDecls.SHAKE_SENSOR_ACC = 5 ∧
    (deviceOn []).devpriv.packets_read = 0 ∧
    (extract_ascii_packet sampleDecls (deviceOn []) sampleDecls.SK6_DATA_ACC accBuf true
      []).2.devpriv.packets_read = 1 := by
  decide

/-! ### C22: who writes the checksum flag -/

/-- The raw extractor leaves the private state as it is but for the last
event. -/
theorem extract_raw_checksum (D : Decls) (s : SK6) (packet_type : Int) (rawpacket : Buf)
    (has_seq : Bool) :
    (extract_raw_packet D s packet_type rawpacket has_seq).2.devpriv.checksum
      = s.devpriv.checksum := by
  apply extract_raw_cases D s packet_type rawpacket has_seq
    (fun r => r.2.devpriv.checksum = s.devpriv.checksum)
  all_goals first
    | rfl
    | (simp only [raw_case_event, raw_case_shaking]; split <;> rfl)

theorem read_raw_frame_checksum (D : Decls) (s : SK6) (packet_type : Int) (packetbuf : Buf) :
    (read_raw_frame D s packet_type packetbuf).state.devpriv.checksum = s.devpriv.checksum := by
  unfold read_raw_frame
  simp only []
  split_ifs <;> rfl

theorem read_raw_packet_checksum (D : Decls) (s : SK6) (packet_type : Int) (packetbuf : Buf) :
    (read_raw_packet D s packet_type packetbuf).2.2.devpriv.checksum = s.devpriv.checksum := by
  have hfr := read_raw_frame_checksum D s packet_type packetbuf
  cases h : read_raw_frame D s packet_type packetbuf with
  | returned code buf s1 =>
    rw [h] at hfr
    unfold read_raw_packet
    rw [h]
    exact hfr
  | framed buf len hs s1 =>
    rw [h] at hfr
    rw [read_raw_packet_of_framed D s packet_type packetbuf buf len hs s1 h]
    exact (extract_raw_checksum D s1 packet_type buf hs).trans hfr

/-- The synchroniser moves the link only. -/
theorem get_next_packet_devpriv (D : Decls) (s : SK6) (packetbuf : Buf) :
    (get_next_packet D s packetbuf).2.2.devpriv = s.devpriv ∧
    (get_next_packet D s packetbuf).2.2.data = s.data := by
  unfold get_next_packet
  simp only []
  split_ifs <;> exact ⟨rfl, rfl⟩

theorem checksum_outcome_ineligible (D : Decls) (s : SK6) (packet_type : Int) (packetbuf : Buf)
    (playback : Bool) (h : D.sk6_packet_has_checksum packet_type = 0) :
    checksum_outcome D s packet_type packetbuf playback = none := by
  unfold checksum_outcome
  simp only [h, ne_eq, not_true_eq_false, if_false, ite_self]

/-- The framing of read_ascii_packet leaves the checksum flag alone when the
type whose body it frames is not checksum-eligible. -/
theorem read_ascii_frame_ineligible (D : Decls) (s : SK6) (packet_type : Int) (buf : Buf)
    (h : D.sk6_packet_has_checksum (framed_type D s packet_type buf) = 0) :
    (read_ascii_frame D s packet_type buf).state.devpriv.checksum = s.devpriv.checksum := by
  unfold framed_type at h
  by_cases hT : packet_type = D.SK6_DATA_TIMESTAMP
  · rw [if_pos hT] at h
    subst hT
    obtain ⟨ts, hfr⟩ := read_ascii_frame_inner D s buf
    rw [hfr, ascii_body_checksum, checksum_outcome_ineligible D _ _ _ true h]
    rfl
  · rw [if_neg hT] at h
    by_cases hsp : packet_type = D.SK6_DATA_PLAYBACK_COMPLETE ∨ packet_type = D.SK6_DATA_RFID_TID
        ∨ packet_type = D.SK6_STARTUP_INFO
    · exact read_ascii_frame_special D s packet_type buf hT hsp
    · have hP : packet_type ≠ D.SK6_DATA_PLAYBACK_COMPLETE := fun h => hsp (Or.inl h)
      have hR : packet_type ≠ D.SK6_DATA_RFID_TID := fun h => hsp (Or.inr (Or.inl h))
      have hS : packet_type ≠ D.SK6_STARTUP_INFO := fun h => hsp (Or.inr (Or.inr h))
      rw [read_ascii_frame_generic D s packet_type buf hT hP hR hS, ascii_body_checksum,
        checksum_outcome_ineligible D _ _ _ false h]
      rfl

/-- C22: the checksum flag is written by read_ascii_packet alone, and only on a
checksum-eligible packet type, the type being the one whose body the function
frames (SK6.cpp:116-161): the type passed in, or the inner type when a
timestamp envelope is passed in.  read_raw_packet, extract_raw_packet,
extract_ascii_packet, parse_ascii_packet and get_next_packet leave the flag
equal to its prior value on every input (classify_packet_header is a function
of the header bytes alone and has no access to the device), and so does
read_ascii_packet whenever the framed type is not checksum-eligible, in
particular on every type passed in that is not the envelope and not
checksum-eligible. -/
theorem c22_checksum_flag_writers (D : Decls) (s : SK6) (packet_type : Int) (buf : Buf)
    (has_seq playback : Bool) (len : Int) (ts : List Nat) :
    (read_raw_packet D s packet_type buf).2.2.devpriv.checksum = s.devpriv.checksum ∧
    (extract_raw_packet D s packet_type buf has_seq).2.devpriv.checksum = s.devpriv.checksum ∧
    (extract_ascii_packet D s packet_type buf playback ts).2.devpriv.checksum
      = s.devpriv.checksum ∧
    (parse_ascii_packet D s packet_type buf len playback ts).2.devpriv.checksum
      = s.devpriv.checksum ∧
    (get_next_packet D s buf).2.2.devpriv.checksum = s.devpriv.checksum ∧
    (D.sk6_packet_has_checksum (framed_type D s packet_type buf) = 0 →
      (read_ascii_packet D s packet_type buf).2.2.devpriv.checksum = s.devpriv.checksum) ∧
    (packet_type ≠ D.SK6_DATA_TIMESTAMP → D.sk6_packet_has_checksum packet_type = 0 →
      (read_ascii_packet D s packet_type buf).2.2.devpriv.checksum = s.devpriv.checksum) := by
  refine ⟨read_raw_packet_checksum D s packet_type buf,
    extract_raw_checksum D s packet_type buf has_seq,
    congrArg (fun x => x.2.1) (extract_ascii_link D s packet_type buf playback ts),
    (parse_ascii_port_checksum D s packet_type buf len playback ts).2,
    congrArg DevPriv.checksum (get_next_packet_devpriv D s buf).1, fun h => ?_, fun hT h => ?_⟩
  · rw [(read_ascii_packet_port_checksum D s packet_type buf).2]
    exact read_ascii_frame_ineligible D s packet_type buf h
  · rw [(read_ascii_packet_port_checksum D s packet_type buf).2]
    apply read_ascii_frame_ineligible D s packet_type buf
    unfold framed_type
    rw [if_neg hT]
    exact h

/-- C22 witness: the flag is on and stays on through each operation; the type
read by read_ascii_packet is the navigation packet `$NVU` of the sample table
(6 bytes, not checksum-eligible). -/
theorem c22_checksum_flag_writers_witness :
    sampleDecls.sk6_packet_has_checksum
      (framed_type sampleDecls (withChecksum (deviceOn [13, 10, 36]) true) 8 zeroBuf) = 0 ∧
    (read_ascii_packet sampleDecls (withChecksum (deviceOn [13, 10, 36]) true) 8
      zeroBuf).2.2.devpriv.checksum = (withChecksum (deviceOn [13, 10, 36]) true).devpriv.checksum ∧
    (read_raw_packet sampleDecls (withChecksum (deviceOn [13, 10, 36]) true) 8
      zeroBuf).2.2.devpriv.checksum = (withChecksum (deviceOn [13, 10, 36]) true).devpriv.checksum ∧
    (get_next_packet sampleDecls (withChecksum (deviceOn [13, 10, 36]) true)
      zeroBuf).2.2.devpriv.checksum = (withChecksum (deviceOn [13, 10, 36]) true).devpriv.checksum :=
  ⟨by decide,
    (c22_checksum_flag_writers sampleDecls (withChecksum (deviceOn [13, 10, 36]) true) 8 zeroBuf
      true false 6 []).2.2.2.2.2.1 (by decide),
    (c22_checksum_flag_writers sampleDecls (withChecksum (deviceOn [13, 10, 36]) true) 8 zeroBuf
      true false 6 []).1,
    (c22_checksum_flag_writers sampleDecls (withChecksum (deviceOn [13, 10, 36]) true) 8 zeroBuf
      true false 6 []).2.2.2.2.1⟩

/-! ### C25: the table indices of read_ascii_packet -/

/-- The inner type of a timestamp envelope is used as a table index as the
classifier returned it. -/
theorem read_ascii_indices_envelope (D : Decls) (s : SK6) (buf : Buf) :
    envelope_inner D s buf ∈ read_ascii_indices D s D.SK6_DATA_TIMESTAMP buf := by
  unfold read_ascii_indices envelope_inner envelope_read ascii_body_indices
  rw [if_pos rfl]
  simp only []
  split_ifs <;> simp

/-- Outside the timestamp branch every index is the type passed in. -/
theorem read_ascii_indices_direct (D : Decls) (s : SK6) (packet_type : Int) (buf : Buf)
    (hT : packet_type ≠ D.SK6_DATA_TIMESTAMP) :
    ∀ i ∈ read_ascii_indices D s packet_type buf, i = packet_type := by
  unfold read_ascii_indices ascii_body_indices
  rw [if_neg hT]
  simp only []
  split_ifs <;> simp

/-- C25: the lookup for the inner type of a timestamp envelope is out of range
when the four bytes after the envelope are no packet code.  In the sample
table the timestamp type 16 is the type the classifier returns for `$TIM` and
is in range; read_ascii_packet on type 16, for the envelope `,0000001234,`
followed by `XXXX`, indexes the length table with 16, 16 and then with the
inner type -1 (SHAKE_BAD_PACKET), which is outside [0, SK6_NUM_PACKET_TYPES). -/
theorem c25_inner_index_out_of_range :
    classify_packet_header sampleDecls (store zeroBuf 0 [36, 84, 73, 77]) SK6_HEADER_LEN true
      = sampleDecls.SK6_DATA_TIMESTAMP ∧
    in_table_range sampleDecls sampleDecls.SK6_DATA_TIMESTAMP ∧
    envelope_inner sampleDecls
      (deviceOn ([44, 48, 48, 48, 48, 48, 48, 49, 50, 51, 52, 44] ++ [88, 88, 88, 88]))
      zeroBuf = sampleDecls.SHAKE_BAD_PACKET ∧
    read_ascii_indices sampleDecls
      (deviceOn ([44, 48, 48, 48, 48, 48, 48, 49, 50, 51, 52, 44] ++ [88, 88, 88, 88]))
      sampleDecls.SK6_DATA_TIMESTAMP zeroBuf = [16, 16, -1] ∧
    ¬ in_table_range sampleDecls sampleDecls.SHAKE_BAD_PACKET := by
  unfold in_table_range
  decide

end ShakeSK6
